import Mathlib

/-!
Verification of the Mahjong solitaire game engine (src/game/engine.ts,
src/game/tiles.ts, src/game/layouts.ts) against its natural-language
specification.

The TypeScript source is shallowly embedded: JS numbers holding grid
coordinates are modelled as rationals (all coordinates are integers or
half-integers, and the tolerance constants 0.9 and 1.1 are exact decimal
fractions, so every comparison performed by the code is exact), JS arrays as
lists, `Map` objects as association lists in key-insertion order, and
`Math.random()`-driven choices as an explicit oracle `ℕ → ℕ` consumed one
sample at a time.
-/

/-- A tile type from the static catalog (tiles.ts `TileType`).  The
display-only fields `value`, `symbol` and `name` are never read by the game
logic and are omitted. -/
structure TileType where
  id : String
  category : String
  matchGroup : Option String := none
deriving DecidableEq, Repr

/-- Circles (Dots) 1-9. -/
def circles : List TileType :=
  (List.range 9).map fun i => { id := s!"circles-{i + 1}", category := "circles" }

/-- Bamboo (Sticks) 1-9. -/
def bamboo : List TileType :=
  (List.range 9).map fun i => { id := s!"bamboo-{i + 1}", category := "bamboo" }

/-- Characters (Numbers) 1-9. -/
def characters : List TileType :=
  (List.range 9).map fun i => { id := s!"characters-{i + 1}", category := "characters" }

/-- Winds. -/
def winds : List TileType :=
  [{ id := "wind-east", category := "winds" },
   { id := "wind-south", category := "winds" },
   { id := "wind-west", category := "winds" },
   { id := "wind-north", category := "winds" }]

/-- Dragons. -/
def dragons : List TileType :=
  [{ id := "dragon-red", category := "dragons" },
   { id := "dragon-green", category := "dragons" },
   { id := "dragon-white", category := "dragons" }]

/-- Seasons (bonus tiles - any season matches any season). -/
def seasons : List TileType :=
  [{ id := "season-spring", category := "seasons", matchGroup := some "seasons" },
   { id := "season-summer", category := "seasons", matchGroup := some "seasons" },
   { id := "season-autumn", category := "seasons", matchGroup := some "seasons" },
   { id := "season-winter", category := "seasons", matchGroup := some "seasons" }]

/-- Flowers (bonus tiles - any flower matches any flower). -/
def flowers : List TileType :=
  [{ id := "flower-plum", category := "flowers", matchGroup := some "flowers" },
   { id := "flower-orchid", category := "flowers", matchGroup := some "flowers" },
   { id := "flower-chrysanthemum", category := "flowers", matchGroup := some "flowers" },
   { id := "flower-bamboo", category := "flowers", matchGroup := some "flowers" }]

/-- tiles.ts `ALL_TILE_TYPES`. -/
def ALL_TILE_TYPES : List TileType :=
  circles ++ bamboo ++ characters ++ winds ++ dragons ++ seasons ++ flowers

/-- tiles.ts `STANDARD_TILES`. -/
def STANDARD_TILES : List TileType :=
  circles ++ bamboo ++ characters ++ winds ++ dragons

/-- tiles.ts `getTileTypeById`. -/
def getTileTypeById (typeId : String) : Option TileType :=
  ALL_TILE_TYPES.find? fun t => t.id == typeId

/-- tiles.ts `tilesMatch`.  The JS truthiness test `type1.matchGroup &&`
is false exactly for a missing or empty-string `matchGroup`. -/
def tilesMatch (type1 type2 : TileType) : Bool :=
  if type1.id == type2.id then true
  else
    match type1.matchGroup, type2.matchGroup with
    | some g1, some g2 => g1 != "" && g2 != "" && g1 == g2
    | _, _ => false

/-- A tile instance on the board (tiles.ts `TileInstance`). -/
structure TileInstance where
  id : String
  typeId : String
  x : ℚ
  y : ℚ
  z : ℚ
  isRemoved : Bool
deriving DecidableEq, Repr

/-- engine.ts `isFreeTile`. -/
def isFreeTile (tile : TileInstance) (allTiles : List TileInstance) : Bool :=
  if tile.isRemoved then false
  else
    let activeTiles := allTiles.filter fun t => !t.isRemoved
    let hasBlockingTop := activeTiles.any fun other =>
      other.id != tile.id && decide (other.z > tile.z) &&
      decide (|other.x - tile.x| < 0.9) && decide (|other.y - tile.y| < 0.9)
    if hasBlockingTop then false
    else
      let hasBlockingLeft := activeTiles.any fun other =>
        other.id != tile.id && decide (other.z = tile.z) &&
        decide (|other.y - tile.y| < 0.9) &&
        decide (other.x < tile.x) && decide (tile.x - other.x < 1.1)
      let hasBlockingRight := activeTiles.any fun other =>
        other.id != tile.id && decide (other.z = tile.z) &&
        decide (|other.y - tile.y| < 0.9) &&
        decide (other.x > tile.x) && decide (other.x - tile.x < 1.1)
      !hasBlockingLeft || !hasBlockingRight

/-- All ordered-as-discovered pairs of the double iteration
`for i; for j > i` over a list. -/
def allPairs : List α → List (α × α)
  | [] => []
  | x :: xs => (xs.map fun y => (x, y)) ++ allPairs xs

/-- engine.ts `findAllMatches`.  The `typeMap` memo in the source caches
`getTileTypeById` results keyed by its argument and re-queries on a cached
`undefined`, so it is observationally identical to calling
`getTileTypeById` directly; the embedding does the direct call. -/
def findAllMatches (tiles : List TileInstance) : List (TileInstance × TileInstance) :=
  let activeTiles := tiles.filter fun t => !t.isRemoved
  let freeTiles := activeTiles.filter fun t => isFreeTile t activeTiles
  (allPairs freeTiles).filter fun p =>
    match getTileTypeById p.1.typeId, getTileTypeById p.2.typeId with
    | some t1, some t2 => tilesMatch t1 t2
    | _, _ => false

/-- engine.ts `checkWin`. -/
def checkWin (tiles : List TileInstance) : Bool :=
  tiles.all fun t => t.isRemoved

/-- engine.ts `checkStuck`. -/
def checkStuck (tiles : List TileInstance) : Bool :=
  if checkWin tiles then false
  else (findAllMatches tiles).length == 0

/-- engine.ts `removeTilePair`. -/
def removeTilePair (tiles : List TileInstance) (tile1Id tile2Id : String) :
    List TileInstance :=
  tiles.map fun t =>
    if t.id == tile1Id || t.id == tile2Id then { t with isRemoved := true } else t

/-- engine.ts `getHint`. -/
def getHint (tiles : List TileInstance) : Option (String × String) :=
  match findAllMatches tiles with
  | [] => none
  | m :: _ => some (m.1.id, m.2.id)

/-! ### Spec-side predicates (written from the specification's words, for
comparison with the source-side definitions) -/

/-- Spec §4.1: blocked from above — some other (different id) non-removed tile
occupies a strictly higher z-layer and overlaps in x and y within 0.9. -/
def specBlockedAbove (tile : TileInstance) (allTiles : List TileInstance) : Bool :=
  allTiles.any fun other =>
    !other.isRemoved && other.id != tile.id && decide (other.z > tile.z) &&
    decide (|other.x - tile.x| < 0.9) && decide (|other.y - tile.y| < 0.9)

/-- Spec §4.1: blocked left — another non-removed tile at the same z and same
row (y within 0.9) lies strictly to the left within 1.1 units. -/
def specBlockedLeft (tile : TileInstance) (allTiles : List TileInstance) : Bool :=
  allTiles.any fun other =>
    !other.isRemoved && other.id != tile.id && decide (other.z = tile.z) &&
    decide (|other.y - tile.y| < 0.9) &&
    decide (other.x < tile.x) && decide (tile.x - other.x < 1.1)

/-- Spec §4.1: blocked right — symmetric to `specBlockedLeft`. -/
def specBlockedRight (tile : TileInstance) (allTiles : List TileInstance) : Bool :=
  allTiles.any fun other =>
    !other.isRemoved && other.id != tile.id && decide (other.z = tile.z) &&
    decide (|other.y - tile.y| < 0.9) &&
    decide (other.x > tile.x) && decide (other.x - tile.x < 1.1)

/-- Spec §4.2: the free subset — non-removed tiles that are free. -/
def specFreeTiles (tiles : List TileInstance) : List TileInstance :=
  tiles.filter fun t => !t.isRemoved && isFreeTile t tiles

/-- Spec §3/§4.2 match predicate on two instances: the two resolved types are
identical (same type id) or share an equal non-empty `matchGroup`. -/
def specTypesMatch (a b : TileInstance) : Bool :=
  match getTileTypeById a.typeId, getTileTypeById b.typeId with
  | some ta, some tb =>
      ta.id == tb.id ||
      (match ta.matchGroup, tb.matchGroup with
       | some g1, some g2 => g1 != "" && g2 != "" && g1 == g2
       | _, _ => false)
  | _, _ => false

/-- Spec §4.2: all unordered pairs among free tiles whose types match, in
double-iteration order (outer index then inner index). -/
def specFindAllMatches (tiles : List TileInstance) : List (TileInstance × TileInstance) :=
  (allPairs (specFreeTiles tiles)).filter fun p => specTypesMatch p.1 p.2

/-- Filtering the active (non-removed) sublist does not change `isFreeTile`,
because `isFreeTile` filters removed tiles itself. -/
theorem isFreeTile_filter_active (t : TileInstance) (tiles : List TileInstance) :
    isFreeTile t (tiles.filter fun x => !x.isRemoved) = isFreeTile t tiles := by
  unfold isFreeTile
  rw [List.filter_filter]
  simp only [Bool.and_self]

/-- C2: `isFreeTile` returns false when some other non-removed tile sits above
within the 0.9 tolerance; otherwise it is true iff the tile is not removed and
not simultaneously blocked on the left and on the right; a removed tile is
never free. -/
theorem isFreeTile_spec (tile : TileInstance) (allTiles : List TileInstance) :
    isFreeTile tile allTiles =
      (!tile.isRemoved && !specBlockedAbove tile allTiles &&
        !(specBlockedLeft tile allTiles && specBlockedRight tile allTiles)) := by
  unfold isFreeTile specBlockedAbove specBlockedLeft specBlockedRight
  by_cases hrm : tile.isRemoved
  · simp [hrm]
  · simp only [hrm, if_false, Bool.not_false, Bool.true_and]
    rw [List.any_filter, List.any_filter, List.any_filter]
    set A := allTiles.any fun other =>
      (!other.isRemoved &&
        (other.id != tile.id && decide (other.z > tile.z) &&
          decide (|other.x - tile.x| < 0.9) && decide (|other.y - tile.y| < 0.9))) with hA
    set L := allTiles.any fun other =>
      (!other.isRemoved &&
        (other.id != tile.id && decide (other.z = tile.z) &&
          decide (|other.y - tile.y| < 0.9) &&
          decide (other.x < tile.x) && decide (tile.x - other.x < 1.1))) with hL
    set R := allTiles.any fun other =>
      (!other.isRemoved &&
        (other.id != tile.id && decide (other.z = tile.z) &&
          decide (|other.y - tile.y| < 0.9) &&
          decide (other.x > tile.x) && decide (other.x - tile.x < 1.1))) with hR
    have hA' : (allTiles.any fun other =>
        !other.isRemoved && other.id != tile.id && decide (other.z > tile.z) &&
          decide (|other.x - tile.x| < 0.9) && decide (|other.y - tile.y| < 0.9)) = A := by
      rw [hA]; congr 1; funext other; cases other.isRemoved <;> simp
    have hL' : (allTiles.any fun other =>
        !other.isRemoved && other.id != tile.id && decide (other.z = tile.z) &&
          decide (|other.y - tile.y| < 0.9) &&
          decide (other.x < tile.x) && decide (tile.x - other.x < 1.1)) = L := by
      rw [hL]; congr 1; funext other; cases other.isRemoved <;> simp
    have hR' : (allTiles.any fun other =>
        !other.isRemoved && other.id != tile.id && decide (other.z = tile.z) &&
          decide (|other.y - tile.y| < 0.9) &&
          decide (other.x > tile.x) && decide (other.x - tile.x < 1.1)) = R := by
      rw [hR]; congr 1; funext other; cases other.isRemoved <;> simp
    rw [hA', hL', hR']
    cases A <;> cases L <;> cases R <;> simp

/-- The per-pair predicate used by `findAllMatches` agrees with the spec's
match predicate on resolved types. -/
theorem matcher_eq_specTypesMatch (a b : TileInstance) :
    (match getTileTypeById a.typeId, getTileTypeById b.typeId with
     | some t1, some t2 => tilesMatch t1 t2
     | _, _ => false) = specTypesMatch a b := by
  unfold specTypesMatch
  cases getTileTypeById a.typeId with
  | none => rfl
  | some t1 =>
    cases getTileTypeById b.typeId with
    | none => rfl
    | some t2 =>
      show tilesMatch t1 t2 = _
      cases h : (t1.id == t2.id) <;> simp [tilesMatch, h]

/-- C3: `findAllMatches` returns exactly the matching pairs of free tiles in
double-iteration order, and `getHint` returns the ids of the first such pair
(or none). -/
theorem findAllMatches_getHint_spec (tiles : List TileInstance) :
    findAllMatches tiles = specFindAllMatches tiles ∧
    getHint tiles = ((findAllMatches tiles).head?.map fun m => (m.1.id, m.2.id)) := by
  constructor
  · show (allPairs ((tiles.filter fun t => !t.isRemoved).filter
        fun t => isFreeTile t (tiles.filter fun x => !x.isRemoved))).filter _ = _
    have hfree : (tiles.filter fun t => !t.isRemoved).filter
        (fun t => isFreeTile t (tiles.filter fun x => !x.isRemoved)) = specFreeTiles tiles := by
      rw [List.filter_filter]
      unfold specFreeTiles
      apply List.filter_congr
      intro t _
      rw [isFreeTile_filter_active, Bool.and_comm]
    rw [hfree]
    unfold specFindAllMatches
    apply List.filter_congr
    intro p _
    rw [matcher_eq_specTypesMatch]
  · cases h : findAllMatches tiles with
    | nil => simp [getHint, h]
    | cons m rest => simp [getHint, h]

/-- C5: `removeTilePair` marks exactly the instances with a named id as
removed, leaves everything else (and already-removed instances) unchanged,
is a no-op when neither id occurs, and is idempotent. -/
theorem removeTilePair_spec (tiles : List TileInstance) (id1 id2 : String) :
    removeTilePair tiles id1 id2 =
      (tiles.map fun t =>
        if t.id = id1 ∨ t.id = id2 then { t with isRemoved := true } else t) ∧
    ((∀ t ∈ tiles, t.id ≠ id1 ∧ t.id ≠ id2) → removeTilePair tiles id1 id2 = tiles) ∧
    (∀ t ∈ tiles, t.isRemoved = true →
      (if t.id = id1 ∨ t.id = id2 then { t with isRemoved := true } else t) = t) ∧
    removeTilePair (removeTilePair tiles id1 id2) id1 id2 = removeTilePair tiles id1 id2 := by
  refine ⟨?_, ?_, ?_, ?_⟩
  · unfold removeTilePair
    apply List.map_congr_left
    intro t _
    by_cases h : t.id = id1 ∨ t.id = id2
    · have hb : (t.id == id1 || t.id == id2) = true := by
        rcases h with h | h <;> simp [h]
      simp [hb, h]
    · push_neg at h
      have hb : (t.id == id1 || t.id == id2) = false := by
        simp [h.1, h.2]
      simp [hb, h.1, h.2]
  · intro h
    unfold removeTilePair
    conv_rhs => rw [← List.map_id tiles]
    apply List.map_congr_left
    intro t ht
    have hb : (t.id == id1 || t.id == id2) = false := by
      simp [(h t ht).1, (h t ht).2]
    simp [hb]
  · intro t _ hrm
    by_cases h : t.id = id1 ∨ t.id = id2
    · rw [if_pos h]
      cases t
      simp_all
    · rw [if_neg h]
  · unfold removeTilePair
    rw [List.map_map]
    apply List.map_congr_left
    intro t _
    by_cases h : (t.id == id1 || t.id == id2) = true
    · simp [Function.comp, h]
    · have hb : (t.id == id1 || t.id == id2) = false := by
        revert h; cases (t.id == id1 || t.id == id2) <;> simp
      simp [Function.comp, hb]

/-- C6: `checkWin` is true iff every instance is removed; `checkStuck` is true
iff not won and no matches exist; the two are never both true. -/
theorem checkWin_checkStuck_spec (tiles : List TileInstance) :
    (checkWin tiles = true ↔ ∀ t ∈ tiles, t.isRemoved = true) ∧
    (checkStuck tiles = true ↔ (checkWin tiles = false ∧ findAllMatches tiles = [])) ∧
    ¬(checkWin tiles = true ∧ checkStuck tiles = true) := by
  refine ⟨?_, ?_, ?_⟩
  · simp [checkWin, List.all_eq_true]
  · unfold checkStuck
    cases h : checkWin tiles with
    | true => simp [h]
    | false => simp [h, List.length_eq_zero]
  · intro ⟨hw, hs⟩
    unfold checkStuck at hs
    rw [hw] at hs
    simp at hs

/-- Look up two catalog types by id and apply the match predicate. -/
def matchIds (id1 id2 : String) : Option Bool :=
  match getTileTypeById id1, getTileTypeById id2 with
  | some t1, some t2 => some (tilesMatch t1 t2)
  | _, _ => none

/-- C7: `tilesMatch` holds exactly for identical ids or an equal non-empty
match group; seasons match each other, seasons never match flowers, and
distinct standard tiles (circles-1 vs bamboo-1) never match. -/
theorem tilesMatch_spec :
    (∀ t1 t2 : TileType, tilesMatch t1 t2 = true ↔
      (t1.id = t2.id ∨ ∃ g, g ≠ "" ∧ t1.matchGroup = some g ∧ t2.matchGroup = some g)) ∧
    matchIds "season-spring" "season-summer" = some true ∧
    matchIds "season-spring" "flower-plum" = some false ∧
    matchIds "circles-1" "bamboo-1" = some false := by
  refine ⟨?_, by decide, by decide, by decide⟩
  intro t1 t2
  unfold tilesMatch
  by_cases hid : t1.id = t2.id
  · simp [hid]
  · have hb : (t1.id == t2.id) = false := by simp [hid]
    simp only [hb, Bool.false_eq_true, if_false]
    cases hg1 : t1.matchGroup with
    | none => simp [hid]
    | some g1 =>
      cases hg2 : t2.matchGroup with
      | none => simp [hid]
      | some g2 =>
        simp only [Bool.and_eq_true, bne_iff_ne, ne_eq, beq_iff_eq]
        constructor
        · rintro ⟨⟨hne1, _⟩, heq⟩
          exact Or.inr ⟨g1, hne1, rfl, by rw [heq]⟩
        · rintro (h | ⟨g, hne, hg1', hg2'⟩)
          · exact absurd h hid
          · injection hg1' with e1
            injection hg2' with e2
            subst e1
            subst e2
            exact ⟨⟨hne, hne⟩, rfl⟩

/-- C10: the empty tile collection counts as won and is not stuck. -/
theorem checkWin_checkStuck_empty :
    checkWin ([] : List TileInstance) = true ∧
    checkStuck ([] : List TileInstance) = false :=
  ⟨rfl, rfl⟩

/-! ### Layout catalog (layouts.ts) -/

/-- A 3-D grid position (layouts.ts `LayoutPosition`). -/
structure LayoutPosition where
  x : ℚ
  y : ℚ
  z : ℚ
deriving DecidableEq, Repr

/-- A named board shape (layouts.ts `Layout`). -/
structure Layout where
  id : String
  name : String
  description : String
  positions : List LayoutPosition
deriving Repr

/-- layouts.ts `generateRow`: `count` cells `[y, startX + i]`. -/
def generateRow (y startX : ℚ) (count : ℕ) : List (ℚ × ℚ) :=
  (List.range count).map fun i => (y, startX + i)

/-- layouts.ts `generateTurtlePositions`. -/
def generateTurtlePositions : List LayoutPosition :=
  let layer0 : List (ℚ × ℚ) :=
    [(0, 3), (0, 4)] ++
    generateRow 1 1 12 ++ generateRow 2 0 14 ++ generateRow 3 0 14 ++
    generateRow 4 0 14 ++ generateRow 5 0 14 ++ generateRow 6 1 12 ++
    [(7, 3), (7, 4)]
  let l0 := layer0.map fun yx => ({ x := yx.2, y := yx.1, z := 0 } : LayoutPosition)
  let l1 := (List.range' 1 6).flatMap fun y =>
    (List.range' 2 10).map fun x => ({ x := (x : ℚ), y := (y : ℚ), z := 1 } : LayoutPosition)
  let l2 := (List.range' 2 4).flatMap fun y =>
    (List.range' 4 6).map fun x => ({ x := (x : ℚ), y := (y : ℚ), z := 2 } : LayoutPosition)
  let l3 := (List.range' 3 2).flatMap fun y =>
    (List.range' 5 4).map fun x => ({ x := (x : ℚ), y := (y : ℚ), z := 3 } : LayoutPosition)
  let l4 : List LayoutPosition :=
    [{ x := 6, y := 3, z := 4 }, { x := 7, y := 3, z := 4 },
     { x := 6, y := 4, z := 4 }, { x := 7, y := 4, z := 4 }]
  let cap : List LayoutPosition := [{ x := 6.5, y := 3.5, z := 5 }]
  (l0 ++ l1 ++ l2 ++ l3 ++ l4 ++ cap).take 144

/-- layouts.ts `generatePyramidPositions`. -/
def generatePyramidPositions : List LayoutPosition :=
  let layerSizes : List (ℕ × ℕ) := [(12, 12), (10, 10), (8, 8), (6, 6), (4, 4)]
  (layerSizes.enum.flatMap fun zs =>
    (List.range zs.2.2).flatMap fun y =>
      (List.range zs.2.1).map fun x =>
        ({ x := (x : ℚ) + zs.1, y := (y : ℚ) + zs.1, z := (zs.1 : ℚ) } : LayoutPosition)).take 144

/-- layouts.ts `generateDragonPositions`. -/
def generateDragonPositions : List LayoutPosition :=
  let l0a := (List.range 16).flatMap fun x =>
    (List.range 3).map fun y => ({ x := (x : ℚ), y := (y : ℚ), z := 0 } : LayoutPosition)
  let l0b := (List.range' 3 3).flatMap fun y =>
    (List.range' 13 3).map fun x => ({ x := (x : ℚ), y := (y : ℚ), z := 0 } : LayoutPosition)
  let l0c := (List.range 16).flatMap fun x =>
    (List.range' 6 3).map fun y => ({ x := (x : ℚ), y := (y : ℚ), z := 0 } : LayoutPosition)
  let l1a := (List.range' 2 12).flatMap fun x =>
    (List.range' 1 1).map fun y => ({ x := (x : ℚ), y := (y : ℚ), z := 1 } : LayoutPosition)
  let l1b := (List.range' 2 12).flatMap fun x =>
    (List.range' 7 1).map fun y => ({ x := (x : ℚ), y := (y : ℚ), z := 1 } : LayoutPosition)
  let l2 := (List.range' 4 8).flatMap fun x =>
    [({ x := (x : ℚ), y := 1, z := 2 } : LayoutPosition),
     ({ x := (x : ℚ), y := 7, z := 2 } : LayoutPosition)]
  (l0a ++ l0b ++ l0c ++ l1a ++ l1b ++ l2).take 144

/-- layouts.ts `generateFortressPositions`. -/
def generateFortressPositions : List LayoutPosition :=
  let base := (List.range 8).flatMap fun y =>
    (List.range 14).map fun x => ({ x := (x : ℚ), y := (y : ℚ), z := 0 } : LayoutPosition)
  let towers : List (ℚ × ℚ) := [(0, 0), (0, 7), (12, 0), (12, 7)]
  let towerL1 := towers.flatMap fun t =>
    (List.range 2).map fun dx => ({ x := t.1 + dx, y := t.2, z := 1 } : LayoutPosition)
  let centerL1 := (List.range' 2 4).flatMap fun y =>
    (List.range' 4 6).map fun x => ({ x := (x : ℚ), y := (y : ℚ), z := 1 } : LayoutPosition)
  let centerL2 := (List.range' 3 2).flatMap fun y =>
    (List.range' 5 4).map fun x => ({ x := (x : ℚ), y := (y : ℚ), z := 2 } : LayoutPosition)
  let towerTops := towers.map fun t =>
    ({ x := t.1 + 0.5, y := t.2 + 0.5, z := 2 } : LayoutPosition)
  (base ++ towerL1 ++ centerL1 ++ centerL2 ++ towerTops).take 144

/-- layouts.ts `generateBridgePositions`.  Note the pillar loop `for (let y =
0; y < 2; y++)` never uses `y` and pushes the pair of positions `(px, 0, 0)`
and `(px, 7, 0)` twice per pillar. -/
def generateBridgePositions : List LayoutPosition :=
  let road := (List.range 18).flatMap fun x =>
    (List.range' 2 4).map fun y => ({ x := (x : ℚ), y := (y : ℚ), z := 0 } : LayoutPosition)
  let pillars : List ℚ := [1, 5, 9, 13, 17]
  let pillarTiles := pillars.flatMap fun px =>
    (List.range 2).flatMap fun _y =>
      [({ x := px, y := 0, z := 0 } : LayoutPosition),
       ({ x := px, y := 7, z := 0 } : LayoutPosition)]
  let railings := (List.range 8).flatMap fun i =>
    [({ x := (1 : ℚ) + 2 * i, y := 2, z := 1 } : LayoutPosition),
     ({ x := (1 : ℚ) + 2 * i, y := 5, z := 1 } : LayoutPosition)]
  let tower := (List.range' 3 2).flatMap fun y =>
    (List.range' 8 2).flatMap fun x =>
      [({ x := (x : ℚ), y := (y : ℚ), z := 1 } : LayoutPosition),
       ({ x := (x : ℚ), y := (y : ℚ), z := 2 } : LayoutPosition)]
  (road ++ pillarTiles ++ railings ++ tower).take 144

/-- layouts.ts `turtleLayout`. -/
def turtleLayout : Layout :=
  { id := "turtle", name := "Turtle",
    description := "The classic Mahjong Solitaire layout",
    positions := generateTurtlePositions }

/-- layouts.ts `pyramidLayout`. -/
def pyramidLayout : Layout :=
  { id := "pyramid", name := "Pyramid",
    description := "A simple triangular pyramid",
    positions := generatePyramidPositions }

/-- layouts.ts `dragonLayout`. -/
def dragonLayout : Layout :=
  { id := "dragon", name := "Dragon",
    description := "A serpentine dragon shape",
    positions := generateDragonPositions }

/-- layouts.ts `fortressLayout`. -/
def fortressLayout : Layout :=
  { id := "fortress", name := "Fortress",
    description := "A castle with towers",
    positions := generateFortressPositions }

/-- layouts.ts `bridgeLayout`. -/
def bridgeLayout : Layout :=
  { id := "bridge", name := "Bridge",
    description := "A horizontal bridge with arches",
    positions := generateBridgePositions }

/-- layouts.ts `LAYOUTS`. -/
def LAYOUTS : List Layout :=
  [turtleLayout, pyramidLayout, dragonLayout, fortressLayout, bridgeLayout]

/-! ### Randomness model

`Math.random()`-driven choices are modelled by an oracle `ℕ → ℕ` together
with a counter of how many samples have been consumed.  The JS expression
`Math.floor(Math.random() * n)` yields an arbitrary value in `0..n-1`, so it
is modelled as `o k % n`; every value the JS code can produce corresponds to
some oracle and conversely. -/

/-- A source of random choices. -/
def Oracle : Type := ℕ → ℕ

/-- One sample of `Math.floor(Math.random() * n)`: a value below `n` plus
the advanced counter. -/
def randFloor (o : Oracle) (k n : ℕ) : ℕ × ℕ :=
  (if n = 0 then 0 else o k % n, k + 1)

/-- Swap two positions of a list (the `[a[i], a[j]] = [a[j], a[i]]` idiom). -/
def listSwap (l : List α) (i j : ℕ) : List α :=
  match l[i]?, l[j]? with
  | some a, some b => (l.set i b).set j a
  | _, _ => l

/-- The Fisher-Yates loop body, from index `i` down to 1. -/
def fisherYatesAux (o : Oracle) (arr : List α) : ℕ → ℕ → List α × ℕ
  | 0, k => (arr, k)
  | i + 1, k =>
    let jk := randFloor o k (i + 2)
    fisherYatesAux o (listSwap arr (i + 1) jk.1) i jk.2

/-- Fisher-Yates shuffle (`for (let i = arr.length - 1; i > 0; i--) ...`). -/
def fisherYates (o : Oracle) (arr : List α) (k : ℕ) : List α × ℕ :=
  fisherYatesAux o arr (arr.length - 1) k

/-! ### Board generation (engine.ts `generateBoard`) -/

/-- A game board (engine.ts `GameBoard`). -/
structure GameBoard where
  tiles : List TileInstance
  layout : Layout

/-- JS truthiness of the optional `matchGroup` field. -/
def hasMatchGroup (t : TileType) : Bool :=
  match t.matchGroup with
  | some g => g != ""
  | none => false

/-- The dynamic tile-pool loop of `generateBoard` for layouts with fewer than
144 positions: repeatedly draw a random standard type and add 4 (or a final
2) copies, refilling the draw pile when it empties. -/
def buildPool (o : Oracle) (posCount : ℕ) (acc available : List TileType) (k : ℕ) :
    List TileType × ℕ :=
  if h : acc.length < posCount then
    let idxk := randFloor o k available.length
    match available[idxk.1]? with
    | none => (acc, idxk.2)
    | some ty =>
      let available' := available.eraseIdx idxk.1
      buildPool o posCount
        (acc ++ List.replicate (if posCount - acc.length ≥ 4 then 4 else 2) ty)
        (if available'.length = 0 then STANDARD_TILES else available') idxk.2
  else (acc, k)
termination_by posCount - acc.length
decreasing_by
  simp only [List.length_append, List.length_replicate]
  split <;> omega

/-- Create the initial tile instances: `layout.positions.map((pos, i) => ...)`
with ids `tile-1`, `tile-2`, ... from the reset counter. -/
def mkTiles (positions : List LayoutPosition) (types : List TileType) :
    List TileInstance :=
  positions.enum.map fun ip =>
    { id := s!"tile-{ip.1 + 1}"
      typeId := ((types[ip.1 % types.length]?).map fun t => t.id).getD ""
      x := ip.2.x, y := ip.2.y, z := ip.2.z, isRemoved := false }

/-! The same-row duplicate repair pass of `generateBoard`.  JS `Map`s are
association lists in key-insertion order; tile objects are addressed by their
index in the tile array, so object-identity tests become index tests and
mutation of a tile's `typeId` becomes `setTypeAt`. -/

/-- `Math.floor(tile.y * 10)`. -/
def rowKey (t : TileInstance) : ℤ := ⌊t.y * 10⌋

/-- Append an index to the row entry for `key`, creating it at the end on
first use (JS `Map` insertion-order semantics). -/
def addToRows (rows : List (ℤ × List ℕ)) (key : ℤ) (idx : ℕ) : List (ℤ × List ℕ) :=
  match rows with
  | [] => [(key, [idx])]
  | (k, is) :: rest =>
    if k = key then (k, is ++ [idx]) :: rest else (k, is) :: addToRows rest key idx

/-- Group tile indices by row key (`tilesByRow`). -/
def buildRows (tiles : List TileInstance) : List (ℤ × List ℕ) :=
  tiles.enum.foldl (fun rows it => addToRows rows (rowKey it.2) it.1) []

/-- Insert into a sorted list (ascending). -/
def insertSorted (a : ℤ) : List ℤ → List ℤ
  | [] => [a]
  | b :: rest => if a ≤ b then a :: b :: rest else b :: insertSorted a rest

/-- Numeric ascending sort (`.sort((a, b) => a - b)`). -/
def sortInts (l : List ℤ) : List ℤ := l.foldr insertSorted []

/-- Fetch a row's index list. -/
def lookupRow (rows : List (ℤ × List ℕ)) (key : ℤ) : List ℕ :=
  ((rows.find? fun p => p.1 == key).map fun p => p.2).getD []

/-- Current `typeId` of the tile at index `i`. -/
def typeIdAt (tiles : List TileInstance) (i : ℕ) : String :=
  ((tiles[i]?).map fun t => t.typeId).getD ""

/-- Overwrite the `typeId` of the tile at index `i`. -/
def setTypeAt (tiles : List TileInstance) (i : ℕ) (ty : String) : List TileInstance :=
  match tiles[i]? with
  | some t => tiles.set i { t with typeId := ty }
  | none => tiles

/-- Swap the `typeId`s of the tiles at indices `i` and `j`. -/
def swapTypesAt (tiles : List TileInstance) (i j : ℕ) : List TileInstance :=
  let ti := typeIdAt tiles i
  let tj := typeIdAt tiles j
  setTypeAt (setTypeAt tiles i tj) j ti

/-- Append an index to the type-count entry for `key` (`typeCount` map). -/
def addToTypeCount (tc : List (String × List ℕ)) (key : String) (idx : ℕ) :
    List (String × List ℕ) :=
  match tc with
  | [] => [(key, [idx])]
  | (k, is) :: rest =>
    if k = key then (k, is ++ [idx]) :: rest else (k, is) :: addToTypeCount rest key idx

/-- Group a row's tile indices by their current `typeId`. -/
def buildTypeCount (tiles : List TileInstance) (row : List ℕ) :
    List (String × List ℕ) :=
  row.foldl (fun tc idx => addToTypeCount tc (typeIdAt tiles idx) idx) []

/-- The inner `for (const otherTile of otherRow)` search: find a tile of a
different type in `otherRowFull` whose swap with `tileToSwap` creates no new
same-row pair in either row, and perform the swap. -/
def trySwapInRowAux (tiles : List TileInstance) (row : List ℕ) (tileToSwap : ℕ)
    (otherRowFull : List ℕ) : List ℕ → Option (List TileInstance)
  | [] => none
  | otherIdx :: rest =>
    if typeIdAt tiles otherIdx != typeIdAt tiles tileToSwap then
      let wouldCreatePairInCurrentRow := row.any fun tIdx =>
        tIdx != tileToSwap && typeIdAt tiles tIdx == typeIdAt tiles otherIdx
      let wouldCreatePairInOtherRow := otherRowFull.any fun tIdx =>
        tIdx != otherIdx && typeIdAt tiles tIdx == typeIdAt tiles tileToSwap
      if !wouldCreatePairInCurrentRow && !wouldCreatePairInOtherRow then
        some (swapTypesAt tiles tileToSwap otherIdx)
      else trySwapInRowAux tiles row tileToSwap otherRowFull rest
    else trySwapInRowAux tiles row tileToSwap otherRowFull rest

/-- The `for (let j = 0; ...)` loop over the other rows, stopping at the
first successful swap. -/
def trySwapOtherRows (tiles : List TileInstance) (rows : List (ℤ × List ℕ))
    (row : List ℕ) (tileToSwap : ℕ) (i : ℕ) : List (ℕ × ℤ) → List TileInstance
  | [] => tiles
  | jk :: rest =>
    if jk.1 = i then trySwapOtherRows tiles rows row tileToSwap i rest
    else
      let otherRow := lookupRow rows jk.2
      match trySwapInRowAux tiles row tileToSwap otherRow otherRow with
      | some tiles' => tiles'
      | none => trySwapOtherRows tiles rows row tileToSwap i rest

/-- The `while (tilesOfType.length >= 2)` pop loop; the argument list is the
reversed stack, so popping takes the head, and the loop stops when one
element is left. -/
def popLoop (rows : List (ℤ × List ℕ)) (keysEnum : List (ℕ × ℤ)) (row : List ℕ)
    (i : ℕ) : List ℕ → List TileInstance → List TileInstance
  | x :: y :: rest, tiles =>
    popLoop rows keysEnum row i (y :: rest) (trySwapOtherRows tiles rows row x i keysEnum)
  | _, tiles => tiles

/-- Process one row: group its tiles by type and repair every same-row
duplicate pair. -/
def processRow (rows : List (ℤ × List ℕ)) (keysEnum : List (ℕ × ℤ))
    (tiles : List TileInstance) (i : ℕ) (key : ℤ) : List TileInstance :=
  let row := lookupRow rows key
  let typeCount := buildTypeCount tiles row
  typeCount.foldl (fun ts entry => popLoop rows keysEnum row i entry.2.reverse ts) tiles

/-- The full post-process pass of `generateBoard` (lines 300-360). -/
def postProcess (tiles : List TileInstance) : List TileInstance :=
  let rows := buildRows tiles
  let rowKeys := sortInts (rows.map fun p => p.1)
  let keysEnum := rowKeys.enum
  keysEnum.foldl (fun ts ik => processRow rows keysEnum ts ik.1 ik.2) tiles

/-- engine.ts `generateBoard`: resolve the layout (falling back to
`LAYOUTS[0]`), build the tile-type pool, shuffle it, lay the tiles out and
repair same-row duplicates. -/
def generateBoard (o : Oracle) (layoutId? : Option String) : GameBoard :=
  let layout := match layoutId? with
    | some lid => ((LAYOUTS.find? fun l => l.id == lid)).getD turtleLayout
    | none => turtleLayout
  let posCount := layout.positions.length
  let poolk : List TileType × ℕ :=
    if posCount = 144 then
      (STANDARD_TILES.flatMap (fun t => List.replicate 4 t) ++
        ALL_TILE_TYPES.filter hasMatchGroup, 0)
    else
      buildPool o posCount [] STANDARD_TILES 0
  let shuffledk := fisherYates o poolk.1 poolk.2
  { tiles := postProcess (mkTiles layout.positions shuffledk.1), layout := layout }

/-! ### The repair pass only rewrites `typeId`s

`strip` forgets the `typeId`; every operation of the post-process pass leaves
the stripped tile list unchanged, so ids, coordinates and removal flags of a
generated board are exactly those laid down by `mkTiles`. -/

/-- Everything of a tile except its `typeId`. -/
def strip (t : TileInstance) : String × ℚ × ℚ × ℚ × Bool :=
  (t.id, t.x, t.y, t.z, t.isRemoved)

/-- Setting an index to the value it already holds is the identity. -/
theorem set_getElem?_eq (l : List α) (i : ℕ) (a : α) (h : l[i]? = some a) :
    l.set i a = l := by
  induction l generalizing i with
  | nil => rfl
  | cons x xs ih =>
    cases i with
    | zero =>
      simp only [List.getElem?_cons_zero, Option.some.injEq] at h
      subst h; rfl
    | succ n =>
      simp only [List.getElem?_cons_succ] at h
      show x :: xs.set n a = x :: xs
      rw [ih n h]

theorem strip_setTypeAt (tiles : List TileInstance) (i : ℕ) (ty : String) :
    (setTypeAt tiles i ty).map strip = tiles.map strip := by
  unfold setTypeAt
  cases h : tiles[i]? with
  | none => rfl
  | some t =>
    rw [List.map_set]
    have hs : strip { t with typeId := ty } = strip t := rfl
    rw [hs]
    apply set_getElem?_eq
    rw [List.getElem?_map, h]
    rfl

theorem strip_swapTypesAt (tiles : List TileInstance) (i j : ℕ) :
    (swapTypesAt tiles i j).map strip = tiles.map strip := by
  unfold swapTypesAt
  rw [strip_setTypeAt, strip_setTypeAt]

theorem strip_trySwapInRowAux (tiles : List TileInstance) (row : List ℕ)
    (ts : ℕ) (full : List ℕ) :
    ∀ (iter : List ℕ) (tiles' : List TileInstance),
      trySwapInRowAux tiles row ts full iter = some tiles' →
      tiles'.map strip = tiles.map strip := by
  intro iter
  induction iter with
  | nil => intro tiles' h; exact absurd h (by simp [trySwapInRowAux])
  | cons otherIdx rest ih =>
    intro tiles' h
    unfold trySwapInRowAux at h
    by_cases h1 : (typeIdAt tiles otherIdx != typeIdAt tiles ts) = true
    · rw [if_pos h1] at h
      by_cases h2 : (!(row.any fun tIdx =>
            tIdx != ts && typeIdAt tiles tIdx == typeIdAt tiles otherIdx) &&
          !(full.any fun tIdx =>
            tIdx != otherIdx && typeIdAt tiles tIdx == typeIdAt tiles ts)) = true
      · rw [if_pos h2] at h
        cases h
        exact strip_swapTypesAt tiles ts otherIdx
      · rw [if_neg h2] at h
        exact ih tiles' h
    · rw [if_neg h1] at h
      exact ih tiles' h

theorem strip_trySwapOtherRows (tiles : List TileInstance) (rows : List (ℤ × List ℕ))
    (row : List ℕ) (ts i : ℕ) :
    ∀ jlist : List (ℕ × ℤ),
      (trySwapOtherRows tiles rows row ts i jlist).map strip = tiles.map strip := by
  intro jlist
  induction jlist with
  | nil => rfl
  | cons jk rest ih =>
    unfold trySwapOtherRows
    by_cases hj : jk.1 = i
    · rw [if_pos hj]; exact ih
    · rw [if_neg hj]
      show (match trySwapInRowAux tiles row ts (lookupRow rows jk.2) (lookupRow rows jk.2) with
            | some tiles' => tiles'
            | none => trySwapOtherRows tiles rows row ts i rest).map strip = tiles.map strip
      cases h : trySwapInRowAux tiles row ts (lookupRow rows jk.2) (lookupRow rows jk.2) with
      | none => exact ih
      | some tiles' => exact strip_trySwapInRowAux tiles row ts _ _ tiles' h

theorem strip_popLoop (rows : List (ℤ × List ℕ)) (keysEnum : List (ℕ × ℤ))
    (row : List ℕ) (i : ℕ) :
    ∀ (stack : List ℕ) (tiles : List TileInstance),
      (popLoop rows keysEnum row i stack tiles).map strip = tiles.map strip := by
  intro stack
  induction stack with
  | nil => intro tiles; rfl
  | cons x tail ih =>
    intro tiles
    cases tail with
    | nil => rfl
    | cons y rest =>
      show (popLoop rows keysEnum row i (y :: rest)
        (trySwapOtherRows tiles rows row x i keysEnum)).map strip = _
      rw [ih (trySwapOtherRows tiles rows row x i keysEnum)]
      exact strip_trySwapOtherRows tiles rows row x i keysEnum

/-- A fold whose step preserves the stripped tile list preserves it overall. -/
theorem strip_foldl {β : Type} (f : List TileInstance → β → List TileInstance)
    (hf : ∀ ts b, (f ts b).map strip = ts.map strip) :
    ∀ (l : List β) (ts : List TileInstance), (l.foldl f ts).map strip = ts.map strip := by
  intro l
  induction l with
  | nil => intro ts; rfl
  | cons b rest ih =>
    intro ts
    show (rest.foldl f (f ts b)).map strip = _
    rw [ih, hf]

theorem strip_processRow (rows : List (ℤ × List ℕ)) (keysEnum : List (ℕ × ℤ))
    (tiles : List TileInstance) (i : ℕ) (key : ℤ) :
    (processRow rows keysEnum tiles i key).map strip = tiles.map strip := by
  unfold processRow
  exact strip_foldl
    (fun ts entry => popLoop rows keysEnum (lookupRow rows key) i entry.2.reverse ts)
    (fun ts entry => strip_popLoop rows keysEnum (lookupRow rows key) i entry.2.reverse ts)
    (buildTypeCount tiles (lookupRow rows key)) tiles

theorem strip_postProcess (tiles : List TileInstance) :
    (postProcess tiles).map strip = tiles.map strip := by
  unfold postProcess
  exact strip_foldl
    (fun ts ik => processRow (buildRows tiles)
      ((sortInts ((buildRows tiles).map fun p => p.1)).enum) ts ik.1 ik.2)
    (fun ts ik => strip_processRow (buildRows tiles)
      ((sortInts ((buildRows tiles).map fun p => p.1)).enum) ts ik.1 ik.2)
    ((sortInts ((buildRows tiles).map fun p => p.1)).enum) tiles

theorem strip_mkTiles (positions : List LayoutPosition) (types : List TileType) :
    (mkTiles positions types).map strip =
      positions.enum.map fun ip => (s!"tile-{ip.1 + 1}", ip.2.x, ip.2.y, ip.2.z, false) := by
  unfold mkTiles
  rw [List.map_map]
  rfl

/-- Ids, coordinates and removal flags of a generated board are exactly those
of the resolved layout's position list, independent of the oracle: the type
pool, the shuffle and the repair pass only influence `typeId`s. -/
theorem generateBoard_tiles_strip (o : Oracle) (lid : String) :
    ((generateBoard o (some lid)).tiles).map strip =
      (((LAYOUTS.find? fun l => l.id == lid)).getD turtleLayout).positions.enum.map
        fun ip => (s!"tile-{ip.1 + 1}", ip.2.x, ip.2.y, ip.2.z, false) := by
  show (postProcess (mkTiles _ _)).map strip = _
  rw [strip_postProcess, strip_mkTiles]

/-- C9 fails: on the bridge layout, `generateBoard` produces two distinct
non-removed tiles at identical coordinates (the pillar loop of
`generateBridgePositions` pushes each pillar position twice), for every
random sequence and with no tile removed. -/
theorem bridge_duplicate_coordinates (o : Oracle) :
    ∃ t1 t2 : TileInstance,
      t1 ∈ (generateBoard o (some "bridge")).tiles ∧
      t2 ∈ (generateBoard o (some "bridge")).tiles ∧
      t1.id ≠ t2.id ∧ t1.isRemoved = false ∧ t2.isRemoved = false ∧
      t1.x = t2.x ∧ t1.y = t2.y ∧ t1.z = t2.z := by
  have hstrip := generateBoard_tiles_strip o "bridge"
  have hres : ((LAYOUTS.find? fun l => l.id == "bridge")).getD turtleLayout = bridgeLayout := by
    rfl
  rw [hres] at hstrip
  have h72 : ((generateBoard o (some "bridge")).tiles.map strip)[72]? =
      some ("tile-73", (1 : ℚ), (0 : ℚ), (0 : ℚ), false) := by
    rw [hstrip]; rfl
  have h74 : ((generateBoard o (some "bridge")).tiles.map strip)[74]? =
      some ("tile-75", (1 : ℚ), (0 : ℚ), (0 : ℚ), false) := by
    rw [hstrip]; rfl
  rw [List.getElem?_map] at h72 h74
  obtain ⟨t1, ht1, hs1⟩ := Option.map_eq_some'.mp h72
  obtain ⟨t2, ht2, hs2⟩ := Option.map_eq_some'.mp h74
  simp only [strip, Prod.mk.injEq] at hs1 hs2
  refine ⟨t1, t2, List.getElem?_mem ht1, List.getElem?_mem ht2, ?_, ?_, ?_, ?_, ?_, ?_⟩
  · rw [hs1.1, hs2.1]; decide
  · exact hs1.2.2.2.2
  · exact hs2.2.2.2.2
  · rw [hs1.2.1, hs2.2.1]
  · rw [hs1.2.2.1, hs2.2.2.1]
  · rw [hs1.2.2.2.1, hs2.2.2.2.1]

/-! ### Shuffling (engine.ts `shuffleBoard` / `assignSolvableTypes`)

`assignSolvableTypes` receives an array of freshly created position objects;
object identity matters (`indexOf`, `!==`), so each position is tagged with
its index in the array. -/

/-- engine.ts `isPositionAvailable`. -/
def isPositionAvailable (pos : LayoutPosition) (occupiedPositions : List LayoutPosition) :
    Bool :=
  let hasTop := occupiedPositions.any fun other =>
    decide (other.z > pos.z) &&
    decide (|other.x - pos.x| < 0.9) && decide (|other.y - pos.y| < 0.9)
  if hasTop then false
  else
    let hasLeft := occupiedPositions.any fun other =>
      decide (other.z = pos.z) && decide (|other.y - pos.y| < 0.9) &&
      decide (other.x < pos.x) && decide (pos.x - other.x < 1.1)
    let hasRight := occupiedPositions.any fun other =>
      decide (other.z = pos.z) && decide (|other.y - pos.y| < 0.9) &&
      decide (other.x > pos.x) && decide (other.x - pos.x < 1.1)
    !hasLeft || !hasRight

/-- The key of the `typeGroups` map: `t.matchGroup || t.id` (JS truthiness,
so an empty-string group falls back to the id). -/
def groupKey (t : TileType) : String :=
  match t.matchGroup with
  | some g => if g = "" then t.id else g
  | none => t.id

/-- Add a type to its group.  Array `push`/`pop` work at the far end, so each
group is stored reversed (most recently pushed first) and `pop` is `head`;
new keys are appended at the end (JS `Map` insertion order). -/
def addToGroups (groups : List (String × List TileType)) (t : TileType) :
    List (String × List TileType) :=
  match groups with
  | [] => [(groupKey t, [t])]
  | (k, g) :: rest =>
    if k = groupKey t then (k, t :: g) :: rest else (k, g) :: addToGroups rest t

/-- The `typeGroups` map of `assignSolvableTypes`. -/
def buildGroups (types : List TileType) : List (String × List TileType) :=
  types.foldl addToGroups []

/-- `while (group.length >= 2) matchingPairs.push([group.pop(), group.pop()])`
on a reversed-stored group: take elements two at a time, drop a leftover. -/
def pairsOf : List TileType → List (TileType × TileType)
  | a :: b :: rest => (a, b) :: pairsOf rest
  | _ => []

/-- The `matchingPairs` list of `assignSolvableTypes`. -/
def matchingPairsOf (types : List TileType) : List (TileType × TileType) :=
  (buildGroups types).flatMap fun kg => pairsOf kg.2

/-- The `for (const candidate1 of shuffled)` search: find the first candidate
with a nonempty separated set (row or layer distance at least 1) and pick a
random partner from it.  Consumes one random sample exactly on success. -/
def findSepAux (o : Oracle) (shuffled : List (ℕ × LayoutPosition)) :
    List (ℕ × LayoutPosition) → ℕ →
    Option ((ℕ × LayoutPosition) × (ℕ × LayoutPosition) × ℕ)
  | [], _k => none
  | c1 :: rest, k =>
    let separated := shuffled.filter fun p =>
      p.1 != c1.1 && (decide (|p.2.y - c1.2.y| ≥ 1) || decide (|p.2.z - c1.2.z| ≥ 1))
    if separated.length > 0 then
      let rk := randFloor o k separated.length
      match separated[rk.1]? with
      | some p2 => some (c1, p2, rk.2)
      | none => none
    else findSepAux o shuffled rest k

/-- The `for (const [type1, type2] of matchingPairs)` placement loop.
Returns the final tiles (or `none` when stuck) together with the number of
random samples and tile ids consumed, failures included. -/
def placeLoop (o : Oracle) :
    List (TileType × TileType) → List (ℕ × LayoutPosition) → List LayoutPosition →
    List TileInstance → ℕ → ℕ → Option (List TileInstance) × ℕ × ℕ
  | [], _avail, _occ, acc, k, c => (some acc, k, c)
  | pair :: restPairs, avail, occ, acc, k, c =>
    let placeable := avail.filter fun pr => isPositionAvailable pr.2 occ
    if placeable.length < 2 then (none, k, c)
    else
      let sk := fisherYates o placeable k
      match findSepAux o sk.1 sk.1 sk.2 with
      | none => (none, sk.2, c)
      | some (pos1, pos2, k2) =>
        placeLoop o restPairs ((avail.erase pos1).erase pos2)
          (occ ++ [pos1.2, pos2.2])
          (acc ++ [{ id := s!"tile-{c + 1}", typeId := pair.1.id,
                     x := pos1.2.x, y := pos1.2.y, z := pos1.2.z, isRemoved := false },
                   { id := s!"tile-{c + 2}", typeId := pair.2.id,
                     x := pos2.2.x, y := pos2.2.y, z := pos2.2.z, isRemoved := false }])
          k2 (c + 2)

/-- engine.ts `assignSolvableTypes`: pair the types up, shuffle the pairs and
place them by reverse simulation. -/
def assignSolvableTypes (o : Oracle) (positions : List (ℕ × LayoutPosition))
    (availableTypes : List TileType) (k c : ℕ) :
    Option (List TileInstance) × ℕ × ℕ :=
  let sk := fisherYates o (matchingPairsOf availableTypes) k
  placeLoop o sk.1 positions [] [] sk.2 c

/-- The `for (let attempt = 0; attempt < n; attempt++)` retry loop of
`shuffleBoard`. -/
def tryAssign (o : Oracle) :
    ℕ → List (ℕ × LayoutPosition) → List TileType → ℕ → ℕ →
    Option (List TileInstance) × ℕ × ℕ
  | 0, _, _, k, c => (none, k, c)
  | n + 1, positions, types, k, c =>
    match assignSolvableTypes o positions types k c with
    | (some ts, k', c') => (some ts, k', c')
    | (none, k', c') => tryAssign o n positions types k' c'

/-- The coordinates of a tile instance. -/
def tileCoords (t : TileInstance) : LayoutPosition :=
  { x := t.x, y := t.y, z := t.z }

/-- The fallback of `shuffleBoard`:
`positions.map((pos, i) => ({id: generateTileId(), typeId: types[i].id, ...pos}))`. -/
def fallbackTiles (types : List TileType) : List LayoutPosition → ℕ → ℕ →
    List TileInstance
  | [], _c, _i => []
  | pos :: rest, c, i =>
    { id := s!"tile-{c + i + 1}"
      typeId := ((types[i]?).map fun t => t.id).getD ""
      x := pos.x, y := pos.y, z := pos.z, isRemoved := false } ::
    fallbackTiles types rest c (i + 1)

/-- engine.ts `shuffleBoard`: up to 20 attempts of `assignSolvableTypes` over
the active tiles' positions and types, then an unconstrained random
permutation as fallback.  (In JS a missing catalog type would make the
fallback read `types[i].id` of `undefined` and throw; the model substitutes
`""`, and theorems that reach the fallback assume all types resolve.) -/
def shuffleBoard (o : Oracle) (board : GameBoard) (k c : ℕ) : GameBoard × ℕ × ℕ :=
  let activeTiles := board.tiles.filter fun t => !t.isRemoved
  let removedTiles := board.tiles.filter fun t => t.isRemoved
  let coords := activeTiles.map tileCoords
  let types := activeTiles.filterMap fun t => getTileTypeById t.typeId
  match tryAssign o 20 coords.enum types k c with
  | (some newActiveTiles, k', c') =>
    ({ board with tiles := newActiveTiles ++ removedTiles }, k', c')
  | (none, k', c') =>
    let sk := fisherYates o types k'
    ({ board with tiles := fallbackTiles sk.1 coords c' 0 ++ removedTiles },
      sk.2, c' + coords.length)

/-! ### The Fisher-Yates shuffle is a permutation -/

theorem listSwap_perm [DecidableEq α] (l : List α) (i j : ℕ) :
    (listSwap l i j).Perm l := by
  unfold listSwap
  cases hi : l[i]? with
  | none => cases l[j]? <;> exact List.Perm.refl _
  | some a =>
    cases hj : l[j]? with
    | none => exact List.Perm.refl _
    | some b =>
      show ((l.set i b).set j a).Perm l
      obtain ⟨hilt, hia⟩ := List.getElem?_eq_some.mp hi
      obtain ⟨hjlt, hjb⟩ := List.getElem?_eq_some.mp hj
      by_cases hij : i = j
      · subst hij
        have hab : a = b := by rw [← hia, ← hjb]
        subst hab
        rw [List.set_set, set_getElem?_eq l i a hi]
      · rw [List.perm_iff_count]
        intro x
        have h1 : j < (l.set i b).length := by simpa using hjlt
        rw [List.count_set _ _ _ _ h1, List.count_set _ _ _ _ hilt]
        rw [List.getElem_set]
        rw [if_neg hij]
        rw [hjb, hia]
        have hmem : a = x → 0 < l.count x := by
          intro e
          subst e
          exact List.count_pos_iff_mem.mpr (List.getElem?_mem hi)
        by_cases e1 : a = x <;> by_cases e2 : b = x
        · have hpos := hmem e1
          have ha : (a == x) = true := by simp [e1]
          have hb : (b == x) = true := by simp [e2]
          rw [ha, hb]
          simp only [if_true]
          omega
        · have hpos := hmem e1
          have ha : (a == x) = true := by simp [e1]
          have hb : (b == x) = false := by simp [e2]
          rw [ha, hb]
          simp only [if_true, Bool.false_eq_true, if_false]
          omega
        · have ha : (a == x) = false := by simp [e1]
          have hb : (b == x) = true := by simp [e2]
          rw [ha, hb]
          simp only [if_true, Bool.false_eq_true, if_false]
          omega
        · have ha : (a == x) = false := by simp [e1]
          have hb : (b == x) = false := by simp [e2]
          rw [ha, hb]
          simp only [Bool.false_eq_true, if_false]
          omega

theorem fisherYatesAux_perm [DecidableEq α] (o : Oracle) :
    ∀ (i : ℕ) (arr : List α) (k : ℕ), ((fisherYatesAux o arr i k).1).Perm arr := by
  intro i
  induction i with
  | zero => intro arr k; exact List.Perm.refl _
  | succ n ih =>
    intro arr k
    show ((fisherYatesAux o (listSwap arr (n + 1) (randFloor o k (n + 2)).1) n
      (randFloor o k (n + 2)).2).1).Perm arr
    exact (ih _ _).trans (listSwap_perm _ _ _)

theorem fisherYates_perm [DecidableEq α] (o : Oracle) (arr : List α) (k : ℕ) :
    ((fisherYates o arr k).1).Perm arr :=
  fisherYatesAux_perm o (arr.length - 1) arr k

/-! ### The reverse-pairing step preserves the type multiset when every
match-class has even multiplicity -/

/-- Look up a group's current contents. -/
def lookupG (gs : List (String × List TileType)) (s : String) : List TileType :=
  ((gs.find? fun p => p.1 == s).map fun p => p.2).getD []

theorem lookupG_cons (k : String) (g : List TileType)
    (rest : List (String × List TileType)) (s : String) :
    lookupG ((k, g) :: rest) s = if k = s then g else lookupG rest s := by
  by_cases h : k = s
  · subst h
    simp [lookupG, List.find?]
  · have hb : (k == s) = false := by simp [h]
    simp [lookupG, List.find?, hb, h]

theorem lookupG_addToGroups (gs : List (String × List TileType)) (t : TileType)
    (s : String) :
    lookupG (addToGroups gs t) s =
      if groupKey t = s then t :: lookupG gs s else lookupG gs s := by
  induction gs with
  | nil =>
    show lookupG [(groupKey t, [t])] s = _
    rw [lookupG_cons]
    by_cases h : groupKey t = s
    · simp only [if_pos h]
      rfl
    · simp only [if_neg h]
  | cons kg rest ih =>
    obtain ⟨k, g⟩ := kg
    show lookupG (if k = groupKey t then (k, t :: g) :: rest
      else (k, g) :: addToGroups rest t) s = _
    by_cases hk : k = groupKey t
    · rw [if_pos hk, lookupG_cons, lookupG_cons]
      by_cases hs : k = s
      · simp only [if_pos hs, if_pos (hk.symm.trans hs)]
      · simp only [if_neg hs, if_neg (fun h => hs (hk.trans h))]
    · rw [if_neg hk, lookupG_cons, lookupG_cons]
      by_cases hs : k = s
      · simp only [if_pos hs, if_neg (fun h : groupKey t = s => hk (hs.trans h.symm))]
      · simp only [if_neg hs]
        exact ih

theorem foldl_addToGroups_lookupG :
    ∀ (ts : List TileType) (gs : List (String × List TileType)) (s : String),
      lookupG (ts.foldl addToGroups gs) s =
        (ts.filter fun t => decide (groupKey t = s)).reverse ++ lookupG gs s := by
  intro ts
  induction ts with
  | nil => intro gs s; simp
  | cons t rest ih =>
    intro gs s
    show lookupG (rest.foldl addToGroups (addToGroups gs t)) s = _
    rw [ih, lookupG_addToGroups]
    by_cases h : groupKey t = s
    · rw [if_pos h]
      have hf : (t :: rest).filter (fun t => decide (groupKey t = s)) =
          t :: rest.filter (fun t => decide (groupKey t = s)) := by
        simp [List.filter, h]
      rw [hf, List.reverse_cons, List.append_assoc]
      rfl
    · rw [if_neg h]
      have hf : (t :: rest).filter (fun t => decide (groupKey t = s)) =
          rest.filter (fun t => decide (groupKey t = s)) := by
        simp [List.filter, h]
      rw [hf]

theorem keys_addToGroups (gs : List (String × List TileType)) (t : TileType) :
    (addToGroups gs t).map (fun p => p.1) =
      if groupKey t ∈ gs.map (fun p => p.1) then gs.map (fun p => p.1)
      else gs.map (fun p => p.1) ++ [groupKey t] := by
  induction gs with
  | nil => simp [addToGroups]
  | cons kg rest ih =>
    obtain ⟨k, g⟩ := kg
    show (if k = groupKey t then (k, t :: g) :: rest
      else (k, g) :: addToGroups rest t).map (fun p => p.1) = _
    by_cases hk : k = groupKey t
    · rw [if_pos hk]
      have : groupKey t ∈ ((k, g) :: rest).map (fun p => p.1) := by
        simp [hk.symm]
      rw [if_pos this]
      rfl
    · rw [if_neg hk]
      show k :: (addToGroups rest t).map (fun p => p.1) = _
      rw [ih]
      by_cases hm : groupKey t ∈ rest.map (fun p => p.1)
      · rw [if_pos hm, if_pos (by simpa using Or.inr hm)]
        rfl
      · rw [if_neg hm, if_neg (by
          simp only [List.map_cons, List.mem_cons]
          rintro (h | h)
          · exact hk h.symm
          · exact hm h)]
        rfl

theorem nodupKeys_addToGroups (gs : List (String × List TileType)) (t : TileType)
    (h : (gs.map (fun p => p.1)).Nodup) :
    ((addToGroups gs t).map fun p => p.1).Nodup := by
  rw [keys_addToGroups]
  by_cases hm : groupKey t ∈ gs.map (fun p => p.1)
  · rw [if_pos hm]; exact h
  · rw [if_neg hm]
    refine List.Nodup.append h (List.nodup_singleton _) ?_
    intro a ha hb
    simp only [List.mem_singleton] at hb
    subst hb
    exact hm ha

theorem nodupKeys_buildGroups (types : List TileType) :
    ((buildGroups types).map fun p => p.1).Nodup := by
  have : ∀ (ts : List TileType) (gs : List (String × List TileType)),
      (gs.map (fun p => p.1)).Nodup → ((ts.foldl addToGroups gs).map fun p => p.1).Nodup := by
    intro ts
    induction ts with
    | nil => intro gs h; exact h
    | cons t rest ih =>
      intro gs h
      exact ih (addToGroups gs t) (nodupKeys_addToGroups gs t h)
  exact this types [] (by simp)

theorem entry_lookupG :
    ∀ (gs : List (String × List TileType)), ((gs.map fun p => p.1).Nodup) →
      ∀ p ∈ gs, lookupG gs p.1 = p.2 := by
  intro gs
  induction gs with
  | nil => intro _ p h; exact absurd h (by simp)
  | cons kg rest ih =>
    obtain ⟨k, g⟩ := kg
    intro hnd p hp
    simp only [List.map_cons, List.nodup_cons] at hnd
    rcases List.mem_cons.mp hp with he | hm
    · subst he
      rw [lookupG_cons, if_pos rfl]
    · rw [lookupG_cons]
      have hk : ¬(k = p.1) := by
        intro e
        exact hnd.1 (e ▸ List.mem_map_of_mem (fun q => q.1) hm)
      rw [if_neg hk]
      exact ih hnd.2 p hm

theorem pairsOf_flatten :
    ∀ (g : List TileType), g.length % 2 = 0 →
      ((pairsOf g).flatMap fun p => [p.1, p.2]) = g
  | [], _ => rfl
  | [x], h => by simp at h
  | a :: b :: rest, h => by
    show a :: b :: ((pairsOf rest).flatMap fun p => [p.1, p.2]) = _
    rw [pairsOf_flatten rest (by simp only [List.length_cons] at h; omega)]

theorem addToGroups_flatMap_perm (gs : List (String × List TileType)) (t : TileType) :
    ((addToGroups gs t).flatMap fun p => p.2).Perm (t :: gs.flatMap fun p => p.2) := by
  induction gs with
  | nil => simp [addToGroups]
  | cons kg rest ih =>
    obtain ⟨k, g⟩ := kg
    show (if k = groupKey t then (k, t :: g) :: rest
      else (k, g) :: addToGroups rest t).flatMap (fun p => p.2) |>.Perm _
    by_cases hk : k = groupKey t
    · rw [if_pos hk]
      exact List.Perm.refl _
    · rw [if_neg hk]
      show (g ++ (addToGroups rest t).flatMap fun p => p.2).Perm
        (t :: (g ++ rest.flatMap fun p => p.2))
      exact (List.Perm.append_left g ih).trans List.perm_middle

theorem buildGroups_flatMap_perm (types : List TileType) :
    ((buildGroups types).flatMap fun p => p.2).Perm types := by
  have key : ∀ (ts : List TileType) (gs : List (String × List TileType)),
      ((ts.foldl addToGroups gs).flatMap fun p => p.2).Perm
        (ts ++ gs.flatMap fun p => p.2) := by
    intro ts
    induction ts with
    | nil => intro gs; exact List.Perm.refl _
    | cons t rest ih =>
      intro gs
      show ((rest.foldl addToGroups (addToGroups gs t)).flatMap fun p => p.2).Perm
        ((t :: rest) ++ gs.flatMap fun p => p.2)
      exact (ih _).trans
        ((List.Perm.append_left rest (addToGroups_flatMap_perm gs t)).trans List.perm_middle)
  have := key types []
  simpa using this

theorem matchingPairsOf_flatten_perm (types : List TileType)
    (heven : ∀ s, types.countP (fun t => decide (groupKey t = s)) % 2 = 0) :
    ((matchingPairsOf types).flatMap fun p => [p.1, p.2]).Perm types := by
  unfold matchingPairsOf
  rw [List.flatMap_assoc]
  have hcongr : ∀ kg ∈ buildGroups types,
      ((pairsOf kg.2).flatMap fun p => [p.1, p.2]) = kg.2 := by
    intro kg hkg
    apply pairsOf_flatten
    have h1 : lookupG (buildGroups types) kg.1 = kg.2 :=
      entry_lookupG _ (nodupKeys_buildGroups types) kg hkg
    have h2 : lookupG (buildGroups types) kg.1 =
        (types.filter fun t => decide (groupKey t = kg.1)).reverse ++ lookupG [] kg.1 :=
      foldl_addToGroups_lookupG types [] kg.1
    rw [h1] at h2
    rw [h2]
    simp only [lookupG, List.find?, Option.getD_none, Option.map_none', List.append_nil,
      List.length_reverse, ← List.countP_eq_length_filter]
    exact heven kg.1
  rw [List.flatMap_congr hcongr]
  exact buildGroups_flatMap_perm types

/-- `List.perm_cons_erase` for an arbitrary lawful `BEq` instance. -/
theorem perm_cons_erase_beq [BEq α] [LawfulBEq α] {a : α} {l : List α} (h : a ∈ l) :
    l.Perm (a :: l.erase a) := by
  induction l with
  | nil => exact absurd h (by simp)
  | cons b rest ih =>
    rw [List.erase_cons]
    by_cases hb : (b == a) = true
    · rw [if_pos hb]
      rw [eq_of_beq hb]
    · rw [if_neg hb]
      have hmem : a ∈ rest := by
        rcases List.mem_cons.mp h with he | hm
        · exact absurd (by simp [he]) hb
        · exact hm
      exact ((ih hmem).cons b).trans (List.Perm.swap a b _)

/-- Consecutive disjoint pairs of the list are separated by at least a full
row or a full layer. -/
def SepPairs : List TileInstance → Prop
  | t1 :: t2 :: rest => (|t1.y - t2.y| ≥ 1 ∨ |t1.z - t2.z| ≥ 1) ∧ SepPairs rest
  | _ => True

theorem findSepAux_some (o : Oracle) (shuffled : List (ℕ × LayoutPosition)) :
    ∀ (cands : List (ℕ × LayoutPosition)) (k : ℕ) (c1 p2 : ℕ × LayoutPosition) (k2 : ℕ),
      findSepAux o shuffled cands k = some (c1, p2, k2) →
      c1 ∈ cands ∧ p2 ∈ shuffled ∧ p2.1 ≠ c1.1 ∧
        (|p2.2.y - c1.2.y| ≥ 1 ∨ |p2.2.z - c1.2.z| ≥ 1) := by
  intro cands
  induction cands with
  | nil => intro k c1 p2 k2 h; exact absurd h (by simp [findSepAux])
  | cons c rest ih =>
    intro k c1 p2 k2 h
    simp only [findSepAux] at h
    split at h
    · split at h
      · rename_i p2' hge
        injection h with h'
        obtain ⟨e1, e2, _⟩ : c = c1 ∧ p2' = p2 ∧ _ := by
          injection h' with a b
          injection b with b1 b2
          exact ⟨a, b1, b2⟩
        subst e1
        subst e2
        have hmem := List.getElem?_mem hge
        rw [List.mem_filter] at hmem
        obtain ⟨hsh, hcond⟩ := hmem
        rw [Bool.and_eq_true] at hcond
        refine ⟨List.mem_cons_self _ _, hsh, ?_, ?_⟩
        · simpa using hcond.1
        · rcases Bool.or_eq_true _ _ |>.mp hcond.2 with hc | hc
          · exact Or.inl (by simpa using hc)
          · exact Or.inr (by simpa using hc)
      · exact absurd h (by simp)
    · exact List.mem_cons.mpr ∘ Or.inr |> fun f =>
        (ih k c1 p2 k2 h).imp f (fun x => x)

theorem placeLoop_spec (o : Oracle) :
    ∀ (pairs : List (TileType × TileType)) (avail : List (ℕ × LayoutPosition))
      (occ : List LayoutPosition) (acc : List TileInstance) (k c : ℕ)
      (ts : List TileInstance) (k' c' : ℕ),
      placeLoop o pairs avail occ acc k c = (some ts, k', c') →
      ∃ (body : List TileInstance) (availLeft : List (ℕ × LayoutPosition)),
        ts = acc ++ body ∧
        body.map (fun t => t.typeId) = pairs.flatMap (fun p => [p.1.id, p.2.id]) ∧
        (avail.map fun pr => pr.2).Perm
          ((body.map tileCoords) ++ (availLeft.map fun pr => pr.2)) ∧
        availLeft.length + 2 * pairs.length = avail.length ∧
        (∀ t ∈ body, t.isRemoved = false) ∧
        SepPairs body := by
  intro pairs
  induction pairs with
  | nil =>
    intro avail occ acc k c ts k' c' h
    simp only [placeLoop, Prod.mk.injEq, Option.some.injEq] at h
    refine ⟨[], avail, ?_, rfl, ?_, by simp, by simp, trivial⟩
    · rw [h.1, List.append_nil]
    · simpa using List.Perm.refl _
  | cons pair rest ih =>
    intro avail occ acc k c ts k' c' h
    simp only [placeLoop] at h
    split at h
    · simp at h
    · rename_i hlen
      split at h
      · simp at h
      · rename_i pos1 pos2 k2 hfs
        obtain ⟨body', availLeft', hts, hids, hperm, hlen', hrm, hsep'⟩ :=
          ih _ _ _ _ _ _ _ _ h
        have hshuf : ((fisherYates o (avail.filter fun pr =>
            isPositionAvailable pr.2 occ) k).1).Perm
            (avail.filter fun pr => isPositionAvailable pr.2 occ) :=
          fisherYates_perm o _ k
        obtain ⟨hc1mem, hp2mem, hne, hsepc⟩ := findSepAux_some o _ _ _ _ _ _ hfs
        have hpos1avail : pos1 ∈ avail :=
          List.mem_of_mem_filter (hshuf.mem_iff.mp hc1mem)
        have hpos2avail : pos2 ∈ avail :=
          List.mem_of_mem_filter (hshuf.mem_iff.mp hp2mem)
        have hne' : pos2 ≠ pos1 := fun e => hne (congrArg Prod.fst e)
        have hpos2erase : pos2 ∈ avail.erase pos1 :=
          (List.mem_erase_of_ne hne').mpr hpos2avail
        have hA : avail.Perm (pos1 :: avail.erase pos1) :=
          perm_cons_erase_beq hpos1avail
        have hB : (avail.erase pos1).Perm (pos2 :: (avail.erase pos1).erase pos2) :=
          perm_cons_erase_beq hpos2erase
        refine ⟨{ id := s!"tile-{c + 1}", typeId := pair.1.id,
                  x := pos1.2.x, y := pos1.2.y, z := pos1.2.z, isRemoved := false } ::
                { id := s!"tile-{c + 2}", typeId := pair.2.id,
                  x := pos2.2.x, y := pos2.2.y, z := pos2.2.z, isRemoved := false } ::
                body', availLeft', ?_, ?_, ?_, ?_, ?_, ?_⟩
        · rw [hts, List.append_assoc]
          rfl
        · simp only [List.map_cons, hids]
          rfl
        · have h1 : (avail.map fun pr => pr.2).Perm
              (pos1.2 :: pos2.2 :: (((avail.erase pos1).erase pos2).map fun pr => pr.2)) := by
            have := (hA.trans (List.Perm.cons pos1 hB)).map (fun pr => pr.2)
            simpa using this
          refine h1.trans ?_
          show (pos1.2 :: pos2.2 :: (((avail.erase pos1).erase pos2).map fun pr => pr.2)).Perm _
          exact (hperm.cons pos2.2).cons pos1.2
        · have e1 : (avail.erase pos1).length = avail.length - 1 :=
            List.length_erase_of_mem hpos1avail
          have e2 : ((avail.erase pos1).erase pos2).length = (avail.erase pos1).length - 1 :=
            List.length_erase_of_mem hpos2erase
          have p1 : 0 < avail.length := List.length_pos.mpr (fun e => by simp [e] at hpos1avail)
          have p2' : 0 < (avail.erase pos1).length :=
            List.length_pos.mpr (fun e => by simp [e] at hpos2erase)
          simp only [List.length_cons]
          omega
        · intro t ht
          rcases ht with _ | ⟨_, ht⟩
          · rfl
          · rcases ht with _ | ⟨_, ht⟩
            · rfl
            · exact hrm t ht
        · refine ⟨?_, hsep'⟩
          show (|pos1.2.y - pos2.2.y| ≥ 1 ∨ |pos1.2.z - pos2.2.z| ≥ 1)
          rcases hsepc with hc | hc
          · exact Or.inl (by rw [abs_sub_comm]; exact hc)
          · exact Or.inr (by rw [abs_sub_comm]; exact hc)

theorem flatMap_pair_length (l : List (TileType × TileType)) :
    (l.flatMap fun p => [p.1, p.2]).length = 2 * l.length := by
  induction l with
  | nil => rfl
  | cons p rest ih =>
    simp only [List.flatMap_cons, List.length_append, List.length_cons, ih, List.length_nil]
    omega

theorem assignSolvableTypes_some_spec (o : Oracle) (positions : List (ℕ × LayoutPosition))
    (types : List TileType) (k c k' c' : ℕ) (ts : List TileInstance)
    (h : assignSolvableTypes o positions types k c = (some ts, k', c'))
    (heven : ∀ s, types.countP (fun t => decide (groupKey t = s)) % 2 = 0)
    (hlen : types.length = positions.length) :
    (ts.map fun t => t.typeId).Perm (types.map fun ty => ty.id) ∧
    (ts.map tileCoords).Perm (positions.map fun pr => pr.2) ∧
    (∀ t ∈ ts, t.isRemoved = false) ∧
    SepPairs ts := by
  unfold assignSolvableTypes at h
  obtain ⟨body, availLeft, hts, hids, hperm, hlens, hrm, hsep⟩ :=
    placeLoop_spec o _ _ _ _ _ _ _ _ _ h
  rw [List.nil_append] at hts
  subst hts
  have hpairs : ((fisherYates o (matchingPairsOf types) k).1).Perm (matchingPairsOf types) :=
    fisherYates_perm o _ k
  have hflatperm := matchingPairsOf_flatten_perm types heven
  have hflat_eq : ∀ (l : List (TileType × TileType)),
      (l.flatMap fun p => [p.1.id, p.2.id]) =
        (l.flatMap fun p => [p.1, p.2]).map fun ty => ty.id := by
    intro l
    rw [List.map_flatMap]
    rfl
  have htypes_len : types.length =
      2 * ((fisherYates o (matchingPairsOf types) k).1).length := by
    have h1 := hflatperm.length_eq
    rw [flatMap_pair_length] at h1
    rw [← h1, hpairs.length_eq]
  have havailLeft : availLeft = [] := by
    rw [List.length_eq_zero.symm]
    omega
  subst havailLeft
  refine ⟨?_, ?_, hrm, hsep⟩
  · rw [hids, hflat_eq]
    exact ((List.Perm.flatMap_right _ hpairs).map _).trans (hflatperm.map _)
  · simp only [List.map_nil, List.append_nil] at hperm
    exact hperm.symm

theorem tryAssign_some (o : Oracle) :
    ∀ (n : ℕ) (positions : List (ℕ × LayoutPosition)) (types : List TileType)
      (k c : ℕ) (ts : List TileInstance) (k' c' : ℕ),
      tryAssign o n positions types k c = (some ts, k', c') →
      ∃ k0 c0, assignSolvableTypes o positions types k0 c0 = (some ts, k', c') := by
  intro n
  induction n with
  | zero =>
    intro positions types k c ts k' c' h
    exact absurd h (by simp [tryAssign])
  | succ m ih =>
    intro positions types k c ts k' c' h
    simp only [tryAssign] at h
    split at h
    · rename_i ts0 k0 c0 heq
      exact ⟨k, c, heq.trans (by rw [h])⟩
    · rename_i k0 c0 heq
      exact ih positions types k0 c0 ts k' c' h

theorem fallbackTiles_coords (types : List TileType) :
    ∀ (cs : List LayoutPosition) (c i : ℕ),
      (fallbackTiles types cs c i).map tileCoords = cs := by
  intro cs
  induction cs with
  | nil => intro c i; rfl
  | cons p rest ih =>
    intro c i
    show tileCoords _ :: (fallbackTiles types rest c (i + 1)).map tileCoords = p :: rest
    rw [ih c (i + 1)]
    rfl

theorem fallbackTiles_typeIds (types : List TileType) :
    ∀ (cs : List LayoutPosition) (c i : ℕ), cs.length + i = types.length →
      (fallbackTiles types cs c i).map (fun t => t.typeId) =
        (types.drop i).map fun ty => ty.id := by
  intro cs
  induction cs with
  | nil =>
    intro c i h
    simp only [List.length_nil, Nat.zero_add] at h
    rw [List.drop_eq_nil_of_le (le_of_eq h.symm)]
    rfl
  | cons p rest ih =>
    intro c i h
    simp only [List.length_cons] at h
    have hi : i < types.length := by omega
    show (((types[i]?).map fun t => t.id).getD "") :: _ = _
    rw [List.drop_eq_getElem_cons hi, List.getElem?_eq_getElem hi]
    show types[i].id :: (fallbackTiles types rest c (i + 1)).map (fun t => t.typeId) = _
    rw [ih c (i + 1) (by omega)]
    rfl

theorem fallbackTiles_removed (types : List TileType) :
    ∀ (cs : List LayoutPosition) (c i : ℕ),
      ∀ t ∈ fallbackTiles types cs c i, t.isRemoved = false := by
  intro cs
  induction cs with
  | nil => intro c i t ht; exact absurd ht (by simp [fallbackTiles])
  | cons p rest ih =>
    intro c i t ht
    rcases List.mem_cons.mp ht with he | hm
    · rw [he]
    · exact ih c (i + 1) t hm

theorem filterMap_getType_ids (l : List TileInstance)
    (h : ∀ t ∈ l, (getTileTypeById t.typeId).isSome = true) :
    (l.filterMap fun t => getTileTypeById t.typeId).map (fun ty => ty.id) =
      l.map fun t => t.typeId := by
  induction l with
  | nil => rfl
  | cons t rest ih =>
    have ht := h t (List.mem_cons_self t rest)
    obtain ⟨ty, hty⟩ := Option.isSome_iff_exists.mp ht
    have hid : ty.id = t.typeId := by
      have := List.find?_some hty
      simpa using this
    simp only [List.filterMap_cons, hty, List.map_cons, hid]
    rw [ih fun t' ht' => h t' (List.mem_cons_of_mem t ht')]

/-- The non-removed tiles of a board. -/
def activesOf (b : GameBoard) : List TileInstance :=
  b.tiles.filter fun t => !t.isRemoved

/-- The removed tiles of a board. -/
def removedOf (b : GameBoard) : List TileInstance :=
  b.tiles.filter fun t => t.isRemoved

/-- The resolved catalog types of the active tiles (`types` in `shuffleBoard`;
unresolvable ids are dropped, as by `.filter(Boolean)`). -/
def typesOf (b : GameBoard) : List TileType :=
  (activesOf b).filterMap fun t => getTileTypeById t.typeId

/-- The coordinates of the active tiles (`positions` in `shuffleBoard`). -/
def coordsOf (b : GameBoard) : List LayoutPosition :=
  (activesOf b).map tileCoords

theorem shuffleBoard_success_eq (o : Oracle) (b : GameBoard) (k c : ℕ)
    (ts : List TileInstance) (k' c' : ℕ)
    (h : tryAssign o 20 (coordsOf b).enum (typesOf b) k c = (some ts, k', c')) :
    (shuffleBoard o b k c).1.tiles = ts ++ removedOf b := by
  unfold coordsOf typesOf activesOf at h
  simp only [shuffleBoard]
  rw [h]
  rfl

theorem shuffleBoard_fallback_eq (o : Oracle) (b : GameBoard) (k c : ℕ) (k' c' : ℕ)
    (h : tryAssign o 20 (coordsOf b).enum (typesOf b) k c = (none, k', c')) :
    (shuffleBoard o b k c).1.tiles =
      fallbackTiles (fisherYates o (typesOf b) k').1 (coordsOf b) c' 0 ++ removedOf b := by
  unfold coordsOf typesOf activesOf at h ⊢
  simp only [shuffleBoard]
  rw [h]
  rfl

/-- C8: `shuffleBoard` makes at most 20 attempts (the literal retry bound of
`tryAssign o 20 ...`); when an attempt succeeds, the new active tiles are the
attempt's output, whose consecutive pairs are separated by at least one full
row or layer; when all attempts fail, the result is an unconstrained random
permutation of the same resolved types over the same positions in the same
order. -/
theorem shuffleBoard_attempts_spec (o : Oracle) (b : GameBoard) (k c : ℕ) :
    (∀ (ts : List TileInstance) (k' c' : ℕ),
      tryAssign o 20 (coordsOf b).enum (typesOf b) k c = (some ts, k', c') →
        (shuffleBoard o b k c).1.tiles = ts ++ removedOf b ∧ SepPairs ts) ∧
    (∀ (k' c' : ℕ),
      tryAssign o 20 (coordsOf b).enum (typesOf b) k c = (none, k', c') →
      (typesOf b).length = (coordsOf b).length →
        ∃ (permTypes : List TileType) (newTiles : List TileInstance),
          permTypes.Perm (typesOf b) ∧
          (shuffleBoard o b k c).1.tiles = newTiles ++ removedOf b ∧
          newTiles.map tileCoords = coordsOf b ∧
          newTiles.map (fun t => t.typeId) = permTypes.map fun ty => ty.id) := by
  constructor
  · intro ts k' c' h
    refine ⟨shuffleBoard_success_eq o b k c ts k' c' h, ?_⟩
    obtain ⟨k0, c0, hA⟩ := tryAssign_some o 20 _ _ k c ts k' c' h
    unfold assignSolvableTypes at hA
    obtain ⟨body, _, hts, _, _, _, _, hsep⟩ := placeLoop_spec o _ _ _ _ _ _ _ _ _ hA
    rw [List.nil_append] at hts
    rw [hts]
    exact hsep
  · intro k' c' h hlen
    have hperm : ((fisherYates o (typesOf b) k').1).Perm (typesOf b) :=
      fisherYates_perm o _ k'
    refine ⟨(fisherYates o (typesOf b) k').1,
      fallbackTiles (fisherYates o (typesOf b) k').1 (coordsOf b) c' 0,
      hperm, shuffleBoard_fallback_eq o b k c k' c' h,
      fallbackTiles_coords _ _ _ _, ?_⟩
    rw [fallbackTiles_typeIds _ _ _ _
      (by rw [Nat.add_zero, ← hlen, hperm.length_eq])]
    rw [List.drop_zero]

/-- C4 (amended): when every active tile's type id resolves in the catalog
and every match-class of the resolved types has even multiplicity — both hold
for boards generated and played through pair removal — `shuffleBoard`
preserves the removed tiles exactly and preserves the multisets of active
type ids and of active positions. -/
theorem shuffleBoard_multiset_spec (o : Oracle) (b : GameBoard) (k c : ℕ)
    (hres : ∀ t ∈ b.tiles, t.isRemoved = false → (getTileTypeById t.typeId).isSome = true)
    (heven : ∀ s, (typesOf b).countP (fun ty => decide (groupKey ty = s)) % 2 = 0) :
    ((shuffleBoard o b k c).1.tiles.filter fun t => t.isRemoved) =
      (b.tiles.filter fun t => t.isRemoved) ∧
    (((shuffleBoard o b k c).1.tiles.filter fun t => !t.isRemoved).map (fun t => t.typeId) :
        Multiset String) =
      ((b.tiles.filter fun t => !t.isRemoved).map (fun t => t.typeId) : Multiset String) ∧
    (((shuffleBoard o b k c).1.tiles.filter fun t => !t.isRemoved).map tileCoords :
        Multiset LayoutPosition) =
      ((b.tiles.filter fun t => !t.isRemoved).map tileCoords : Multiset LayoutPosition) := by
  have hresA : ∀ t ∈ activesOf b, (getTileTypeById t.typeId).isSome = true := by
    intro t ht
    have := List.mem_filter.mp ht
    exact hres t this.1 (by simpa using this.2)
  have hid : (typesOf b).map (fun ty => ty.id) = (activesOf b).map fun t => t.typeId :=
    filterMap_getType_ids _ hresA
  have hlen : (typesOf b).length = (activesOf b).length := by
    have := congrArg List.length hid
    simpa using this
  have hlenc : (typesOf b).length = (coordsOf b).length := by
    rw [hlen]
    unfold coordsOf
    rw [List.length_map]
  have hremfilter : ((removedOf b).filter fun t => t.isRemoved) = removedOf b :=
    List.filter_eq_self.mpr fun t ht => (List.mem_filter.mp ht).2
  have hremfilter2 : ((removedOf b).filter fun t => !t.isRemoved) = [] :=
    List.filter_eq_nil_iff.mpr fun t ht => by
      have := (List.mem_filter.mp ht).2
      simp [this]
  have hgoalrem : (b.tiles.filter fun t => t.isRemoved) = removedOf b := rfl
  have hgoalact : (b.tiles.filter fun t => !t.isRemoved) = activesOf b := rfl
  have henumsnd : ((coordsOf b).enum).map (fun pr => pr.2) = coordsOf b :=
    List.enum_map_snd _
  have hcoact : coordsOf b = (activesOf b).map tileCoords := rfl
  rcases h20 : tryAssign o 20 (coordsOf b).enum (typesOf b) k c with ⟨res, k', c'⟩
  cases res with
  | some ts =>
    have hEq := shuffleBoard_success_eq o b k c ts k' c' h20
    obtain ⟨k0, c0, hA⟩ := tryAssign_some o 20 _ _ k c ts k' c' h20
    obtain ⟨hidsP, hcoordsP, hrm, _⟩ :=
      assignSolvableTypes_some_spec o _ _ _ _ _ _ _ hA heven
        (by rw [hlenc, List.enum_length])
    have hfil1 : (ts.filter fun t => t.isRemoved) = [] :=
      List.filter_eq_nil_iff.mpr fun t ht => by simp [hrm t ht]
    have hfil2 : (ts.filter fun t => !t.isRemoved) = ts :=
      List.filter_eq_self.mpr fun t ht => by simp [hrm t ht]
    refine ⟨?_, ?_, ?_⟩
    · rw [hEq, List.filter_append, hfil1, hremfilter, List.nil_append, hgoalrem]
    · rw [hEq, List.filter_append, hfil2, hremfilter2, List.append_nil, hgoalact]
      refine Multiset.coe_eq_coe.mpr ?_
      rw [← hid]
      exact hidsP
    · rw [hEq, List.filter_append, hfil2, hremfilter2, List.append_nil, hgoalact]
      refine Multiset.coe_eq_coe.mpr ?_
      rw [← hcoact, ← henumsnd]
      exact hcoordsP
  | none =>
    have hEq := shuffleBoard_fallback_eq o b k c k' c' h20
    have hperm : ((fisherYates o (typesOf b) k').1).Perm (typesOf b) :=
      fisherYates_perm o _ k'
    set nt := fallbackTiles (fisherYates o (typesOf b) k').1 (coordsOf b) c' 0 with hnt
    have hrm : ∀ t ∈ nt, t.isRemoved = false := fallbackTiles_removed _ _ _ _
    have hfil1 : (nt.filter fun t => t.isRemoved) = [] :=
      List.filter_eq_nil_iff.mpr fun t ht => by simp [hrm t ht]
    have hfil2 : (nt.filter fun t => !t.isRemoved) = nt :=
      List.filter_eq_self.mpr fun t ht => by simp [hrm t ht]
    refine ⟨?_, ?_, ?_⟩
    · rw [hEq, List.filter_append, hfil1, hremfilter, List.nil_append, hgoalrem]
    · rw [hEq, List.filter_append, hfil2, hremfilter2, List.append_nil, hgoalact]
      refine Multiset.coe_eq_coe.mpr ?_
      have hids : nt.map (fun t => t.typeId) =
          ((fisherYates o (typesOf b) k').1).map fun ty => ty.id := by
        rw [hnt, fallbackTiles_typeIds _ _ _ _ (by rw [Nat.add_zero, ← hlenc, hperm.length_eq]),
          List.drop_zero]
      rw [hids, ← hid]
      exact hperm.map _
    · rw [hEq, List.filter_append, hfil2, hremfilter2, List.append_nil, hgoalact]
      rw [hnt, fallbackTiles_coords, hcoact]

/-! ### The C1 counterexample board

`c1Oracle` drives the Fisher-Yates shuffle of `generateBoard` to a
permutation whose 28 initially-free turtle positions receive 28 pairwise
distinct standard types and which places no type twice in any row (so the
same-row repair pass is the identity).  The resulting board has no available
match at all. -/

def c1OracleList : List ℕ :=
  [51, 67, 91, 3, 15, 23, 35, 47, 55, 11, 87, 19, 31, 66, 90, 2, 7, 22, 27, 39, 115, 18, 30, 43, 89, 90, 6, 14, 26, 83, 5, 17, 29, 42, 88, 66, 10, 13, 25, 59, 63, 16, 28, 41, 65, 31, 4, 9, 34, 94, 87, 40, 64, 2, 1, 8, 21, 33, 46, 39, 65, 71, 43, 62, 75, 71, 40, 59, 66, 14, 27, 35, 51, 63, 12, 45, 54, 58, 35, 62, 34, 41, 42, 35, 22, 55, 54, 6, 20, 38, 50, 38, 45, 45, 46, 31, 25, 2, 30, 19, 41, 38, 27, 37, 31, 38, 34, 34, 33, 9, 13, 17, 26, 11, 3, 17, 24, 9, 2, 6, 12, 22, 9, 4, 17, 8, 8, 7, 15, 8, 3, 11, 3, 8, 6, 6, 7, 5, 1, 2, 3, 2, 0]

def c1Oracle : Oracle := fun k => c1OracleList.getD k 0

/-- Tiles 0-15 of the stuck turtle board. -/
def c1Part0 : List TileInstance :=
  [⟨"tile-1", "characters-9", 3, 0, 0, false⟩,
   ⟨"tile-2", "circles-1", 4, 0, 0, false⟩,
   ⟨"tile-3", "characters-2", 1, 1, 0, false⟩,
   ⟨"tile-4", "season-autumn", 2, 1, 0, false⟩,
   ⟨"tile-5", "season-spring", 3, 1, 0, false⟩,
   ⟨"tile-6", "wind-west", 4, 1, 0, false⟩,
   ⟨"tile-7", "wind-south", 5, 1, 0, false⟩,
   ⟨"tile-8", "characters-8", 6, 1, 0, false⟩,
   ⟨"tile-9", "characters-6", 7, 1, 0, false⟩,
   ⟨"tile-10", "characters-3", 8, 1, 0, false⟩,
   ⟨"tile-11", "characters-1", 9, 1, 0, false⟩,
   ⟨"tile-12", "bamboo-7", 10, 1, 0, false⟩,
   ⟨"tile-13", "bamboo-5", 11, 1, 0, false⟩,
   ⟨"tile-14", "wind-east", 12, 1, 0, false⟩,
   ⟨"tile-15", "bamboo-3", 0, 2, 0, false⟩,
   ⟨"tile-16", "season-winter", 1, 2, 0, false⟩]

/-- Tiles 16-31 of the stuck turtle board. -/
def c1Part1 : List TileInstance :=
  [⟨"tile-17", "dragon-red", 2, 2, 0, false⟩,
   ⟨"tile-18", "wind-north", 3, 2, 0, false⟩,
   ⟨"tile-19", "wind-east", 4, 2, 0, false⟩,
   ⟨"tile-20", "characters-8", 5, 2, 0, false⟩,
   ⟨"tile-21", "characters-7", 6, 2, 0, false⟩,
   ⟨"tile-22", "characters-4", 7, 2, 0, false⟩,
   ⟨"tile-23", "characters-2", 8, 2, 0, false⟩,
   ⟨"tile-24", "bamboo-9", 9, 2, 0, false⟩,
   ⟨"tile-25", "bamboo-6", 10, 2, 0, false⟩,
   ⟨"tile-26", "bamboo-4", 11, 2, 0, false⟩,
   ⟨"tile-27", "bamboo-1", 12, 2, 0, false⟩,
   ⟨"tile-28", "circles-7", 13, 2, 0, false⟩,
   ⟨"tile-29", "circles-9", 0, 3, 0, false⟩,
   ⟨"tile-30", "flower-plum", 1, 3, 0, false⟩,
   ⟨"tile-31", "dragon-white", 2, 3, 0, false⟩,
   ⟨"tile-32", "wind-north", 3, 3, 0, false⟩]

/-- Tiles 32-47 of the stuck turtle board. -/
def c1Part2 : List TileInstance :=
  [⟨"tile-33", "wind-south", 4, 3, 0, false⟩,
   ⟨"tile-34", "characters-9", 5, 3, 0, false⟩,
   ⟨"tile-35", "characters-7", 6, 3, 0, false⟩,
   ⟨"tile-36", "characters-4", 7, 3, 0, false⟩,
   ⟨"tile-37", "characters-2", 8, 3, 0, false⟩,
   ⟨"tile-38", "bamboo-9", 9, 3, 0, false⟩,
   ⟨"tile-39", "bamboo-7", 10, 3, 0, false⟩,
   ⟨"tile-40", "bamboo-4", 11, 3, 0, false⟩,
   ⟨"tile-41", "bamboo-1", 12, 3, 0, false⟩,
   ⟨"tile-42", "characters-1", 13, 3, 0, false⟩,
   ⟨"tile-43", "bamboo-5", 0, 4, 0, false⟩,
   ⟨"tile-44", "flower-orchid", 1, 4, 0, false⟩,
   ⟨"tile-45", "dragon-white", 2, 4, 0, false⟩,
   ⟨"tile-46", "wind-north", 3, 4, 0, false⟩,
   ⟨"tile-47", "wind-west", 4, 4, 0, false⟩,
   ⟨"tile-48", "characters-9", 5, 4, 0, false⟩]

/-- Tiles 48-63 of the stuck turtle board. -/
def c1Part3 : List TileInstance :=
  [⟨"tile-49", "characters-7", 6, 4, 0, false⟩,
   ⟨"tile-50", "characters-4", 7, 4, 0, false⟩,
   ⟨"tile-51", "characters-2", 8, 4, 0, false⟩,
   ⟨"tile-52", "bamboo-9", 9, 4, 0, false⟩,
   ⟨"tile-53", "bamboo-6", 10, 4, 0, false⟩,
   ⟨"tile-54", "bamboo-4", 11, 4, 0, false⟩,
   ⟨"tile-55", "bamboo-1", 12, 4, 0, false⟩,
   ⟨"tile-56", "circles-6", 13, 4, 0, false⟩,
   ⟨"tile-57", "wind-west", 0, 5, 0, false⟩,
   ⟨"tile-58", "flower-chrysanthemum", 1, 5, 0, false⟩,
   ⟨"tile-59", "dragon-white", 2, 5, 0, false⟩,
   ⟨"tile-60", "dragon-red", 3, 5, 0, false⟩,
   ⟨"tile-61", "wind-south", 4, 5, 0, false⟩,
   ⟨"tile-62", "wind-east", 5, 5, 0, false⟩,
   ⟨"tile-63", "characters-8", 6, 5, 0, false⟩,
   ⟨"tile-64", "characters-6", 7, 5, 0, false⟩]

/-- Tiles 64-79 of the stuck turtle board. -/
def c1Part4 : List TileInstance :=
  [⟨"tile-65", "characters-3", 8, 5, 0, false⟩,
   ⟨"tile-66", "characters-1", 9, 5, 0, false⟩,
   ⟨"tile-67", "bamboo-6", 10, 5, 0, false⟩,
   ⟨"tile-68", "bamboo-5", 11, 5, 0, false⟩,
   ⟨"tile-69", "bamboo-3", 12, 5, 0, false⟩,
   ⟨"tile-70", "circles-4", 13, 5, 0, false⟩,
   ⟨"tile-71", "characters-8", 1, 6, 0, false⟩,
   ⟨"tile-72", "flower-bamboo", 2, 6, 0, false⟩,
   ⟨"tile-73", "season-summer", 3, 6, 0, false⟩,
   ⟨"tile-74", "dragon-red", 4, 6, 0, false⟩,
   ⟨"tile-75", "wind-west", 5, 6, 0, false⟩,
   ⟨"tile-76", "wind-east", 6, 6, 0, false⟩,
   ⟨"tile-77", "characters-9", 7, 6, 0, false⟩,
   ⟨"tile-78", "characters-6", 8, 6, 0, false⟩,
   ⟨"tile-79", "characters-3", 9, 6, 0, false⟩,
   ⟨"tile-80", "characters-1", 10, 6, 0, false⟩]

/-- Tiles 80-95 of the stuck turtle board. -/
def c1Part5 : List TileInstance :=
  [⟨"tile-81", "bamboo-7", 11, 6, 0, false⟩,
   ⟨"tile-82", "wind-north", 12, 6, 0, false⟩,
   ⟨"tile-83", "bamboo-9", 3, 7, 0, false⟩,
   ⟨"tile-84", "characters-7", 4, 7, 0, false⟩,
   ⟨"tile-85", "dragon-red", 2, 1, 1, false⟩,
   ⟨"tile-86", "bamboo-3", 3, 1, 1, false⟩,
   ⟨"tile-87", "circles-9", 4, 1, 1, false⟩,
   ⟨"tile-88", "circles-6", 5, 1, 1, false⟩,
   ⟨"tile-89", "circles-3", 6, 1, 1, false⟩,
   ⟨"tile-90", "circles-1", 7, 1, 1, false⟩,
   ⟨"tile-91", "dragon-green", 8, 1, 1, false⟩,
   ⟨"tile-92", "bamboo-8", 9, 1, 1, false⟩,
   ⟨"tile-93", "bamboo-2", 10, 1, 1, false⟩,
   ⟨"tile-94", "dragon-white", 11, 1, 1, false⟩,
   ⟨"tile-95", "characters-6", 2, 2, 1, false⟩,
   ⟨"tile-96", "circles-9", 3, 2, 1, false⟩]

/-- Tiles 96-111 of the stuck turtle board. -/
def c1Part6 : List TileInstance :=
  [⟨"tile-97", "circles-3", 4, 2, 1, false⟩,
   ⟨"tile-98", "circles-2", 5, 2, 1, false⟩,
   ⟨"tile-99", "dragon-green", 6, 2, 1, false⟩,
   ⟨"tile-100", "bamboo-8", 7, 2, 1, false⟩,
   ⟨"tile-101", "bamboo-2", 8, 2, 1, false⟩,
   ⟨"tile-102", "circles-8", 9, 2, 1, false⟩,
   ⟨"tile-103", "circles-5", 10, 2, 1, false⟩,
   ⟨"tile-104", "bamboo-7", 11, 2, 1, false⟩,
   ⟨"tile-105", "bamboo-6", 2, 3, 1, false⟩,
   ⟨"tile-106", "circles-7", 3, 3, 1, false⟩,
   ⟨"tile-107", "circles-4", 4, 3, 1, false⟩,
   ⟨"tile-108", "circles-3", 5, 3, 1, false⟩,
   ⟨"tile-109", "dragon-green", 6, 3, 1, false⟩,
   ⟨"tile-110", "characters-5", 7, 3, 1, false⟩,
   ⟨"tile-111", "bamboo-2", 8, 3, 1, false⟩,
   ⟨"tile-112", "circles-8", 9, 3, 1, false⟩]

/-- Tiles 112-127 of the stuck turtle board. -/
def c1Part7 : List TileInstance :=
  [⟨"tile-113", "circles-5", 10, 3, 1, false⟩,
   ⟨"tile-114", "circles-2", 11, 3, 1, false⟩,
   ⟨"tile-115", "characters-3", 2, 4, 1, false⟩,
   ⟨"tile-116", "circles-7", 3, 4, 1, false⟩,
   ⟨"tile-117", "circles-4", 4, 4, 1, false⟩,
   ⟨"tile-118", "circles-2", 5, 4, 1, false⟩,
   ⟨"tile-119", "dragon-green", 6, 4, 1, false⟩,
   ⟨"tile-120", "characters-5", 7, 4, 1, false⟩,
   ⟨"tile-121", "bamboo-2", 8, 4, 1, false⟩,
   ⟨"tile-122", "circles-8", 9, 4, 1, false⟩,
   ⟨"tile-123", "circles-5", 10, 4, 1, false⟩,
   ⟨"tile-124", "wind-south", 11, 4, 1, false⟩,
   ⟨"tile-125", "bamboo-1", 2, 5, 1, false⟩,
   ⟨"tile-126", "circles-7", 3, 5, 1, false⟩,
   ⟨"tile-127", "circles-6", 4, 5, 1, false⟩,
   ⟨"tile-128", "circles-2", 5, 5, 1, false⟩]

/-- Tiles 128-143 of the stuck turtle board. -/
def c1Part8 : List TileInstance :=
  [⟨"tile-129", "circles-1", 6, 5, 1, false⟩,
   ⟨"tile-130", "characters-5", 7, 5, 1, false⟩,
   ⟨"tile-131", "bamboo-8", 8, 5, 1, false⟩,
   ⟨"tile-132", "circles-8", 9, 5, 1, false⟩,
   ⟨"tile-133", "circles-5", 10, 5, 1, false⟩,
   ⟨"tile-134", "characters-4", 11, 5, 1, false⟩,
   ⟨"tile-135", "circles-3", 2, 6, 1, false⟩,
   ⟨"tile-136", "bamboo-5", 3, 6, 1, false⟩,
   ⟨"tile-137", "bamboo-3", 4, 6, 1, false⟩,
   ⟨"tile-138", "circles-9", 5, 6, 1, false⟩,
   ⟨"tile-139", "circles-6", 6, 6, 1, false⟩,
   ⟨"tile-140", "circles-4", 7, 6, 1, false⟩,
   ⟨"tile-141", "circles-1", 8, 6, 1, false⟩,
   ⟨"tile-142", "characters-5", 9, 6, 1, false⟩,
   ⟨"tile-143", "bamboo-8", 10, 6, 1, false⟩,
   ⟨"tile-144", "bamboo-4", 11, 6, 1, false⟩]

/-- The board generateBoard lays out under c1Oracle: 144 tiles on the
turtle layout whose 28 initially free tiles carry 28 pairwise distinct
standard types. -/
def c1Tiles : List TileInstance :=
  c1Part0 ++ c1Part1 ++ c1Part2 ++ c1Part3 ++ c1Part4 ++ c1Part5 ++ c1Part6 ++ c1Part7 ++ c1Part8

/-- The free tiles among tiles 0-15 of the stuck board. -/
def c1FreeP0 : List TileInstance :=
  [⟨"tile-1", "characters-9", 3, 0, 0, false⟩,
   ⟨"tile-2", "circles-1", 4, 0, 0, false⟩,
   ⟨"tile-3", "characters-2", 1, 1, 0, false⟩,
   ⟨"tile-14", "wind-east", 12, 1, 0, false⟩,
   ⟨"tile-15", "bamboo-3", 0, 2, 0, false⟩]

/-- The free tiles among tiles 16-31 of the stuck board. -/
def c1FreeP1 : List TileInstance :=
  [⟨"tile-28", "circles-7", 13, 2, 0, false⟩,
   ⟨"tile-29", "circles-9", 0, 3, 0, false⟩]

/-- The free tiles among tiles 32-47 of the stuck board. -/
def c1FreeP2 : List TileInstance :=
  [⟨"tile-42", "characters-1", 13, 3, 0, false⟩,
   ⟨"tile-43", "bamboo-5", 0, 4, 0, false⟩]

/-- The free tiles among tiles 48-63 of the stuck board. -/
def c1FreeP3 : List TileInstance :=
  [⟨"tile-56", "circles-6", 13, 4, 0, false⟩,
   ⟨"tile-57", "wind-west", 0, 5, 0, false⟩]

/-- The free tiles among tiles 64-79 of the stuck board. -/
def c1FreeP4 : List TileInstance :=
  [⟨"tile-70", "circles-4", 13, 5, 0, false⟩,
   ⟨"tile-71", "characters-8", 1, 6, 0, false⟩]

/-- The free tiles among tiles 80-95 of the stuck board. -/
def c1FreeP5 : List TileInstance :=
  [⟨"tile-82", "wind-north", 12, 6, 0, false⟩,
   ⟨"tile-83", "bamboo-9", 3, 7, 0, false⟩,
   ⟨"tile-84", "characters-7", 4, 7, 0, false⟩,
   ⟨"tile-85", "dragon-red", 2, 1, 1, false⟩,
   ⟨"tile-94", "dragon-white", 11, 1, 1, false⟩,
   ⟨"tile-95", "characters-6", 2, 2, 1, false⟩]

/-- The free tiles among tiles 96-111 of the stuck board. -/
def c1FreeP6 : List TileInstance :=
  [⟨"tile-104", "bamboo-7", 11, 2, 1, false⟩,
   ⟨"tile-105", "bamboo-6", 2, 3, 1, false⟩]

/-- The free tiles among tiles 112-127 of the stuck board. -/
def c1FreeP7 : List TileInstance :=
  [⟨"tile-114", "circles-2", 11, 3, 1, false⟩,
   ⟨"tile-115", "characters-3", 2, 4, 1, false⟩,
   ⟨"tile-124", "wind-south", 11, 4, 1, false⟩,
   ⟨"tile-125", "bamboo-1", 2, 5, 1, false⟩]

/-- The free tiles among tiles 128-143 of the stuck board. -/
def c1FreeP8 : List TileInstance :=
  [⟨"tile-134", "characters-4", 11, 5, 1, false⟩,
   ⟨"tile-135", "circles-3", 2, 6, 1, false⟩,
   ⟨"tile-144", "bamboo-4", 11, 6, 1, false⟩]

/-- The 28 initially free tiles of the stuck board. -/
def c1Free : List TileInstance :=
  c1FreeP0 ++ c1FreeP1 ++ c1FreeP2 ++ c1FreeP3 ++ c1FreeP4 ++ c1FreeP5 ++ c1FreeP6 ++ c1FreeP7 ++ c1FreeP8

/-- Entries 0-15 of the shuffled type pool under c1Oracle. -/
def c1TypeP0 : List TileType :=
  [⟨"characters-9", "characters", none⟩,
   ⟨"circles-1", "circles", none⟩,
   ⟨"characters-2", "characters", none⟩,
   ⟨"season-autumn", "seasons", some "seasons"⟩,
   ⟨"season-spring", "seasons", some "seasons"⟩,
   ⟨"wind-west", "winds", none⟩,
   ⟨"wind-south", "winds", none⟩,
   ⟨"characters-8", "characters", none⟩,
   ⟨"characters-6", "characters", none⟩,
   ⟨"characters-3", "characters", none⟩,
   ⟨"characters-1", "characters", none⟩,
   ⟨"bamboo-7", "bamboo", none⟩,
   ⟨"bamboo-5", "bamboo", none⟩,
   ⟨"wind-east", "winds", none⟩,
   ⟨"bamboo-3", "bamboo", none⟩,
   ⟨"season-winter", "seasons", some "seasons"⟩]

/-- Entries 16-31 of the shuffled type pool under c1Oracle. -/
def c1TypeP1 : List TileType :=
  [⟨"dragon-red", "dragons", none⟩,
   ⟨"wind-north", "winds", none⟩,
   ⟨"wind-east", "winds", none⟩,
   ⟨"characters-8", "characters", none⟩,
   ⟨"characters-7", "characters", none⟩,
   ⟨"characters-4", "characters", none⟩,
   ⟨"characters-2", "characters", none⟩,
   ⟨"bamboo-9", "bamboo", none⟩,
   ⟨"bamboo-6", "bamboo", none⟩,
   ⟨"bamboo-4", "bamboo", none⟩,
   ⟨"bamboo-1", "bamboo", none⟩,
   ⟨"circles-7", "circles", none⟩,
   ⟨"circles-9", "circles", none⟩,
   ⟨"flower-plum", "flowers", some "flowers"⟩,
   ⟨"dragon-white", "dragons", none⟩,
   ⟨"wind-north", "winds", none⟩]

/-- Entries 32-47 of the shuffled type pool under c1Oracle. -/
def c1TypeP2 : List TileType :=
  [⟨"wind-south", "winds", none⟩,
   ⟨"characters-9", "characters", none⟩,
   ⟨"characters-7", "characters", none⟩,
   ⟨"characters-4", "characters", none⟩,
   ⟨"characters-2", "characters", none⟩,
   ⟨"bamboo-9", "bamboo", none⟩,
   ⟨"bamboo-7", "bamboo", none⟩,
   ⟨"bamboo-4", "bamboo", none⟩,
   ⟨"bamboo-1", "bamboo", none⟩,
   ⟨"characters-1", "characters", none⟩,
   ⟨"bamboo-5", "bamboo", none⟩,
   ⟨"flower-orchid", "flowers", some "flowers"⟩,
   ⟨"dragon-white", "dragons", none⟩,
   ⟨"wind-north", "winds", none⟩,
   ⟨"wind-west", "winds", none⟩,
   ⟨"characters-9", "characters", none⟩]

/-- Entries 48-63 of the shuffled type pool under c1Oracle. -/
def c1TypeP3 : List TileType :=
  [⟨"characters-7", "characters", none⟩,
   ⟨"characters-4", "characters", none⟩,
   ⟨"characters-2", "characters", none⟩,
   ⟨"bamboo-9", "bamboo", none⟩,
   ⟨"bamboo-6", "bamboo", none⟩,
   ⟨"bamboo-4", "bamboo", none⟩,
   ⟨"bamboo-1", "bamboo", none⟩,
   ⟨"circles-6", "circles", none⟩,
   ⟨"wind-west", "winds", none⟩,
   ⟨"flower-chrysanthemum", "flowers", some "flowers"⟩,
   ⟨"dragon-white", "dragons", none⟩,
   ⟨"dragon-red", "dragons", none⟩,
   ⟨"wind-south", "winds", none⟩,
   ⟨"wind-east", "winds", none⟩,
   ⟨"characters-8", "characters", none⟩,
   ⟨"characters-6", "characters", none⟩]

/-- Entries 64-79 of the shuffled type pool under c1Oracle. -/
def c1TypeP4 : List TileType :=
  [⟨"characters-3", "characters", none⟩,
   ⟨"characters-1", "characters", none⟩,
   ⟨"bamboo-6", "bamboo", none⟩,
   ⟨"bamboo-5", "bamboo", none⟩,
   ⟨"bamboo-3", "bamboo", none⟩,
   ⟨"circles-4", "circles", none⟩,
   ⟨"characters-8", "characters", none⟩,
   ⟨"flower-bamboo", "flowers", some "flowers"⟩,
   ⟨"season-summer", "seasons", some "seasons"⟩,
   ⟨"dragon-red", "dragons", none⟩,
   ⟨"wind-west", "winds", none⟩,
   ⟨"wind-east", "winds", none⟩,
   ⟨"characters-9", "characters", none⟩,
   ⟨"characters-6", "characters", none⟩,
   ⟨"characters-3", "characters", none⟩,
   ⟨"characters-1", "characters", none⟩]

/-- Entries 80-95 of the shuffled type pool under c1Oracle. -/
def c1TypeP5 : List TileType :=
  [⟨"bamboo-7", "bamboo", none⟩,
   ⟨"wind-north", "winds", none⟩,
   ⟨"bamboo-9", "bamboo", none⟩,
   ⟨"characters-7", "characters", none⟩,
   ⟨"dragon-red", "dragons", none⟩,
   ⟨"bamboo-3", "bamboo", none⟩,
   ⟨"circles-9", "circles", none⟩,
   ⟨"circles-6", "circles", none⟩,
   ⟨"circles-3", "circles", none⟩,
   ⟨"circles-1", "circles", none⟩,
   ⟨"dragon-green", "dragons", none⟩,
   ⟨"bamboo-8", "bamboo", none⟩,
   ⟨"bamboo-2", "bamboo", none⟩,
   ⟨"dragon-white", "dragons", none⟩,
   ⟨"characters-6", "characters", none⟩,
   ⟨"circles-9", "circles", none⟩]

/-- Entries 96-111 of the shuffled type pool under c1Oracle. -/
def c1TypeP6 : List TileType :=
  [⟨"circles-3", "circles", none⟩,
   ⟨"circles-2", "circles", none⟩,
   ⟨"dragon-green", "dragons", none⟩,
   ⟨"bamboo-8", "bamboo", none⟩,
   ⟨"bamboo-2", "bamboo", none⟩,
   ⟨"circles-8", "circles", none⟩,
   ⟨"circles-5", "circles", none⟩,
   ⟨"bamboo-7", "bamboo", none⟩,
   ⟨"bamboo-6", "bamboo", none⟩,
   ⟨"circles-7", "circles", none⟩,
   ⟨"circles-4", "circles", none⟩,
   ⟨"circles-3", "circles", none⟩,
   ⟨"dragon-green", "dragons", none⟩,
   ⟨"characters-5", "characters", none⟩,
   ⟨"bamboo-2", "bamboo", none⟩,
   ⟨"circles-8", "circles", none⟩]

/-- Entries 112-127 of the shuffled type pool under c1Oracle. -/
def c1TypeP7 : List TileType :=
  [⟨"circles-5", "circles", none⟩,
   ⟨"circles-2", "circles", none⟩,
   ⟨"characters-3", "characters", none⟩,
   ⟨"circles-7", "circles", none⟩,
   ⟨"circles-4", "circles", none⟩,
   ⟨"circles-2", "circles", none⟩,
   ⟨"dragon-green", "dragons", none⟩,
   ⟨"characters-5", "characters", none⟩,
   ⟨"bamboo-2", "bamboo", none⟩,
   ⟨"circles-8", "circles", none⟩,
   ⟨"circles-5", "circles", none⟩,
   ⟨"wind-south", "winds", none⟩,
   ⟨"bamboo-1", "bamboo", none⟩,
   ⟨"circles-7", "circles", none⟩,
   ⟨"circles-6", "circles", none⟩,
   ⟨"circles-2", "circles", none⟩]

/-- Entries 128-143 of the shuffled type pool under c1Oracle. -/
def c1TypeP8 : List TileType :=
  [⟨"circles-1", "circles", none⟩,
   ⟨"characters-5", "characters", none⟩,
   ⟨"bamboo-8", "bamboo", none⟩,
   ⟨"circles-8", "circles", none⟩,
   ⟨"circles-5", "circles", none⟩,
   ⟨"characters-4", "characters", none⟩,
   ⟨"circles-3", "circles", none⟩,
   ⟨"bamboo-5", "bamboo", none⟩,
   ⟨"bamboo-3", "bamboo", none⟩,
   ⟨"circles-9", "circles", none⟩,
   ⟨"circles-6", "circles", none⟩,
   ⟨"circles-4", "circles", none⟩,
   ⟨"circles-1", "circles", none⟩,
   ⟨"characters-5", "characters", none⟩,
   ⟨"bamboo-8", "bamboo", none⟩,
   ⟨"bamboo-4", "bamboo", none⟩]

/-- The type pool as permuted by the Fisher-Yates pass under c1Oracle. -/
def c1ShuffledTypes : List TileType :=
  c1TypeP0 ++ c1TypeP1 ++ c1TypeP2 ++ c1TypeP3 ++ c1TypeP4 ++ c1TypeP5 ++ c1TypeP6 ++ c1TypeP7 ++ c1TypeP8

/-! ### Concrete instances for counterexamples and witnesses

Batteries marks the `Rat` arithmetic operations `@[irreducible]`; they are
unsealed here so that concrete boards evaluate by `decide`/`rfl`. -/

unseal Rat.sub Rat.add Rat.mul Rat.inv Rat.ofScientific

/-- An oracle that always returns 0 (every JS `Math.random()` run drawing
values below every bound corresponds to it). -/
def zeroOracle : Oracle := fun _ => 0

def ceTileA : TileInstance :=
  { id := "a", typeId := "circles-1", x := 0, y := 0, z := 0, isRemoved := false }

def ceTileB : TileInstance :=
  { id := "b", typeId := "circles-1", x := 0, y := 2, z := 0, isRemoved := false }

def ceTileC : TileInstance :=
  { id := "c", typeId := "circles-1", x := 0, y := 4, z := 0, isRemoved := false }

/-- Three active circles-1 tiles: the "circles-1" match-class has odd
multiplicity, so the reverse-pairing step drops one of them. -/
def ceBoard3 : GameBoard := { tiles := [ceTileA, ceTileB, ceTileC], layout := turtleLayout }

/-- Two active circles-1 tiles two rows apart. -/
def wBoard2 : GameBoard := { tiles := [ceTileA, ceTileB], layout := turtleLayout }

/-- C4 fails as stated: shuffling `ceBoard3` loses one of the three
`circles-1` tiles (the odd leftover of its match-class), so the active
type-id multiset shrinks from three to two elements. -/
theorem shuffleBoard_multiset_counterexample :
    ¬ ((((shuffleBoard zeroOracle ceBoard3 0 0).1.tiles.filter fun t => !t.isRemoved).map
          (fun t => t.typeId) : Multiset String) =
        ((ceBoard3.tiles.filter fun t => !t.isRemoved).map (fun t => t.typeId) :
          Multiset String)) := by
  decide

def wShuffleTiles : List TileInstance :=
  [{ id := "tile-1", typeId := "circles-1", x := 0, y := 2, z := 0, isRemoved := false },
   { id := "tile-2", typeId := "circles-1", x := 0, y := 0, z := 0, isRemoved := false }]

theorem shuffleBoard_attempts_spec_witness :
    (shuffleBoard zeroOracle wBoard2 0 0).1.tiles = wShuffleTiles ++ removedOf wBoard2 ∧
    SepPairs wShuffleTiles :=
  (shuffleBoard_attempts_spec zeroOracle wBoard2 0 0).1 wShuffleTiles 2 2 rfl

theorem shuffleBoard_multiset_spec_witness :
    ((shuffleBoard zeroOracle wBoard2 0 0).1.tiles.filter fun t => t.isRemoved) =
      (wBoard2.tiles.filter fun t => t.isRemoved) ∧
    (((shuffleBoard zeroOracle wBoard2 0 0).1.tiles.filter fun t => !t.isRemoved).map
        (fun t => t.typeId) : Multiset String) =
      ((wBoard2.tiles.filter fun t => !t.isRemoved).map (fun t => t.typeId) :
        Multiset String) ∧
    (((shuffleBoard zeroOracle wBoard2 0 0).1.tiles.filter fun t => !t.isRemoved).map
        tileCoords : Multiset LayoutPosition) =
      ((wBoard2.tiles.filter fun t => !t.isRemoved).map tileCoords :
        Multiset LayoutPosition) :=
  shuffleBoard_multiset_spec zeroOracle wBoard2 0 0 (by decide)
    (by
      intro s
      have he : typesOf wBoard2 =
          [{ id := "circles-1", category := "circles", matchGroup := none },
           { id := "circles-1", category := "circles", matchGroup := none }] := rfl
      rw [he]
      simp only [List.countP_cons, List.countP_nil]
      by_cases hgs :
          groupKey ({ id := "circles-1", category := "circles", matchGroup := none } :
            TileType) = s <;>
        simp [hgs])

theorem removeTilePair_spec_witness :
    removeTilePair [ceTileA] "x" "y" = [ceTileA] :=
  (removeTilePair_spec [ceTileA] "x" "y").2.1 (by decide)

def wRemovedTile : TileInstance :=
  { id := "r", typeId := "circles-1", x := 0, y := 0, z := 0, isRemoved := true }

theorem checkWin_checkStuck_spec_witness :
    checkWin [wRemovedTile] = true :=
  ((checkWin_checkStuck_spec [wRemovedTile]).1).mpr (by decide)

theorem tilesMatch_spec_witness :
    tilesMatch { id := "circles-1", category := "circles", matchGroup := none }
      { id := "circles-1", category := "circles", matchGroup := none } = true :=
  (tilesMatch_spec.1 _ _).mpr (Or.inl rfl)

/-- A tile collection is clearable when every way of repeatedly picking any
pair returned by `findAllMatches` and removing it ends in a win. -/
inductive Clearable : List TileInstance → Prop where
  | win {ts : List TileInstance} : checkWin ts = true → Clearable ts
  | step {ts : List TileInstance} : findAllMatches ts ≠ [] →
      (∀ p ∈ findAllMatches ts, Clearable (removeTilePair ts p.1.id p.2.id)) →
      Clearable ts

/-! ### Staged evaluation of the stuck board

Checking the concrete board is split so that no single declaration forces a
large evaluation: freeness of each of the 144 tiles is settled by its own
lemma (blocked tiles by an explicit blocker witness, free tiles by side scans
that drop the always-true id-inequality conjunct), the chunk filters are
assembled from those lemmas, and the matcher is handled symbolically from the
pairwise-distinct type ids of the free tiles. -/

/-- Membership from an indexed lookup. -/
theorem mem_of_getElem?_some (l : List α) (i : ℕ) (a : α) (h : l[i]? = some a) :
    a ∈ l := by
  induction l generalizing i with
  | nil => simp at h
  | cons x xs ih =>
    cases i with
    | zero => simp at h; simp [h]
    | succ j => simp at h; exact List.mem_cons_of_mem x (ih j h)

/-- Dropping an unknown leading conjunct preserves falsity (four conjuncts). -/
theorem and_chain4_false (i z x y : Bool) (h : ((z && x) && y) = false) :
    (((i && z) && x) && y) = false := by
  revert h; cases i <;> cases z <;> cases x <;> cases y <;> decide

/-- Dropping an unknown leading conjunct preserves falsity (five conjuncts). -/
theorem and_chain5_false (i a b c d : Bool) (h : (((a && b) && c) && d) = false) :
    ((((i && a) && b) && c) && d) = false := by
  revert h; cases i <;> cases a <;> cases b <;> cases c <;> cases d <;> decide

/-- A tile is free when nothing scans as sitting above it and one side scan is
empty, regardless of the id-inequality conjuncts. -/
theorem isFreeTile_true_intro (tile : TileInstance) (ts : List TileInstance)
    (hrm : tile.isRemoved = false)
    (htop : ((ts.filter fun t => !t.isRemoved).all (fun other =>
      !(decide (other.z > tile.z) && decide (|other.x - tile.x| < 0.9) &&
        decide (|other.y - tile.y| < 0.9)))) = true)
    (hside : (((ts.filter fun t => !t.isRemoved).all (fun other =>
        !(decide (other.z = tile.z) && decide (|other.y - tile.y| < 0.9) &&
          decide (other.x < tile.x) && decide (tile.x - other.x < 1.1)))) = true) ∨
      (((ts.filter fun t => !t.isRemoved).all (fun other =>
        !(decide (other.z = tile.z) && decide (|other.y - tile.y| < 0.9) &&
          decide (other.x > tile.x) && decide (other.x - tile.x < 1.1)))) = true)) :
    isFreeTile tile ts = true := by
  have htop' : ((ts.filter fun t => !t.isRemoved).any fun other =>
      other.id != tile.id && decide (other.z > tile.z) &&
      decide (|other.x - tile.x| < 0.9) && decide (|other.y - tile.y| < 0.9)) = false := by
    rw [List.any_eq_false]
    intro o ho
    have h1 := List.all_eq_true.mp htop o ho
    rw [Bool.not_eq_true'] at h1
    rw [Bool.not_eq_true]
    exact and_chain4_false _ _ _ _ h1
  unfold isFreeTile
  simp only [hrm, htop', Bool.false_eq_true, if_false]
  rcases hside with hl | hr
  · have hl' : ((ts.filter fun t => !t.isRemoved).any fun other =>
        other.id != tile.id && decide (other.z = tile.z) &&
        decide (|other.y - tile.y| < 0.9) &&
        decide (other.x < tile.x) && decide (tile.x - other.x < 1.1)) = false := by
      rw [List.any_eq_false]
      intro o ho
      have h1 := List.all_eq_true.mp hl o ho
      rw [Bool.not_eq_true'] at h1
      rw [Bool.not_eq_true]
      exact and_chain5_false _ _ _ _ _ h1
    simp only [hl', Bool.not_false, Bool.true_or]
  · have hr' : ((ts.filter fun t => !t.isRemoved).any fun other =>
        other.id != tile.id && decide (other.z = tile.z) &&
        decide (|other.y - tile.y| < 0.9) &&
        decide (other.x > tile.x) && decide (other.x - tile.x < 1.1)) = false := by
      rw [List.any_eq_false]
      intro o ho
      have h1 := List.all_eq_true.mp hr o ho
      rw [Bool.not_eq_true'] at h1
      rw [Bool.not_eq_true]
      exact and_chain5_false _ _ _ _ _ h1
    simp only [hr', Bool.not_false, Bool.or_true]

/-- A non-removed tile with a non-removed blocker directly above is not free. -/
theorem isFreeTile_false_top_intro (tile : TileInstance) (ts : List TileInstance)
    (hrm : tile.isRemoved = false)
    (w : TileInstance) (hw : w ∈ ts) (hwrm : w.isRemoved = false)
    (hid : (w.id != tile.id) = true) (hz : decide (w.z > tile.z) = true)
    (hx : decide (|w.x - tile.x| < 0.9) = true) (hy : decide (|w.y - tile.y| < 0.9) = true) :
    isFreeTile tile ts = false := by
  have htop : ((ts.filter fun t => !t.isRemoved).any fun other =>
      other.id != tile.id && decide (other.z > tile.z) &&
      decide (|other.x - tile.x| < 0.9) && decide (|other.y - tile.y| < 0.9)) = true := by
    rw [List.any_eq_true]
    exact ⟨w, List.mem_filter.mpr ⟨hw, by simp [hwrm]⟩, by simp [hid, hz, hx, hy]⟩
  unfold isFreeTile
  simp only [hrm, Bool.false_eq_true, if_false, htop, if_true]

/-- A non-removed tile with non-removed blockers on both sides is not free. -/
theorem isFreeTile_false_sides_intro (tile : TileInstance) (ts : List TileInstance)
    (hrm : tile.isRemoved = false)
    (wl : TileInstance) (hwl : wl ∈ ts) (hwlrm : wl.isRemoved = false)
    (hidl : (wl.id != tile.id) = true) (hzl : decide (wl.z = tile.z) = true)
    (hyl : decide (|wl.y - tile.y| < 0.9) = true) (hxl : decide (wl.x < tile.x) = true)
    (hdl : decide (tile.x - wl.x < 1.1) = true)
    (wr : TileInstance) (hwr : wr ∈ ts) (hwrrm : wr.isRemoved = false)
    (hidr : (wr.id != tile.id) = true) (hzr : decide (wr.z = tile.z) = true)
    (hyr : decide (|wr.y - tile.y| < 0.9) = true) (hxr : decide (wr.x > tile.x) = true)
    (hdr : decide (wr.x - tile.x < 1.1) = true) :
    isFreeTile tile ts = false := by
  have hleft : ((ts.filter fun t => !t.isRemoved).any fun other =>
      other.id != tile.id && decide (other.z = tile.z) &&
      decide (|other.y - tile.y| < 0.9) &&
      decide (other.x < tile.x) && decide (tile.x - other.x < 1.1)) = true := by
    rw [List.any_eq_true]
    exact ⟨wl, List.mem_filter.mpr ⟨hwl, by simp [hwlrm]⟩, by simp [hidl, hzl, hyl, hxl, hdl]⟩
  have hright : ((ts.filter fun t => !t.isRemoved).any fun other =>
      other.id != tile.id && decide (other.z = tile.z) &&
      decide (|other.y - tile.y| < 0.9) &&
      decide (other.x > tile.x) && decide (other.x - tile.x < 1.1)) = true := by
    rw [List.any_eq_true]
    exact ⟨wr, List.mem_filter.mpr ⟨hwr, by simp [hwrrm]⟩, by simp [hidr, hzr, hyr, hxr, hdr]⟩
  unfold isFreeTile
  simp only [hrm, Bool.false_eq_true, if_false, hleft, hright]
  by_cases htop : ((ts.filter fun t => !t.isRemoved).any fun other =>
      other.id != tile.id && decide (other.z > tile.z) &&
      decide (|other.x - tile.x| < 0.9) && decide (|other.y - tile.y| < 0.9)) = true
  · simp only [htop, if_true]
  · simp only [Bool.not_eq_true] at htop
    simp only [htop, Bool.false_eq_true, if_false, Bool.not_true, Bool.or_false]

/-- Members of `allPairs l` are list members with distinct images under a map
that is duplicate-free on `l`. -/
theorem allPairs_map_ne (f : α → β) :
    ∀ (l : List α), (l.map f).Nodup → ∀ p : α × α, p ∈ allPairs l →
      f p.1 ≠ f p.2 ∧ p.1 ∈ l ∧ p.2 ∈ l := by
  intro l
  induction l with
  | nil => intro _ p hp; simp [allPairs] at hp
  | cons x xs ih =>
    intro hnd p hp
    simp only [List.map_cons, List.nodup_cons] at hnd
    simp only [allPairs, List.mem_append, List.mem_map] at hp
    rcases hp with ⟨y, hy, hpe⟩ | hp
    · subst hpe
      refine ⟨?_, List.mem_cons_self x xs, List.mem_cons_of_mem x hy⟩
      intro hf
      exact hnd.1 (hf ▸ List.mem_map_of_mem f hy)
    · obtain ⟨hne, h1, h2⟩ := ih hnd.2 p hp
      exact ⟨hne, List.mem_cons_of_mem x h1, List.mem_cons_of_mem x h2⟩

/-! Per-tile freeness facts for the stuck board, one lemma per tile:
blocked tiles get explicit blocker witnesses, free tiles get empty
side scans (evaluated without the id-inequality conjunct). -/

set_option maxRecDepth 40000

set_option maxHeartbeats 1000000

theorem c1_ft0 : isFreeTile ⟨"tile-1", "characters-9", 3, 0, 0, false⟩ c1Tiles = true :=
  isFreeTile_true_intro _ c1Tiles rfl (by rfl) (Or.inl (by rfl))

theorem c1_ft1 : isFreeTile ⟨"tile-2", "circles-1", 4, 0, 0, false⟩ c1Tiles = true :=
  isFreeTile_true_intro _ c1Tiles rfl (by rfl) (Or.inr (by rfl))

theorem c1_ft2 : isFreeTile ⟨"tile-3", "characters-2", 1, 1, 0, false⟩ c1Tiles = true :=
  isFreeTile_true_intro _ c1Tiles rfl (by rfl) (Or.inl (by rfl))

theorem c1_ft3 : isFreeTile ⟨"tile-4", "season-autumn", 2, 1, 0, false⟩ c1Tiles = false :=
  isFreeTile_false_top_intro _ c1Tiles rfl _
    (mem_of_getElem?_some c1Tiles 84 ⟨"tile-85", "dragon-red", 2, 1, 1, false⟩ (by rfl)) rfl (by rfl) (by rfl) (by rfl) (by rfl)

theorem c1_ft4 : isFreeTile ⟨"tile-5", "season-spring", 3, 1, 0, false⟩ c1Tiles = false :=
  isFreeTile_false_top_intro _ c1Tiles rfl _
    (mem_of_getElem?_some c1Tiles 85 ⟨"tile-86", "bamboo-3", 3, 1, 1, false⟩ (by rfl)) rfl (by rfl) (by rfl) (by rfl) (by rfl)

theorem c1_ft5 : isFreeTile ⟨"tile-6", "wind-west", 4, 1, 0, false⟩ c1Tiles = false :=
  isFreeTile_false_top_intro _ c1Tiles rfl _
    (mem_of_getElem?_some c1Tiles 86 ⟨"tile-87", "circles-9", 4, 1, 1, false⟩ (by rfl)) rfl (by rfl) (by rfl) (by rfl) (by rfl)

theorem c1_ft6 : isFreeTile ⟨"tile-7", "wind-south", 5, 1, 0, false⟩ c1Tiles = false :=
  isFreeTile_false_top_intro _ c1Tiles rfl _
    (mem_of_getElem?_some c1Tiles 87 ⟨"tile-88", "circles-6", 5, 1, 1, false⟩ (by rfl)) rfl (by rfl) (by rfl) (by rfl) (by rfl)

theorem c1_ft7 : isFreeTile ⟨"tile-8", "characters-8", 6, 1, 0, false⟩ c1Tiles = false :=
  isFreeTile_false_top_intro _ c1Tiles rfl _
    (mem_of_getElem?_some c1Tiles 88 ⟨"tile-89", "circles-3", 6, 1, 1, false⟩ (by rfl)) rfl (by rfl) (by rfl) (by rfl) (by rfl)

theorem c1_ft8 : isFreeTile ⟨"tile-9", "characters-6", 7, 1, 0, false⟩ c1Tiles = false :=
  isFreeTile_false_top_intro _ c1Tiles rfl _
    (mem_of_getElem?_some c1Tiles 89 ⟨"tile-90", "circles-1", 7, 1, 1, false⟩ (by rfl)) rfl (by rfl) (by rfl) (by rfl) (by rfl)

theorem c1_ft9 : isFreeTile ⟨"tile-10", "characters-3", 8, 1, 0, false⟩ c1Tiles = false :=
  isFreeTile_false_top_intro _ c1Tiles rfl _
    (mem_of_getElem?_some c1Tiles 90 ⟨"tile-91", "dragon-green", 8, 1, 1, false⟩ (by rfl)) rfl (by rfl) (by rfl) (by rfl) (by rfl)

theorem c1_ft10 : isFreeTile ⟨"tile-11", "characters-1", 9, 1, 0, false⟩ c1Tiles = false :=
  isFreeTile_false_top_intro _ c1Tiles rfl _
    (mem_of_getElem?_some c1Tiles 91 ⟨"tile-92", "bamboo-8", 9, 1, 1, false⟩ (by rfl)) rfl (by rfl) (by rfl) (by rfl) (by rfl)

theorem c1_ft11 : isFreeTile ⟨"tile-12", "bamboo-7", 10, 1, 0, false⟩ c1Tiles = false :=
  isFreeTile_false_top_intro _ c1Tiles rfl _
    (mem_of_getElem?_some c1Tiles 92 ⟨"tile-93", "bamboo-2", 10, 1, 1, false⟩ (by rfl)) rfl (by rfl) (by rfl) (by rfl) (by rfl)

theorem c1_ft12 : isFreeTile ⟨"tile-13", "bamboo-5", 11, 1, 0, false⟩ c1Tiles = false :=
  isFreeTile_false_top_intro _ c1Tiles rfl _
    (mem_of_getElem?_some c1Tiles 93 ⟨"tile-94", "dragon-white", 11, 1, 1, false⟩ (by rfl)) rfl (by rfl) (by rfl) (by rfl) (by rfl)

theorem c1_ft13 : isFreeTile ⟨"tile-14", "wind-east", 12, 1, 0, false⟩ c1Tiles = true :=
  isFreeTile_true_intro _ c1Tiles rfl (by rfl) (Or.inr (by rfl))

theorem c1_ft14 : isFreeTile ⟨"tile-15", "bamboo-3", 0, 2, 0, false⟩ c1Tiles = true :=
  isFreeTile_true_intro _ c1Tiles rfl (by rfl) (Or.inl (by rfl))

theorem c1_ft15 : isFreeTile ⟨"tile-16", "season-winter", 1, 2, 0, false⟩ c1Tiles = false :=
  isFreeTile_false_sides_intro _ c1Tiles rfl
    _ (mem_of_getElem?_some c1Tiles 14 ⟨"tile-15", "bamboo-3", 0, 2, 0, false⟩ (by rfl)) rfl (by rfl) (by rfl) (by rfl) (by rfl) (by rfl)
    _ (mem_of_getElem?_some c1Tiles 16 ⟨"tile-17", "dragon-red", 2, 2, 0, false⟩ (by rfl)) rfl (by rfl) (by rfl) (by rfl) (by rfl) (by rfl)

theorem c1_ft16 : isFreeTile ⟨"tile-17", "dragon-red", 2, 2, 0, false⟩ c1Tiles = false :=
  isFreeTile_false_top_intro _ c1Tiles rfl _
    (mem_of_getElem?_some c1Tiles 94 ⟨"tile-95", "characters-6", 2, 2, 1, false⟩ (by rfl)) rfl (by rfl) (by rfl) (by rfl) (by rfl)

theorem c1_ft17 : isFreeTile ⟨"tile-18", "wind-north", 3, 2, 0, false⟩ c1Tiles = false :=
  isFreeTile_false_top_intro _ c1Tiles rfl _
    (mem_of_getElem?_some c1Tiles 95 ⟨"tile-96", "circles-9", 3, 2, 1, false⟩ (by rfl)) rfl (by rfl) (by rfl) (by rfl) (by rfl)

theorem c1_ft18 : isFreeTile ⟨"tile-19", "wind-east", 4, 2, 0, false⟩ c1Tiles = false :=
  isFreeTile_false_top_intro _ c1Tiles rfl _
    (mem_of_getElem?_some c1Tiles 96 ⟨"tile-97", "circles-3", 4, 2, 1, false⟩ (by rfl)) rfl (by rfl) (by rfl) (by rfl) (by rfl)

theorem c1_ft19 : isFreeTile ⟨"tile-20", "characters-8", 5, 2, 0, false⟩ c1Tiles = false :=
  isFreeTile_false_top_intro _ c1Tiles rfl _
    (mem_of_getElem?_some c1Tiles 97 ⟨"tile-98", "circles-2", 5, 2, 1, false⟩ (by rfl)) rfl (by rfl) (by rfl) (by rfl) (by rfl)

theorem c1_ft20 : isFreeTile ⟨"tile-21", "characters-7", 6, 2, 0, false⟩ c1Tiles = false :=
  isFreeTile_false_top_intro _ c1Tiles rfl _
    (mem_of_getElem?_some c1Tiles 98 ⟨"tile-99", "dragon-green", 6, 2, 1, false⟩ (by rfl)) rfl (by rfl) (by rfl) (by rfl) (by rfl)

theorem c1_ft21 : isFreeTile ⟨"tile-22", "characters-4", 7, 2, 0, false⟩ c1Tiles = false :=
  isFreeTile_false_top_intro _ c1Tiles rfl _
    (mem_of_getElem?_some c1Tiles 99 ⟨"tile-100", "bamboo-8", 7, 2, 1, false⟩ (by rfl)) rfl (by rfl) (by rfl) (by rfl) (by rfl)

theorem c1_ft22 : isFreeTile ⟨"tile-23", "characters-2", 8, 2, 0, false⟩ c1Tiles = false :=
  isFreeTile_false_top_intro _ c1Tiles rfl _
    (mem_of_getElem?_some c1Tiles 100 ⟨"tile-101", "bamboo-2", 8, 2, 1, false⟩ (by rfl)) rfl (by rfl) (by rfl) (by rfl) (by rfl)

theorem c1_ft23 : isFreeTile ⟨"tile-24", "bamboo-9", 9, 2, 0, false⟩ c1Tiles = false :=
  isFreeTile_false_top_intro _ c1Tiles rfl _
    (mem_of_getElem?_some c1Tiles 101 ⟨"tile-102", "circles-8", 9, 2, 1, false⟩ (by rfl)) rfl (by rfl) (by rfl) (by rfl) (by rfl)

theorem c1_ft24 : isFreeTile ⟨"tile-25", "bamboo-6", 10, 2, 0, false⟩ c1Tiles = false :=
  isFreeTile_false_top_intro _ c1Tiles rfl _
    (mem_of_getElem?_some c1Tiles 102 ⟨"tile-103", "circles-5", 10, 2, 1, false⟩ (by rfl)) rfl (by rfl) (by rfl) (by rfl) (by rfl)

theorem c1_ft25 : isFreeTile ⟨"tile-26", "bamboo-4", 11, 2, 0, false⟩ c1Tiles = false :=
  isFreeTile_false_top_intro _ c1Tiles rfl _
    (mem_of_getElem?_some c1Tiles 103 ⟨"tile-104", "bamboo-7", 11, 2, 1, false⟩ (by rfl)) rfl (by rfl) (by rfl) (by rfl) (by rfl)

theorem c1_ft26 : isFreeTile ⟨"tile-27", "bamboo-1", 12, 2, 0, false⟩ c1Tiles = false :=
  isFreeTile_false_sides_intro _ c1Tiles rfl
    _ (mem_of_getElem?_some c1Tiles 25 ⟨"tile-26", "bamboo-4", 11, 2, 0, false⟩ (by rfl)) rfl (by rfl) (by rfl) (by rfl) (by rfl) (by rfl)
    _ (mem_of_getElem?_some c1Tiles 27 ⟨"tile-28", "circles-7", 13, 2, 0, false⟩ (by rfl)) rfl (by rfl) (by rfl) (by rfl) (by rfl) (by rfl)

theorem c1_ft27 : isFreeTile ⟨"tile-28", "circles-7", 13, 2, 0, false⟩ c1Tiles = true :=
  isFreeTile_true_intro _ c1Tiles rfl (by rfl) (Or.inr (by rfl))

theorem c1_ft28 : isFreeTile ⟨"tile-29", "circles-9", 0, 3, 0, false⟩ c1Tiles = true :=
  isFreeTile_true_intro _ c1Tiles rfl (by rfl) (Or.inl (by rfl))

theorem c1_ft29 : isFreeTile ⟨"tile-30", "flower-plum", 1, 3, 0, false⟩ c1Tiles = false :=
  isFreeTile_false_sides_intro _ c1Tiles rfl
    _ (mem_of_getElem?_some c1Tiles 28 ⟨"tile-29", "circles-9", 0, 3, 0, false⟩ (by rfl)) rfl (by rfl) (by rfl) (by rfl) (by rfl) (by rfl)
    _ (mem_of_getElem?_some c1Tiles 30 ⟨"tile-31", "dragon-white", 2, 3, 0, false⟩ (by rfl)) rfl (by rfl) (by rfl) (by rfl) (by rfl) (by rfl)

theorem c1_ft30 : isFreeTile ⟨"tile-31", "dragon-white", 2, 3, 0, false⟩ c1Tiles = false :=
  isFreeTile_false_top_intro _ c1Tiles rfl _
    (mem_of_getElem?_some c1Tiles 104 ⟨"tile-105", "bamboo-6", 2, 3, 1, false⟩ (by rfl)) rfl (by rfl) (by rfl) (by rfl) (by rfl)

theorem c1_ft31 : isFreeTile ⟨"tile-32", "wind-north", 3, 3, 0, false⟩ c1Tiles = false :=
  isFreeTile_false_top_intro _ c1Tiles rfl _
    (mem_of_getElem?_some c1Tiles 105 ⟨"tile-106", "circles-7", 3, 3, 1, false⟩ (by rfl)) rfl (by rfl) (by rfl) (by rfl) (by rfl)

theorem c1_ft32 : isFreeTile ⟨"tile-33", "wind-south", 4, 3, 0, false⟩ c1Tiles = false :=
  isFreeTile_false_top_intro _ c1Tiles rfl _
    (mem_of_getElem?_some c1Tiles 106 ⟨"tile-107", "circles-4", 4, 3, 1, false⟩ (by rfl)) rfl (by rfl) (by rfl) (by rfl) (by rfl)

theorem c1_ft33 : isFreeTile ⟨"tile-34", "characters-9", 5, 3, 0, false⟩ c1Tiles = false :=
  isFreeTile_false_top_intro _ c1Tiles rfl _
    (mem_of_getElem?_some c1Tiles 107 ⟨"tile-108", "circles-3", 5, 3, 1, false⟩ (by rfl)) rfl (by rfl) (by rfl) (by rfl) (by rfl)

theorem c1_ft34 : isFreeTile ⟨"tile-35", "characters-7", 6, 3, 0, false⟩ c1Tiles = false :=
  isFreeTile_false_top_intro _ c1Tiles rfl _
    (mem_of_getElem?_some c1Tiles 108 ⟨"tile-109", "dragon-green", 6, 3, 1, false⟩ (by rfl)) rfl (by rfl) (by rfl) (by rfl) (by rfl)

theorem c1_ft35 : isFreeTile ⟨"tile-36", "characters-4", 7, 3, 0, false⟩ c1Tiles = false :=
  isFreeTile_false_top_intro _ c1Tiles rfl _
    (mem_of_getElem?_some c1Tiles 109 ⟨"tile-110", "characters-5", 7, 3, 1, false⟩ (by rfl)) rfl (by rfl) (by rfl) (by rfl) (by rfl)

theorem c1_ft36 : isFreeTile ⟨"tile-37", "characters-2", 8, 3, 0, false⟩ c1Tiles = false :=
  isFreeTile_false_top_intro _ c1Tiles rfl _
    (mem_of_getElem?_some c1Tiles 110 ⟨"tile-111", "bamboo-2", 8, 3, 1, false⟩ (by rfl)) rfl (by rfl) (by rfl) (by rfl) (by rfl)

theorem c1_ft37 : isFreeTile ⟨"tile-38", "bamboo-9", 9, 3, 0, false⟩ c1Tiles = false :=
  isFreeTile_false_top_intro _ c1Tiles rfl _
    (mem_of_getElem?_some c1Tiles 111 ⟨"tile-112", "circles-8", 9, 3, 1, false⟩ (by rfl)) rfl (by rfl) (by rfl) (by rfl) (by rfl)

theorem c1_ft38 : isFreeTile ⟨"tile-39", "bamboo-7", 10, 3, 0, false⟩ c1Tiles = false :=
  isFreeTile_false_top_intro _ c1Tiles rfl _
    (mem_of_getElem?_some c1Tiles 112 ⟨"tile-113", "circles-5", 10, 3, 1, false⟩ (by rfl)) rfl (by rfl) (by rfl) (by rfl) (by rfl)

theorem c1_ft39 : isFreeTile ⟨"tile-40", "bamboo-4", 11, 3, 0, false⟩ c1Tiles = false :=
  isFreeTile_false_top_intro _ c1Tiles rfl _
    (mem_of_getElem?_some c1Tiles 113 ⟨"tile-114", "circles-2", 11, 3, 1, false⟩ (by rfl)) rfl (by rfl) (by rfl) (by rfl) (by rfl)

theorem c1_ft40 : isFreeTile ⟨"tile-41", "bamboo-1", 12, 3, 0, false⟩ c1Tiles = false :=
  isFreeTile_false_sides_intro _ c1Tiles rfl
    _ (mem_of_getElem?_some c1Tiles 39 ⟨"tile-40", "bamboo-4", 11, 3, 0, false⟩ (by rfl)) rfl (by rfl) (by rfl) (by rfl) (by rfl) (by rfl)
    _ (mem_of_getElem?_some c1Tiles 41 ⟨"tile-42", "characters-1", 13, 3, 0, false⟩ (by rfl)) rfl (by rfl) (by rfl) (by rfl) (by rfl) (by rfl)

theorem c1_ft41 : isFreeTile ⟨"tile-42", "characters-1", 13, 3, 0, false⟩ c1Tiles = true :=
  isFreeTile_true_intro _ c1Tiles rfl (by rfl) (Or.inr (by rfl))

theorem c1_ft42 : isFreeTile ⟨"tile-43", "bamboo-5", 0, 4, 0, false⟩ c1Tiles = true :=
  isFreeTile_true_intro _ c1Tiles rfl (by rfl) (Or.inl (by rfl))

theorem c1_ft43 : isFreeTile ⟨"tile-44", "flower-orchid", 1, 4, 0, false⟩ c1Tiles = false :=
  isFreeTile_false_sides_intro _ c1Tiles rfl
    _ (mem_of_getElem?_some c1Tiles 42 ⟨"tile-43", "bamboo-5", 0, 4, 0, false⟩ (by rfl)) rfl (by rfl) (by rfl) (by rfl) (by rfl) (by rfl)
    _ (mem_of_getElem?_some c1Tiles 44 ⟨"tile-45", "dragon-white", 2, 4, 0, false⟩ (by rfl)) rfl (by rfl) (by rfl) (by rfl) (by rfl) (by rfl)

theorem c1_ft44 : isFreeTile ⟨"tile-45", "dragon-white", 2, 4, 0, false⟩ c1Tiles = false :=
  isFreeTile_false_top_intro _ c1Tiles rfl _
    (mem_of_getElem?_some c1Tiles 114 ⟨"tile-115", "characters-3", 2, 4, 1, false⟩ (by rfl)) rfl (by rfl) (by rfl) (by rfl) (by rfl)

theorem c1_ft45 : isFreeTile ⟨"tile-46", "wind-north", 3, 4, 0, false⟩ c1Tiles = false :=
  isFreeTile_false_top_intro _ c1Tiles rfl _
    (mem_of_getElem?_some c1Tiles 115 ⟨"tile-116", "circles-7", 3, 4, 1, false⟩ (by rfl)) rfl (by rfl) (by rfl) (by rfl) (by rfl)

theorem c1_ft46 : isFreeTile ⟨"tile-47", "wind-west", 4, 4, 0, false⟩ c1Tiles = false :=
  isFreeTile_false_top_intro _ c1Tiles rfl _
    (mem_of_getElem?_some c1Tiles 116 ⟨"tile-117", "circles-4", 4, 4, 1, false⟩ (by rfl)) rfl (by rfl) (by rfl) (by rfl) (by rfl)

theorem c1_ft47 : isFreeTile ⟨"tile-48", "characters-9", 5, 4, 0, false⟩ c1Tiles = false :=
  isFreeTile_false_top_intro _ c1Tiles rfl _
    (mem_of_getElem?_some c1Tiles 117 ⟨"tile-118", "circles-2", 5, 4, 1, false⟩ (by rfl)) rfl (by rfl) (by rfl) (by rfl) (by rfl)

theorem c1_ft48 : isFreeTile ⟨"tile-49", "characters-7", 6, 4, 0, false⟩ c1Tiles = false :=
  isFreeTile_false_top_intro _ c1Tiles rfl _
    (mem_of_getElem?_some c1Tiles 118 ⟨"tile-119", "dragon-green", 6, 4, 1, false⟩ (by rfl)) rfl (by rfl) (by rfl) (by rfl) (by rfl)

theorem c1_ft49 : isFreeTile ⟨"tile-50", "characters-4", 7, 4, 0, false⟩ c1Tiles = false :=
  isFreeTile_false_top_intro _ c1Tiles rfl _
    (mem_of_getElem?_some c1Tiles 119 ⟨"tile-120", "characters-5", 7, 4, 1, false⟩ (by rfl)) rfl (by rfl) (by rfl) (by rfl) (by rfl)

theorem c1_ft50 : isFreeTile ⟨"tile-51", "characters-2", 8, 4, 0, false⟩ c1Tiles = false :=
  isFreeTile_false_top_intro _ c1Tiles rfl _
    (mem_of_getElem?_some c1Tiles 120 ⟨"tile-121", "bamboo-2", 8, 4, 1, false⟩ (by rfl)) rfl (by rfl) (by rfl) (by rfl) (by rfl)

theorem c1_ft51 : isFreeTile ⟨"tile-52", "bamboo-9", 9, 4, 0, false⟩ c1Tiles = false :=
  isFreeTile_false_top_intro _ c1Tiles rfl _
    (mem_of_getElem?_some c1Tiles 121 ⟨"tile-122", "circles-8", 9, 4, 1, false⟩ (by rfl)) rfl (by rfl) (by rfl) (by rfl) (by rfl)

theorem c1_ft52 : isFreeTile ⟨"tile-53", "bamboo-6", 10, 4, 0, false⟩ c1Tiles = false :=
  isFreeTile_false_top_intro _ c1Tiles rfl _
    (mem_of_getElem?_some c1Tiles 122 ⟨"tile-123", "circles-5", 10, 4, 1, false⟩ (by rfl)) rfl (by rfl) (by rfl) (by rfl) (by rfl)

theorem c1_ft53 : isFreeTile ⟨"tile-54", "bamboo-4", 11, 4, 0, false⟩ c1Tiles = false :=
  isFreeTile_false_top_intro _ c1Tiles rfl _
    (mem_of_getElem?_some c1Tiles 123 ⟨"tile-124", "wind-south", 11, 4, 1, false⟩ (by rfl)) rfl (by rfl) (by rfl) (by rfl) (by rfl)

theorem c1_ft54 : isFreeTile ⟨"tile-55", "bamboo-1", 12, 4, 0, false⟩ c1Tiles = false :=
  isFreeTile_false_sides_intro _ c1Tiles rfl
    _ (mem_of_getElem?_some c1Tiles 53 ⟨"tile-54", "bamboo-4", 11, 4, 0, false⟩ (by rfl)) rfl (by rfl) (by rfl) (by rfl) (by rfl) (by rfl)
    _ (mem_of_getElem?_some c1Tiles 55 ⟨"tile-56", "circles-6", 13, 4, 0, false⟩ (by rfl)) rfl (by rfl) (by rfl) (by rfl) (by rfl) (by rfl)

theorem c1_ft55 : isFreeTile ⟨"tile-56", "circles-6", 13, 4, 0, false⟩ c1Tiles = true :=
  isFreeTile_true_intro _ c1Tiles rfl (by rfl) (Or.inr (by rfl))

theorem c1_ft56 : isFreeTile ⟨"tile-57", "wind-west", 0, 5, 0, false⟩ c1Tiles = true :=
  isFreeTile_true_intro _ c1Tiles rfl (by rfl) (Or.inl (by rfl))

theorem c1_ft57 : isFreeTile ⟨"tile-58", "flower-chrysanthemum", 1, 5, 0, false⟩ c1Tiles = false :=
  isFreeTile_false_sides_intro _ c1Tiles rfl
    _ (mem_of_getElem?_some c1Tiles 56 ⟨"tile-57", "wind-west", 0, 5, 0, false⟩ (by rfl)) rfl (by rfl) (by rfl) (by rfl) (by rfl) (by rfl)
    _ (mem_of_getElem?_some c1Tiles 58 ⟨"tile-59", "dragon-white", 2, 5, 0, false⟩ (by rfl)) rfl (by rfl) (by rfl) (by rfl) (by rfl) (by rfl)

theorem c1_ft58 : isFreeTile ⟨"tile-59", "dragon-white", 2, 5, 0, false⟩ c1Tiles = false :=
  isFreeTile_false_top_intro _ c1Tiles rfl _
    (mem_of_getElem?_some c1Tiles 124 ⟨"tile-125", "bamboo-1", 2, 5, 1, false⟩ (by rfl)) rfl (by rfl) (by rfl) (by rfl) (by rfl)

theorem c1_ft59 : isFreeTile ⟨"tile-60", "dragon-red", 3, 5, 0, false⟩ c1Tiles = false :=
  isFreeTile_false_top_intro _ c1Tiles rfl _
    (mem_of_getElem?_some c1Tiles 125 ⟨"tile-126", "circles-7", 3, 5, 1, false⟩ (by rfl)) rfl (by rfl) (by rfl) (by rfl) (by rfl)

theorem c1_ft60 : isFreeTile ⟨"tile-61", "wind-south", 4, 5, 0, false⟩ c1Tiles = false :=
  isFreeTile_false_top_intro _ c1Tiles rfl _
    (mem_of_getElem?_some c1Tiles 126 ⟨"tile-127", "circles-6", 4, 5, 1, false⟩ (by rfl)) rfl (by rfl) (by rfl) (by rfl) (by rfl)

theorem c1_ft61 : isFreeTile ⟨"tile-62", "wind-east", 5, 5, 0, false⟩ c1Tiles = false :=
  isFreeTile_false_top_intro _ c1Tiles rfl _
    (mem_of_getElem?_some c1Tiles 127 ⟨"tile-128", "circles-2", 5, 5, 1, false⟩ (by rfl)) rfl (by rfl) (by rfl) (by rfl) (by rfl)

theorem c1_ft62 : isFreeTile ⟨"tile-63", "characters-8", 6, 5, 0, false⟩ c1Tiles = false :=
  isFreeTile_false_top_intro _ c1Tiles rfl _
    (mem_of_getElem?_some c1Tiles 128 ⟨"tile-129", "circles-1", 6, 5, 1, false⟩ (by rfl)) rfl (by rfl) (by rfl) (by rfl) (by rfl)

theorem c1_ft63 : isFreeTile ⟨"tile-64", "characters-6", 7, 5, 0, false⟩ c1Tiles = false :=
  isFreeTile_false_top_intro _ c1Tiles rfl _
    (mem_of_getElem?_some c1Tiles 129 ⟨"tile-130", "characters-5", 7, 5, 1, false⟩ (by rfl)) rfl (by rfl) (by rfl) (by rfl) (by rfl)

theorem c1_ft64 : isFreeTile ⟨"tile-65", "characters-3", 8, 5, 0, false⟩ c1Tiles = false :=
  isFreeTile_false_top_intro _ c1Tiles rfl _
    (mem_of_getElem?_some c1Tiles 130 ⟨"tile-131", "bamboo-8", 8, 5, 1, false⟩ (by rfl)) rfl (by rfl) (by rfl) (by rfl) (by rfl)

theorem c1_ft65 : isFreeTile ⟨"tile-66", "characters-1", 9, 5, 0, false⟩ c1Tiles = false :=
  isFreeTile_false_top_intro _ c1Tiles rfl _
    (mem_of_getElem?_some c1Tiles 131 ⟨"tile-132", "circles-8", 9, 5, 1, false⟩ (by rfl)) rfl (by rfl) (by rfl) (by rfl) (by rfl)

theorem c1_ft66 : isFreeTile ⟨"tile-67", "bamboo-6", 10, 5, 0, false⟩ c1Tiles = false :=
  isFreeTile_false_top_intro _ c1Tiles rfl _
    (mem_of_getElem?_some c1Tiles 132 ⟨"tile-133", "circles-5", 10, 5, 1, false⟩ (by rfl)) rfl (by rfl) (by rfl) (by rfl) (by rfl)

theorem c1_ft67 : isFreeTile ⟨"tile-68", "bamboo-5", 11, 5, 0, false⟩ c1Tiles = false :=
  isFreeTile_false_top_intro _ c1Tiles rfl _
    (mem_of_getElem?_some c1Tiles 133 ⟨"tile-134", "characters-4", 11, 5, 1, false⟩ (by rfl)) rfl (by rfl) (by rfl) (by rfl) (by rfl)

theorem c1_ft68 : isFreeTile ⟨"tile-69", "bamboo-3", 12, 5, 0, false⟩ c1Tiles = false :=
  isFreeTile_false_sides_intro _ c1Tiles rfl
    _ (mem_of_getElem?_some c1Tiles 67 ⟨"tile-68", "bamboo-5", 11, 5, 0, false⟩ (by rfl)) rfl (by rfl) (by rfl) (by rfl) (by rfl) (by rfl)
    _ (mem_of_getElem?_some c1Tiles 69 ⟨"tile-70", "circles-4", 13, 5, 0, false⟩ (by rfl)) rfl (by rfl) (by rfl) (by rfl) (by rfl) (by rfl)

theorem c1_ft69 : isFreeTile ⟨"tile-70", "circles-4", 13, 5, 0, false⟩ c1Tiles = true :=
  isFreeTile_true_intro _ c1Tiles rfl (by rfl) (Or.inr (by rfl))

theorem c1_ft70 : isFreeTile ⟨"tile-71", "characters-8", 1, 6, 0, false⟩ c1Tiles = true :=
  isFreeTile_true_intro _ c1Tiles rfl (by rfl) (Or.inl (by rfl))

theorem c1_ft71 : isFreeTile ⟨"tile-72", "flower-bamboo", 2, 6, 0, false⟩ c1Tiles = false :=
  isFreeTile_false_top_intro _ c1Tiles rfl _
    (mem_of_getElem?_some c1Tiles 134 ⟨"tile-135", "circles-3", 2, 6, 1, false⟩ (by rfl)) rfl (by rfl) (by rfl) (by rfl) (by rfl)

theorem c1_ft72 : isFreeTile ⟨"tile-73", "season-summer", 3, 6, 0, false⟩ c1Tiles = false :=
  isFreeTile_false_top_intro _ c1Tiles rfl _
    (mem_of_getElem?_some c1Tiles 135 ⟨"tile-136", "bamboo-5", 3, 6, 1, false⟩ (by rfl)) rfl (by rfl) (by rfl) (by rfl) (by rfl)

theorem c1_ft73 : isFreeTile ⟨"tile-74", "dragon-red", 4, 6, 0, false⟩ c1Tiles = false :=
  isFreeTile_false_top_intro _ c1Tiles rfl _
    (mem_of_getElem?_some c1Tiles 136 ⟨"tile-137", "bamboo-3", 4, 6, 1, false⟩ (by rfl)) rfl (by rfl) (by rfl) (by rfl) (by rfl)

theorem c1_ft74 : isFreeTile ⟨"tile-75", "wind-west", 5, 6, 0, false⟩ c1Tiles = false :=
  isFreeTile_false_top_intro _ c1Tiles rfl _
    (mem_of_getElem?_some c1Tiles 137 ⟨"tile-138", "circles-9", 5, 6, 1, false⟩ (by rfl)) rfl (by rfl) (by rfl) (by rfl) (by rfl)

theorem c1_ft75 : isFreeTile ⟨"tile-76", "wind-east", 6, 6, 0, false⟩ c1Tiles = false :=
  isFreeTile_false_top_intro _ c1Tiles rfl _
    (mem_of_getElem?_some c1Tiles 138 ⟨"tile-139", "circles-6", 6, 6, 1, false⟩ (by rfl)) rfl (by rfl) (by rfl) (by rfl) (by rfl)

theorem c1_ft76 : isFreeTile ⟨"tile-77", "characters-9", 7, 6, 0, false⟩ c1Tiles = false :=
  isFreeTile_false_top_intro _ c1Tiles rfl _
    (mem_of_getElem?_some c1Tiles 139 ⟨"tile-140", "circles-4", 7, 6, 1, false⟩ (by rfl)) rfl (by rfl) (by rfl) (by rfl) (by rfl)

theorem c1_ft77 : isFreeTile ⟨"tile-78", "characters-6", 8, 6, 0, false⟩ c1Tiles = false :=
  isFreeTile_false_top_intro _ c1Tiles rfl _
    (mem_of_getElem?_some c1Tiles 140 ⟨"tile-141", "circles-1", 8, 6, 1, false⟩ (by rfl)) rfl (by rfl) (by rfl) (by rfl) (by rfl)

theorem c1_ft78 : isFreeTile ⟨"tile-79", "characters-3", 9, 6, 0, false⟩ c1Tiles = false :=
  isFreeTile_false_top_intro _ c1Tiles rfl _
    (mem_of_getElem?_some c1Tiles 141 ⟨"tile-142", "characters-5", 9, 6, 1, false⟩ (by rfl)) rfl (by rfl) (by rfl) (by rfl) (by rfl)

theorem c1_ft79 : isFreeTile ⟨"tile-80", "characters-1", 10, 6, 0, false⟩ c1Tiles = false :=
  isFreeTile_false_top_intro _ c1Tiles rfl _
    (mem_of_getElem?_some c1Tiles 142 ⟨"tile-143", "bamboo-8", 10, 6, 1, false⟩ (by rfl)) rfl (by rfl) (by rfl) (by rfl) (by rfl)

theorem c1_ft80 : isFreeTile ⟨"tile-81", "bamboo-7", 11, 6, 0, false⟩ c1Tiles = false :=
  isFreeTile_false_top_intro _ c1Tiles rfl _
    (mem_of_getElem?_some c1Tiles 143 ⟨"tile-144", "bamboo-4", 11, 6, 1, false⟩ (by rfl)) rfl (by rfl) (by rfl) (by rfl) (by rfl)

theorem c1_ft81 : isFreeTile ⟨"tile-82", "wind-north", 12, 6, 0, false⟩ c1Tiles = true :=
  isFreeTile_true_intro _ c1Tiles rfl (by rfl) (Or.inr (by rfl))

theorem c1_ft82 : isFreeTile ⟨"tile-83", "bamboo-9", 3, 7, 0, false⟩ c1Tiles = true :=
  isFreeTile_true_intro _ c1Tiles rfl (by rfl) (Or.inl (by rfl))

theorem c1_ft83 : isFreeTile ⟨"tile-84", "characters-7", 4, 7, 0, false⟩ c1Tiles = true :=
  isFreeTile_true_intro _ c1Tiles rfl (by rfl) (Or.inr (by rfl))

theorem c1_ft84 : isFreeTile ⟨"tile-85", "dragon-red", 2, 1, 1, false⟩ c1Tiles = true :=
  isFreeTile_true_intro _ c1Tiles rfl (by rfl) (Or.inl (by rfl))

theorem c1_ft85 : isFreeTile ⟨"tile-86", "bamboo-3", 3, 1, 1, false⟩ c1Tiles = false :=
  isFreeTile_false_sides_intro _ c1Tiles rfl
    _ (mem_of_getElem?_some c1Tiles 84 ⟨"tile-85", "dragon-red", 2, 1, 1, false⟩ (by rfl)) rfl (by rfl) (by rfl) (by rfl) (by rfl) (by rfl)
    _ (mem_of_getElem?_some c1Tiles 86 ⟨"tile-87", "circles-9", 4, 1, 1, false⟩ (by rfl)) rfl (by rfl) (by rfl) (by rfl) (by rfl) (by rfl)

theorem c1_ft86 : isFreeTile ⟨"tile-87", "circles-9", 4, 1, 1, false⟩ c1Tiles = false :=
  isFreeTile_false_sides_intro _ c1Tiles rfl
    _ (mem_of_getElem?_some c1Tiles 85 ⟨"tile-86", "bamboo-3", 3, 1, 1, false⟩ (by rfl)) rfl (by rfl) (by rfl) (by rfl) (by rfl) (by rfl)
    _ (mem_of_getElem?_some c1Tiles 87 ⟨"tile-88", "circles-6", 5, 1, 1, false⟩ (by rfl)) rfl (by rfl) (by rfl) (by rfl) (by rfl) (by rfl)

theorem c1_ft87 : isFreeTile ⟨"tile-88", "circles-6", 5, 1, 1, false⟩ c1Tiles = false :=
  isFreeTile_false_sides_intro _ c1Tiles rfl
    _ (mem_of_getElem?_some c1Tiles 86 ⟨"tile-87", "circles-9", 4, 1, 1, false⟩ (by rfl)) rfl (by rfl) (by rfl) (by rfl) (by rfl) (by rfl)
    _ (mem_of_getElem?_some c1Tiles 88 ⟨"tile-89", "circles-3", 6, 1, 1, false⟩ (by rfl)) rfl (by rfl) (by rfl) (by rfl) (by rfl) (by rfl)

theorem c1_ft88 : isFreeTile ⟨"tile-89", "circles-3", 6, 1, 1, false⟩ c1Tiles = false :=
  isFreeTile_false_sides_intro _ c1Tiles rfl
    _ (mem_of_getElem?_some c1Tiles 87 ⟨"tile-88", "circles-6", 5, 1, 1, false⟩ (by rfl)) rfl (by rfl) (by rfl) (by rfl) (by rfl) (by rfl)
    _ (mem_of_getElem?_some c1Tiles 89 ⟨"tile-90", "circles-1", 7, 1, 1, false⟩ (by rfl)) rfl (by rfl) (by rfl) (by rfl) (by rfl) (by rfl)

theorem c1_ft89 : isFreeTile ⟨"tile-90", "circles-1", 7, 1, 1, false⟩ c1Tiles = false :=
  isFreeTile_false_sides_intro _ c1Tiles rfl
    _ (mem_of_getElem?_some c1Tiles 88 ⟨"tile-89", "circles-3", 6, 1, 1, false⟩ (by rfl)) rfl (by rfl) (by rfl) (by rfl) (by rfl) (by rfl)
    _ (mem_of_getElem?_some c1Tiles 90 ⟨"tile-91", "dragon-green", 8, 1, 1, false⟩ (by rfl)) rfl (by rfl) (by rfl) (by rfl) (by rfl) (by rfl)

theorem c1_ft90 : isFreeTile ⟨"tile-91", "dragon-green", 8, 1, 1, false⟩ c1Tiles = false :=
  isFreeTile_false_sides_intro _ c1Tiles rfl
    _ (mem_of_getElem?_some c1Tiles 89 ⟨"tile-90", "circles-1", 7, 1, 1, false⟩ (by rfl)) rfl (by rfl) (by rfl) (by rfl) (by rfl) (by rfl)
    _ (mem_of_getElem?_some c1Tiles 91 ⟨"tile-92", "bamboo-8", 9, 1, 1, false⟩ (by rfl)) rfl (by rfl) (by rfl) (by rfl) (by rfl) (by rfl)

theorem c1_ft91 : isFreeTile ⟨"tile-92", "bamboo-8", 9, 1, 1, false⟩ c1Tiles = false :=
  isFreeTile_false_sides_intro _ c1Tiles rfl
    _ (mem_of_getElem?_some c1Tiles 90 ⟨"tile-91", "dragon-green", 8, 1, 1, false⟩ (by rfl)) rfl (by rfl) (by rfl) (by rfl) (by rfl) (by rfl)
    _ (mem_of_getElem?_some c1Tiles 92 ⟨"tile-93", "bamboo-2", 10, 1, 1, false⟩ (by rfl)) rfl (by rfl) (by rfl) (by rfl) (by rfl) (by rfl)

theorem c1_ft92 : isFreeTile ⟨"tile-93", "bamboo-2", 10, 1, 1, false⟩ c1Tiles = false :=
  isFreeTile_false_sides_intro _ c1Tiles rfl
    _ (mem_of_getElem?_some c1Tiles 91 ⟨"tile-92", "bamboo-8", 9, 1, 1, false⟩ (by rfl)) rfl (by rfl) (by rfl) (by rfl) (by rfl) (by rfl)
    _ (mem_of_getElem?_some c1Tiles 93 ⟨"tile-94", "dragon-white", 11, 1, 1, false⟩ (by rfl)) rfl (by rfl) (by rfl) (by rfl) (by rfl) (by rfl)

theorem c1_ft93 : isFreeTile ⟨"tile-94", "dragon-white", 11, 1, 1, false⟩ c1Tiles = true :=
  isFreeTile_true_intro _ c1Tiles rfl (by rfl) (Or.inr (by rfl))

theorem c1_ft94 : isFreeTile ⟨"tile-95", "characters-6", 2, 2, 1, false⟩ c1Tiles = true :=
  isFreeTile_true_intro _ c1Tiles rfl (by rfl) (Or.inl (by rfl))

theorem c1_ft95 : isFreeTile ⟨"tile-96", "circles-9", 3, 2, 1, false⟩ c1Tiles = false :=
  isFreeTile_false_sides_intro _ c1Tiles rfl
    _ (mem_of_getElem?_some c1Tiles 94 ⟨"tile-95", "characters-6", 2, 2, 1, false⟩ (by rfl)) rfl (by rfl) (by rfl) (by rfl) (by rfl) (by rfl)
    _ (mem_of_getElem?_some c1Tiles 96 ⟨"tile-97", "circles-3", 4, 2, 1, false⟩ (by rfl)) rfl (by rfl) (by rfl) (by rfl) (by rfl) (by rfl)

theorem c1_ft96 : isFreeTile ⟨"tile-97", "circles-3", 4, 2, 1, false⟩ c1Tiles = false :=
  isFreeTile_false_sides_intro _ c1Tiles rfl
    _ (mem_of_getElem?_some c1Tiles 95 ⟨"tile-96", "circles-9", 3, 2, 1, false⟩ (by rfl)) rfl (by rfl) (by rfl) (by rfl) (by rfl) (by rfl)
    _ (mem_of_getElem?_some c1Tiles 97 ⟨"tile-98", "circles-2", 5, 2, 1, false⟩ (by rfl)) rfl (by rfl) (by rfl) (by rfl) (by rfl) (by rfl)

theorem c1_ft97 : isFreeTile ⟨"tile-98", "circles-2", 5, 2, 1, false⟩ c1Tiles = false :=
  isFreeTile_false_sides_intro _ c1Tiles rfl
    _ (mem_of_getElem?_some c1Tiles 96 ⟨"tile-97", "circles-3", 4, 2, 1, false⟩ (by rfl)) rfl (by rfl) (by rfl) (by rfl) (by rfl) (by rfl)
    _ (mem_of_getElem?_some c1Tiles 98 ⟨"tile-99", "dragon-green", 6, 2, 1, false⟩ (by rfl)) rfl (by rfl) (by rfl) (by rfl) (by rfl) (by rfl)

theorem c1_ft98 : isFreeTile ⟨"tile-99", "dragon-green", 6, 2, 1, false⟩ c1Tiles = false :=
  isFreeTile_false_sides_intro _ c1Tiles rfl
    _ (mem_of_getElem?_some c1Tiles 97 ⟨"tile-98", "circles-2", 5, 2, 1, false⟩ (by rfl)) rfl (by rfl) (by rfl) (by rfl) (by rfl) (by rfl)
    _ (mem_of_getElem?_some c1Tiles 99 ⟨"tile-100", "bamboo-8", 7, 2, 1, false⟩ (by rfl)) rfl (by rfl) (by rfl) (by rfl) (by rfl) (by rfl)

theorem c1_ft99 : isFreeTile ⟨"tile-100", "bamboo-8", 7, 2, 1, false⟩ c1Tiles = false :=
  isFreeTile_false_sides_intro _ c1Tiles rfl
    _ (mem_of_getElem?_some c1Tiles 98 ⟨"tile-99", "dragon-green", 6, 2, 1, false⟩ (by rfl)) rfl (by rfl) (by rfl) (by rfl) (by rfl) (by rfl)
    _ (mem_of_getElem?_some c1Tiles 100 ⟨"tile-101", "bamboo-2", 8, 2, 1, false⟩ (by rfl)) rfl (by rfl) (by rfl) (by rfl) (by rfl) (by rfl)

theorem c1_ft100 : isFreeTile ⟨"tile-101", "bamboo-2", 8, 2, 1, false⟩ c1Tiles = false :=
  isFreeTile_false_sides_intro _ c1Tiles rfl
    _ (mem_of_getElem?_some c1Tiles 99 ⟨"tile-100", "bamboo-8", 7, 2, 1, false⟩ (by rfl)) rfl (by rfl) (by rfl) (by rfl) (by rfl) (by rfl)
    _ (mem_of_getElem?_some c1Tiles 101 ⟨"tile-102", "circles-8", 9, 2, 1, false⟩ (by rfl)) rfl (by rfl) (by rfl) (by rfl) (by rfl) (by rfl)

theorem c1_ft101 : isFreeTile ⟨"tile-102", "circles-8", 9, 2, 1, false⟩ c1Tiles = false :=
  isFreeTile_false_sides_intro _ c1Tiles rfl
    _ (mem_of_getElem?_some c1Tiles 100 ⟨"tile-101", "bamboo-2", 8, 2, 1, false⟩ (by rfl)) rfl (by rfl) (by rfl) (by rfl) (by rfl) (by rfl)
    _ (mem_of_getElem?_some c1Tiles 102 ⟨"tile-103", "circles-5", 10, 2, 1, false⟩ (by rfl)) rfl (by rfl) (by rfl) (by rfl) (by rfl) (by rfl)

theorem c1_ft102 : isFreeTile ⟨"tile-103", "circles-5", 10, 2, 1, false⟩ c1Tiles = false :=
  isFreeTile_false_sides_intro _ c1Tiles rfl
    _ (mem_of_getElem?_some c1Tiles 101 ⟨"tile-102", "circles-8", 9, 2, 1, false⟩ (by rfl)) rfl (by rfl) (by rfl) (by rfl) (by rfl) (by rfl)
    _ (mem_of_getElem?_some c1Tiles 103 ⟨"tile-104", "bamboo-7", 11, 2, 1, false⟩ (by rfl)) rfl (by rfl) (by rfl) (by rfl) (by rfl) (by rfl)

theorem c1_ft103 : isFreeTile ⟨"tile-104", "bamboo-7", 11, 2, 1, false⟩ c1Tiles = true :=
  isFreeTile_true_intro _ c1Tiles rfl (by rfl) (Or.inr (by rfl))

theorem c1_ft104 : isFreeTile ⟨"tile-105", "bamboo-6", 2, 3, 1, false⟩ c1Tiles = true :=
  isFreeTile_true_intro _ c1Tiles rfl (by rfl) (Or.inl (by rfl))

theorem c1_ft105 : isFreeTile ⟨"tile-106", "circles-7", 3, 3, 1, false⟩ c1Tiles = false :=
  isFreeTile_false_sides_intro _ c1Tiles rfl
    _ (mem_of_getElem?_some c1Tiles 104 ⟨"tile-105", "bamboo-6", 2, 3, 1, false⟩ (by rfl)) rfl (by rfl) (by rfl) (by rfl) (by rfl) (by rfl)
    _ (mem_of_getElem?_some c1Tiles 106 ⟨"tile-107", "circles-4", 4, 3, 1, false⟩ (by rfl)) rfl (by rfl) (by rfl) (by rfl) (by rfl) (by rfl)

theorem c1_ft106 : isFreeTile ⟨"tile-107", "circles-4", 4, 3, 1, false⟩ c1Tiles = false :=
  isFreeTile_false_sides_intro _ c1Tiles rfl
    _ (mem_of_getElem?_some c1Tiles 105 ⟨"tile-106", "circles-7", 3, 3, 1, false⟩ (by rfl)) rfl (by rfl) (by rfl) (by rfl) (by rfl) (by rfl)
    _ (mem_of_getElem?_some c1Tiles 107 ⟨"tile-108", "circles-3", 5, 3, 1, false⟩ (by rfl)) rfl (by rfl) (by rfl) (by rfl) (by rfl) (by rfl)

theorem c1_ft107 : isFreeTile ⟨"tile-108", "circles-3", 5, 3, 1, false⟩ c1Tiles = false :=
  isFreeTile_false_sides_intro _ c1Tiles rfl
    _ (mem_of_getElem?_some c1Tiles 106 ⟨"tile-107", "circles-4", 4, 3, 1, false⟩ (by rfl)) rfl (by rfl) (by rfl) (by rfl) (by rfl) (by rfl)
    _ (mem_of_getElem?_some c1Tiles 108 ⟨"tile-109", "dragon-green", 6, 3, 1, false⟩ (by rfl)) rfl (by rfl) (by rfl) (by rfl) (by rfl) (by rfl)

theorem c1_ft108 : isFreeTile ⟨"tile-109", "dragon-green", 6, 3, 1, false⟩ c1Tiles = false :=
  isFreeTile_false_sides_intro _ c1Tiles rfl
    _ (mem_of_getElem?_some c1Tiles 107 ⟨"tile-108", "circles-3", 5, 3, 1, false⟩ (by rfl)) rfl (by rfl) (by rfl) (by rfl) (by rfl) (by rfl)
    _ (mem_of_getElem?_some c1Tiles 109 ⟨"tile-110", "characters-5", 7, 3, 1, false⟩ (by rfl)) rfl (by rfl) (by rfl) (by rfl) (by rfl) (by rfl)

theorem c1_ft109 : isFreeTile ⟨"tile-110", "characters-5", 7, 3, 1, false⟩ c1Tiles = false :=
  isFreeTile_false_sides_intro _ c1Tiles rfl
    _ (mem_of_getElem?_some c1Tiles 108 ⟨"tile-109", "dragon-green", 6, 3, 1, false⟩ (by rfl)) rfl (by rfl) (by rfl) (by rfl) (by rfl) (by rfl)
    _ (mem_of_getElem?_some c1Tiles 110 ⟨"tile-111", "bamboo-2", 8, 3, 1, false⟩ (by rfl)) rfl (by rfl) (by rfl) (by rfl) (by rfl) (by rfl)

theorem c1_ft110 : isFreeTile ⟨"tile-111", "bamboo-2", 8, 3, 1, false⟩ c1Tiles = false :=
  isFreeTile_false_sides_intro _ c1Tiles rfl
    _ (mem_of_getElem?_some c1Tiles 109 ⟨"tile-110", "characters-5", 7, 3, 1, false⟩ (by rfl)) rfl (by rfl) (by rfl) (by rfl) (by rfl) (by rfl)
    _ (mem_of_getElem?_some c1Tiles 111 ⟨"tile-112", "circles-8", 9, 3, 1, false⟩ (by rfl)) rfl (by rfl) (by rfl) (by rfl) (by rfl) (by rfl)

theorem c1_ft111 : isFreeTile ⟨"tile-112", "circles-8", 9, 3, 1, false⟩ c1Tiles = false :=
  isFreeTile_false_sides_intro _ c1Tiles rfl
    _ (mem_of_getElem?_some c1Tiles 110 ⟨"tile-111", "bamboo-2", 8, 3, 1, false⟩ (by rfl)) rfl (by rfl) (by rfl) (by rfl) (by rfl) (by rfl)
    _ (mem_of_getElem?_some c1Tiles 112 ⟨"tile-113", "circles-5", 10, 3, 1, false⟩ (by rfl)) rfl (by rfl) (by rfl) (by rfl) (by rfl) (by rfl)

theorem c1_ft112 : isFreeTile ⟨"tile-113", "circles-5", 10, 3, 1, false⟩ c1Tiles = false :=
  isFreeTile_false_sides_intro _ c1Tiles rfl
    _ (mem_of_getElem?_some c1Tiles 111 ⟨"tile-112", "circles-8", 9, 3, 1, false⟩ (by rfl)) rfl (by rfl) (by rfl) (by rfl) (by rfl) (by rfl)
    _ (mem_of_getElem?_some c1Tiles 113 ⟨"tile-114", "circles-2", 11, 3, 1, false⟩ (by rfl)) rfl (by rfl) (by rfl) (by rfl) (by rfl) (by rfl)

theorem c1_ft113 : isFreeTile ⟨"tile-114", "circles-2", 11, 3, 1, false⟩ c1Tiles = true :=
  isFreeTile_true_intro _ c1Tiles rfl (by rfl) (Or.inr (by rfl))

theorem c1_ft114 : isFreeTile ⟨"tile-115", "characters-3", 2, 4, 1, false⟩ c1Tiles = true :=
  isFreeTile_true_intro _ c1Tiles rfl (by rfl) (Or.inl (by rfl))

theorem c1_ft115 : isFreeTile ⟨"tile-116", "circles-7", 3, 4, 1, false⟩ c1Tiles = false :=
  isFreeTile_false_sides_intro _ c1Tiles rfl
    _ (mem_of_getElem?_some c1Tiles 114 ⟨"tile-115", "characters-3", 2, 4, 1, false⟩ (by rfl)) rfl (by rfl) (by rfl) (by rfl) (by rfl) (by rfl)
    _ (mem_of_getElem?_some c1Tiles 116 ⟨"tile-117", "circles-4", 4, 4, 1, false⟩ (by rfl)) rfl (by rfl) (by rfl) (by rfl) (by rfl) (by rfl)

theorem c1_ft116 : isFreeTile ⟨"tile-117", "circles-4", 4, 4, 1, false⟩ c1Tiles = false :=
  isFreeTile_false_sides_intro _ c1Tiles rfl
    _ (mem_of_getElem?_some c1Tiles 115 ⟨"tile-116", "circles-7", 3, 4, 1, false⟩ (by rfl)) rfl (by rfl) (by rfl) (by rfl) (by rfl) (by rfl)
    _ (mem_of_getElem?_some c1Tiles 117 ⟨"tile-118", "circles-2", 5, 4, 1, false⟩ (by rfl)) rfl (by rfl) (by rfl) (by rfl) (by rfl) (by rfl)

theorem c1_ft117 : isFreeTile ⟨"tile-118", "circles-2", 5, 4, 1, false⟩ c1Tiles = false :=
  isFreeTile_false_sides_intro _ c1Tiles rfl
    _ (mem_of_getElem?_some c1Tiles 116 ⟨"tile-117", "circles-4", 4, 4, 1, false⟩ (by rfl)) rfl (by rfl) (by rfl) (by rfl) (by rfl) (by rfl)
    _ (mem_of_getElem?_some c1Tiles 118 ⟨"tile-119", "dragon-green", 6, 4, 1, false⟩ (by rfl)) rfl (by rfl) (by rfl) (by rfl) (by rfl) (by rfl)

theorem c1_ft118 : isFreeTile ⟨"tile-119", "dragon-green", 6, 4, 1, false⟩ c1Tiles = false :=
  isFreeTile_false_sides_intro _ c1Tiles rfl
    _ (mem_of_getElem?_some c1Tiles 117 ⟨"tile-118", "circles-2", 5, 4, 1, false⟩ (by rfl)) rfl (by rfl) (by rfl) (by rfl) (by rfl) (by rfl)
    _ (mem_of_getElem?_some c1Tiles 119 ⟨"tile-120", "characters-5", 7, 4, 1, false⟩ (by rfl)) rfl (by rfl) (by rfl) (by rfl) (by rfl) (by rfl)

theorem c1_ft119 : isFreeTile ⟨"tile-120", "characters-5", 7, 4, 1, false⟩ c1Tiles = false :=
  isFreeTile_false_sides_intro _ c1Tiles rfl
    _ (mem_of_getElem?_some c1Tiles 118 ⟨"tile-119", "dragon-green", 6, 4, 1, false⟩ (by rfl)) rfl (by rfl) (by rfl) (by rfl) (by rfl) (by rfl)
    _ (mem_of_getElem?_some c1Tiles 120 ⟨"tile-121", "bamboo-2", 8, 4, 1, false⟩ (by rfl)) rfl (by rfl) (by rfl) (by rfl) (by rfl) (by rfl)

theorem c1_ft120 : isFreeTile ⟨"tile-121", "bamboo-2", 8, 4, 1, false⟩ c1Tiles = false :=
  isFreeTile_false_sides_intro _ c1Tiles rfl
    _ (mem_of_getElem?_some c1Tiles 119 ⟨"tile-120", "characters-5", 7, 4, 1, false⟩ (by rfl)) rfl (by rfl) (by rfl) (by rfl) (by rfl) (by rfl)
    _ (mem_of_getElem?_some c1Tiles 121 ⟨"tile-122", "circles-8", 9, 4, 1, false⟩ (by rfl)) rfl (by rfl) (by rfl) (by rfl) (by rfl) (by rfl)

theorem c1_ft121 : isFreeTile ⟨"tile-122", "circles-8", 9, 4, 1, false⟩ c1Tiles = false :=
  isFreeTile_false_sides_intro _ c1Tiles rfl
    _ (mem_of_getElem?_some c1Tiles 120 ⟨"tile-121", "bamboo-2", 8, 4, 1, false⟩ (by rfl)) rfl (by rfl) (by rfl) (by rfl) (by rfl) (by rfl)
    _ (mem_of_getElem?_some c1Tiles 122 ⟨"tile-123", "circles-5", 10, 4, 1, false⟩ (by rfl)) rfl (by rfl) (by rfl) (by rfl) (by rfl) (by rfl)

theorem c1_ft122 : isFreeTile ⟨"tile-123", "circles-5", 10, 4, 1, false⟩ c1Tiles = false :=
  isFreeTile_false_sides_intro _ c1Tiles rfl
    _ (mem_of_getElem?_some c1Tiles 121 ⟨"tile-122", "circles-8", 9, 4, 1, false⟩ (by rfl)) rfl (by rfl) (by rfl) (by rfl) (by rfl) (by rfl)
    _ (mem_of_getElem?_some c1Tiles 123 ⟨"tile-124", "wind-south", 11, 4, 1, false⟩ (by rfl)) rfl (by rfl) (by rfl) (by rfl) (by rfl) (by rfl)

theorem c1_ft123 : isFreeTile ⟨"tile-124", "wind-south", 11, 4, 1, false⟩ c1Tiles = true :=
  isFreeTile_true_intro _ c1Tiles rfl (by rfl) (Or.inr (by rfl))

theorem c1_ft124 : isFreeTile ⟨"tile-125", "bamboo-1", 2, 5, 1, false⟩ c1Tiles = true :=
  isFreeTile_true_intro _ c1Tiles rfl (by rfl) (Or.inl (by rfl))

theorem c1_ft125 : isFreeTile ⟨"tile-126", "circles-7", 3, 5, 1, false⟩ c1Tiles = false :=
  isFreeTile_false_sides_intro _ c1Tiles rfl
    _ (mem_of_getElem?_some c1Tiles 124 ⟨"tile-125", "bamboo-1", 2, 5, 1, false⟩ (by rfl)) rfl (by rfl) (by rfl) (by rfl) (by rfl) (by rfl)
    _ (mem_of_getElem?_some c1Tiles 126 ⟨"tile-127", "circles-6", 4, 5, 1, false⟩ (by rfl)) rfl (by rfl) (by rfl) (by rfl) (by rfl) (by rfl)

theorem c1_ft126 : isFreeTile ⟨"tile-127", "circles-6", 4, 5, 1, false⟩ c1Tiles = false :=
  isFreeTile_false_sides_intro _ c1Tiles rfl
    _ (mem_of_getElem?_some c1Tiles 125 ⟨"tile-126", "circles-7", 3, 5, 1, false⟩ (by rfl)) rfl (by rfl) (by rfl) (by rfl) (by rfl) (by rfl)
    _ (mem_of_getElem?_some c1Tiles 127 ⟨"tile-128", "circles-2", 5, 5, 1, false⟩ (by rfl)) rfl (by rfl) (by rfl) (by rfl) (by rfl) (by rfl)

theorem c1_ft127 : isFreeTile ⟨"tile-128", "circles-2", 5, 5, 1, false⟩ c1Tiles = false :=
  isFreeTile_false_sides_intro _ c1Tiles rfl
    _ (mem_of_getElem?_some c1Tiles 126 ⟨"tile-127", "circles-6", 4, 5, 1, false⟩ (by rfl)) rfl (by rfl) (by rfl) (by rfl) (by rfl) (by rfl)
    _ (mem_of_getElem?_some c1Tiles 128 ⟨"tile-129", "circles-1", 6, 5, 1, false⟩ (by rfl)) rfl (by rfl) (by rfl) (by rfl) (by rfl) (by rfl)

theorem c1_ft128 : isFreeTile ⟨"tile-129", "circles-1", 6, 5, 1, false⟩ c1Tiles = false :=
  isFreeTile_false_sides_intro _ c1Tiles rfl
    _ (mem_of_getElem?_some c1Tiles 127 ⟨"tile-128", "circles-2", 5, 5, 1, false⟩ (by rfl)) rfl (by rfl) (by rfl) (by rfl) (by rfl) (by rfl)
    _ (mem_of_getElem?_some c1Tiles 129 ⟨"tile-130", "characters-5", 7, 5, 1, false⟩ (by rfl)) rfl (by rfl) (by rfl) (by rfl) (by rfl) (by rfl)

theorem c1_ft129 : isFreeTile ⟨"tile-130", "characters-5", 7, 5, 1, false⟩ c1Tiles = false :=
  isFreeTile_false_sides_intro _ c1Tiles rfl
    _ (mem_of_getElem?_some c1Tiles 128 ⟨"tile-129", "circles-1", 6, 5, 1, false⟩ (by rfl)) rfl (by rfl) (by rfl) (by rfl) (by rfl) (by rfl)
    _ (mem_of_getElem?_some c1Tiles 130 ⟨"tile-131", "bamboo-8", 8, 5, 1, false⟩ (by rfl)) rfl (by rfl) (by rfl) (by rfl) (by rfl) (by rfl)

theorem c1_ft130 : isFreeTile ⟨"tile-131", "bamboo-8", 8, 5, 1, false⟩ c1Tiles = false :=
  isFreeTile_false_sides_intro _ c1Tiles rfl
    _ (mem_of_getElem?_some c1Tiles 129 ⟨"tile-130", "characters-5", 7, 5, 1, false⟩ (by rfl)) rfl (by rfl) (by rfl) (by rfl) (by rfl) (by rfl)
    _ (mem_of_getElem?_some c1Tiles 131 ⟨"tile-132", "circles-8", 9, 5, 1, false⟩ (by rfl)) rfl (by rfl) (by rfl) (by rfl) (by rfl) (by rfl)

theorem c1_ft131 : isFreeTile ⟨"tile-132", "circles-8", 9, 5, 1, false⟩ c1Tiles = false :=
  isFreeTile_false_sides_intro _ c1Tiles rfl
    _ (mem_of_getElem?_some c1Tiles 130 ⟨"tile-131", "bamboo-8", 8, 5, 1, false⟩ (by rfl)) rfl (by rfl) (by rfl) (by rfl) (by rfl) (by rfl)
    _ (mem_of_getElem?_some c1Tiles 132 ⟨"tile-133", "circles-5", 10, 5, 1, false⟩ (by rfl)) rfl (by rfl) (by rfl) (by rfl) (by rfl) (by rfl)

theorem c1_ft132 : isFreeTile ⟨"tile-133", "circles-5", 10, 5, 1, false⟩ c1Tiles = false :=
  isFreeTile_false_sides_intro _ c1Tiles rfl
    _ (mem_of_getElem?_some c1Tiles 131 ⟨"tile-132", "circles-8", 9, 5, 1, false⟩ (by rfl)) rfl (by rfl) (by rfl) (by rfl) (by rfl) (by rfl)
    _ (mem_of_getElem?_some c1Tiles 133 ⟨"tile-134", "characters-4", 11, 5, 1, false⟩ (by rfl)) rfl (by rfl) (by rfl) (by rfl) (by rfl) (by rfl)

theorem c1_ft133 : isFreeTile ⟨"tile-134", "characters-4", 11, 5, 1, false⟩ c1Tiles = true :=
  isFreeTile_true_intro _ c1Tiles rfl (by rfl) (Or.inr (by rfl))

theorem c1_ft134 : isFreeTile ⟨"tile-135", "circles-3", 2, 6, 1, false⟩ c1Tiles = true :=
  isFreeTile_true_intro _ c1Tiles rfl (by rfl) (Or.inl (by rfl))

theorem c1_ft135 : isFreeTile ⟨"tile-136", "bamboo-5", 3, 6, 1, false⟩ c1Tiles = false :=
  isFreeTile_false_sides_intro _ c1Tiles rfl
    _ (mem_of_getElem?_some c1Tiles 134 ⟨"tile-135", "circles-3", 2, 6, 1, false⟩ (by rfl)) rfl (by rfl) (by rfl) (by rfl) (by rfl) (by rfl)
    _ (mem_of_getElem?_some c1Tiles 136 ⟨"tile-137", "bamboo-3", 4, 6, 1, false⟩ (by rfl)) rfl (by rfl) (by rfl) (by rfl) (by rfl) (by rfl)

theorem c1_ft136 : isFreeTile ⟨"tile-137", "bamboo-3", 4, 6, 1, false⟩ c1Tiles = false :=
  isFreeTile_false_sides_intro _ c1Tiles rfl
    _ (mem_of_getElem?_some c1Tiles 135 ⟨"tile-136", "bamboo-5", 3, 6, 1, false⟩ (by rfl)) rfl (by rfl) (by rfl) (by rfl) (by rfl) (by rfl)
    _ (mem_of_getElem?_some c1Tiles 137 ⟨"tile-138", "circles-9", 5, 6, 1, false⟩ (by rfl)) rfl (by rfl) (by rfl) (by rfl) (by rfl) (by rfl)

theorem c1_ft137 : isFreeTile ⟨"tile-138", "circles-9", 5, 6, 1, false⟩ c1Tiles = false :=
  isFreeTile_false_sides_intro _ c1Tiles rfl
    _ (mem_of_getElem?_some c1Tiles 136 ⟨"tile-137", "bamboo-3", 4, 6, 1, false⟩ (by rfl)) rfl (by rfl) (by rfl) (by rfl) (by rfl) (by rfl)
    _ (mem_of_getElem?_some c1Tiles 138 ⟨"tile-139", "circles-6", 6, 6, 1, false⟩ (by rfl)) rfl (by rfl) (by rfl) (by rfl) (by rfl) (by rfl)

theorem c1_ft138 : isFreeTile ⟨"tile-139", "circles-6", 6, 6, 1, false⟩ c1Tiles = false :=
  isFreeTile_false_sides_intro _ c1Tiles rfl
    _ (mem_of_getElem?_some c1Tiles 137 ⟨"tile-138", "circles-9", 5, 6, 1, false⟩ (by rfl)) rfl (by rfl) (by rfl) (by rfl) (by rfl) (by rfl)
    _ (mem_of_getElem?_some c1Tiles 139 ⟨"tile-140", "circles-4", 7, 6, 1, false⟩ (by rfl)) rfl (by rfl) (by rfl) (by rfl) (by rfl) (by rfl)

theorem c1_ft139 : isFreeTile ⟨"tile-140", "circles-4", 7, 6, 1, false⟩ c1Tiles = false :=
  isFreeTile_false_sides_intro _ c1Tiles rfl
    _ (mem_of_getElem?_some c1Tiles 138 ⟨"tile-139", "circles-6", 6, 6, 1, false⟩ (by rfl)) rfl (by rfl) (by rfl) (by rfl) (by rfl) (by rfl)
    _ (mem_of_getElem?_some c1Tiles 140 ⟨"tile-141", "circles-1", 8, 6, 1, false⟩ (by rfl)) rfl (by rfl) (by rfl) (by rfl) (by rfl) (by rfl)

theorem c1_ft140 : isFreeTile ⟨"tile-141", "circles-1", 8, 6, 1, false⟩ c1Tiles = false :=
  isFreeTile_false_sides_intro _ c1Tiles rfl
    _ (mem_of_getElem?_some c1Tiles 139 ⟨"tile-140", "circles-4", 7, 6, 1, false⟩ (by rfl)) rfl (by rfl) (by rfl) (by rfl) (by rfl) (by rfl)
    _ (mem_of_getElem?_some c1Tiles 141 ⟨"tile-142", "characters-5", 9, 6, 1, false⟩ (by rfl)) rfl (by rfl) (by rfl) (by rfl) (by rfl) (by rfl)

theorem c1_ft141 : isFreeTile ⟨"tile-142", "characters-5", 9, 6, 1, false⟩ c1Tiles = false :=
  isFreeTile_false_sides_intro _ c1Tiles rfl
    _ (mem_of_getElem?_some c1Tiles 140 ⟨"tile-141", "circles-1", 8, 6, 1, false⟩ (by rfl)) rfl (by rfl) (by rfl) (by rfl) (by rfl) (by rfl)
    _ (mem_of_getElem?_some c1Tiles 142 ⟨"tile-143", "bamboo-8", 10, 6, 1, false⟩ (by rfl)) rfl (by rfl) (by rfl) (by rfl) (by rfl) (by rfl)

theorem c1_ft142 : isFreeTile ⟨"tile-143", "bamboo-8", 10, 6, 1, false⟩ c1Tiles = false :=
  isFreeTile_false_sides_intro _ c1Tiles rfl
    _ (mem_of_getElem?_some c1Tiles 141 ⟨"tile-142", "characters-5", 9, 6, 1, false⟩ (by rfl)) rfl (by rfl) (by rfl) (by rfl) (by rfl) (by rfl)
    _ (mem_of_getElem?_some c1Tiles 143 ⟨"tile-144", "bamboo-4", 11, 6, 1, false⟩ (by rfl)) rfl (by rfl) (by rfl) (by rfl) (by rfl) (by rfl)

theorem c1_ft143 : isFreeTile ⟨"tile-144", "bamboo-4", 11, 6, 1, false⟩ c1Tiles = true :=
  isFreeTile_true_intro _ c1Tiles rfl (by rfl) (Or.inr (by rfl))

theorem c1_free_chunk0 : c1Part0.filter (fun t => isFreeTile t c1Tiles) = c1FreeP0 := by
  simp only [c1Part0, List.filter_cons, c1_ft0, c1_ft1, c1_ft2, c1_ft3, c1_ft4, c1_ft5, c1_ft6, c1_ft7, c1_ft8, c1_ft9, c1_ft10, c1_ft11, c1_ft12, c1_ft13, c1_ft14, c1_ft15,
    eq_self_iff_true, Bool.false_eq_true, if_true, if_false, List.filter_nil, c1FreeP0]

theorem c1_free_chunk1 : c1Part1.filter (fun t => isFreeTile t c1Tiles) = c1FreeP1 := by
  simp only [c1Part1, List.filter_cons, c1_ft16, c1_ft17, c1_ft18, c1_ft19, c1_ft20, c1_ft21, c1_ft22, c1_ft23, c1_ft24, c1_ft25, c1_ft26, c1_ft27, c1_ft28, c1_ft29, c1_ft30, c1_ft31,
    eq_self_iff_true, Bool.false_eq_true, if_true, if_false, List.filter_nil, c1FreeP1]

theorem c1_free_chunk2 : c1Part2.filter (fun t => isFreeTile t c1Tiles) = c1FreeP2 := by
  simp only [c1Part2, List.filter_cons, c1_ft32, c1_ft33, c1_ft34, c1_ft35, c1_ft36, c1_ft37, c1_ft38, c1_ft39, c1_ft40, c1_ft41, c1_ft42, c1_ft43, c1_ft44, c1_ft45, c1_ft46, c1_ft47,
    eq_self_iff_true, Bool.false_eq_true, if_true, if_false, List.filter_nil, c1FreeP2]

theorem c1_free_chunk3 : c1Part3.filter (fun t => isFreeTile t c1Tiles) = c1FreeP3 := by
  simp only [c1Part3, List.filter_cons, c1_ft48, c1_ft49, c1_ft50, c1_ft51, c1_ft52, c1_ft53, c1_ft54, c1_ft55, c1_ft56, c1_ft57, c1_ft58, c1_ft59, c1_ft60, c1_ft61, c1_ft62, c1_ft63,
    eq_self_iff_true, Bool.false_eq_true, if_true, if_false, List.filter_nil, c1FreeP3]

theorem c1_free_chunk4 : c1Part4.filter (fun t => isFreeTile t c1Tiles) = c1FreeP4 := by
  simp only [c1Part4, List.filter_cons, c1_ft64, c1_ft65, c1_ft66, c1_ft67, c1_ft68, c1_ft69, c1_ft70, c1_ft71, c1_ft72, c1_ft73, c1_ft74, c1_ft75, c1_ft76, c1_ft77, c1_ft78, c1_ft79,
    eq_self_iff_true, Bool.false_eq_true, if_true, if_false, List.filter_nil, c1FreeP4]

theorem c1_free_chunk5 : c1Part5.filter (fun t => isFreeTile t c1Tiles) = c1FreeP5 := by
  simp only [c1Part5, List.filter_cons, c1_ft80, c1_ft81, c1_ft82, c1_ft83, c1_ft84, c1_ft85, c1_ft86, c1_ft87, c1_ft88, c1_ft89, c1_ft90, c1_ft91, c1_ft92, c1_ft93, c1_ft94, c1_ft95,
    eq_self_iff_true, Bool.false_eq_true, if_true, if_false, List.filter_nil, c1FreeP5]

theorem c1_free_chunk6 : c1Part6.filter (fun t => isFreeTile t c1Tiles) = c1FreeP6 := by
  simp only [c1Part6, List.filter_cons, c1_ft96, c1_ft97, c1_ft98, c1_ft99, c1_ft100, c1_ft101, c1_ft102, c1_ft103, c1_ft104, c1_ft105, c1_ft106, c1_ft107, c1_ft108, c1_ft109, c1_ft110, c1_ft111,
    eq_self_iff_true, Bool.false_eq_true, if_true, if_false, List.filter_nil, c1FreeP6]

theorem c1_free_chunk7 : c1Part7.filter (fun t => isFreeTile t c1Tiles) = c1FreeP7 := by
  simp only [c1Part7, List.filter_cons, c1_ft112, c1_ft113, c1_ft114, c1_ft115, c1_ft116, c1_ft117, c1_ft118, c1_ft119, c1_ft120, c1_ft121, c1_ft122, c1_ft123, c1_ft124, c1_ft125, c1_ft126, c1_ft127,
    eq_self_iff_true, Bool.false_eq_true, if_true, if_false, List.filter_nil, c1FreeP7]

theorem c1_free_chunk8 : c1Part8.filter (fun t => isFreeTile t c1Tiles) = c1FreeP8 := by
  simp only [c1Part8, List.filter_cons, c1_ft128, c1_ft129, c1_ft130, c1_ft131, c1_ft132, c1_ft133, c1_ft134, c1_ft135, c1_ft136, c1_ft137, c1_ft138, c1_ft139, c1_ft140, c1_ft141, c1_ft142, c1_ft143,
    eq_self_iff_true, Bool.false_eq_true, if_true, if_false, List.filter_nil, c1FreeP8]

/-- The 28 free tiles carry pairwise distinct type ids. -/
theorem c1Free_typeIds_nodup : (c1Free.map fun t => t.typeId).Nodup := by
  decide

/-- Every free tile type id resolves in the catalog to a type with that id and
no match group (evaluated). -/
theorem c1Free_resolve_eval : (c1Free.all fun a =>
    match getTileTypeById a.typeId with
    | some ta => (ta.id == a.typeId) && (ta.matchGroup == none)
    | none => false) = true := by
  rfl

/-- Pointwise form of `c1Free_resolve_eval`. -/
theorem c1Free_resolve (a : TileInstance) (ha : a ∈ c1Free) :
    ∃ ta, getTileTypeById a.typeId = some ta ∧ ta.id = a.typeId ∧
      ta.matchGroup = none := by
  have h := List.all_eq_true.mp c1Free_resolve_eval a ha
  cases hres : getTileTypeById a.typeId with
  | none => rw [hres] at h; simp at h
  | some ta =>
    rw [hres] at h
    simp only [Bool.and_eq_true, beq_iff_eq] at h
    exact ⟨ta, rfl, h.1, h.2⟩

theorem c1_pairs_empty : (allPairs c1Free).filter (fun p =>
    match getTileTypeById p.1.typeId, getTileTypeById p.2.typeId with
    | some t1, some t2 => tilesMatch t1 t2
    | _, _ => false) = [] := by
  rw [List.filter_eq_nil_iff]
  intro p hp
  obtain ⟨hne, h1, h2⟩ := allPairs_map_ne (fun t => t.typeId) c1Free c1Free_typeIds_nodup p hp
  obtain ⟨ta, hta, htaid, htag⟩ := c1Free_resolve p.1 h1
  obtain ⟨tb, htb, htbid, htbg⟩ := c1Free_resolve p.2 h2
  simp only [hta, htb]
  have hid : (ta.id == tb.id) = false := by
    rw [htaid, htbid]
    exact beq_eq_false_iff_ne.mpr hne
  unfold tilesMatch
  simp only [hid, Bool.false_eq_true, if_false, htag, htbg]
  simp

set_option maxRecDepth 40000 in
set_option maxHeartbeats 2000000 in
theorem c1_active_eq : c1Tiles.filter (fun t => !t.isRemoved) = c1Tiles := by
  rfl

set_option maxRecDepth 40000 in
set_option maxHeartbeats 2000000 in
theorem c1_free_eq : c1Tiles.filter (fun t => isFreeTile t c1Tiles) = c1Free := by
  show (c1Part0 ++ c1Part1 ++ c1Part2 ++ c1Part3 ++ c1Part4 ++ c1Part5 ++ c1Part6 ++
      c1Part7 ++ c1Part8).filter (fun t => isFreeTile t c1Tiles) = c1Free
  simp only [List.filter_append, c1_free_chunk0, c1_free_chunk1, c1_free_chunk2,
    c1_free_chunk3, c1_free_chunk4, c1_free_chunk5, c1_free_chunk6, c1_free_chunk7,
    c1_free_chunk8]
  rfl

set_option maxRecDepth 40000 in
set_option maxHeartbeats 2000000 in
theorem c1_no_matches : findAllMatches c1Tiles = [] := by
  show (allPairs ((c1Tiles.filter fun t => !t.isRemoved).filter
      (fun t => isFreeTile t (c1Tiles.filter fun t => !t.isRemoved)))).filter (fun p =>
    match getTileTypeById p.1.typeId, getTileTypeById p.2.typeId with
    | some t1, some t2 => tilesMatch t1 t2
    | _, _ => false) = []
  rw [c1_active_eq]
  rw [c1_free_eq]
  exact c1_pairs_empty

set_option maxRecDepth 40000 in
set_option maxHeartbeats 8000000 in
theorem c1_shuffled_eq :
    (fisherYates c1Oracle (STANDARD_TILES.flatMap (fun t => List.replicate 4 t) ++
      ALL_TILE_TYPES.filter hasMatchGroup) 0).1 = c1ShuffledTypes := by
  rfl

set_option maxRecDepth 40000 in
set_option maxHeartbeats 8000000 in
theorem c1_mkTiles_eq : mkTiles turtleLayout.positions c1ShuffledTypes = c1Tiles := by
  rfl

set_option maxRecDepth 40000 in
set_option maxHeartbeats 8000000 in
theorem c1_post_eq : postProcess c1Tiles = c1Tiles := by
  rfl

set_option maxRecDepth 40000 in
set_option maxHeartbeats 2000000 in
theorem c1_board_unfold :
    (generateBoard c1Oracle (some "turtle")).tiles =
      postProcess (mkTiles turtleLayout.positions
        (fisherYates c1Oracle (STANDARD_TILES.flatMap (fun t => List.replicate 4 t) ++
          ALL_TILE_TYPES.filter hasMatchGroup) 0).1) := by
  rfl

theorem c1_board_eq : (generateBoard c1Oracle (some "turtle")).tiles = c1Tiles := by
  rw [c1_board_unfold, c1_shuffled_eq, c1_mkTiles_eq, c1_post_eq]

set_option maxRecDepth 40000 in
set_option maxHeartbeats 2000000 in
/-- C1 fails: under the random sequence `c1Oracle`, `generateBoard` lays out
a turtle board that is stuck before the first move — its 28 free tiles carry
28 pairwise non-matching types — so `checkStuck` holds with all 144 tiles
still present and the board is not clearable. -/
theorem generateBoard_not_clearable :
    checkStuck ((generateBoard c1Oracle (some "turtle")).tiles) = true ∧
    ¬ Clearable ((generateBoard c1Oracle (some "turtle")).tiles) := by
  have hw : checkWin c1Tiles = false := by rfl
  constructor
  · rw [c1_board_eq]
    unfold checkStuck
    rw [hw, c1_no_matches]
    rfl
  · rw [c1_board_eq]
    intro hcl
    cases hcl with
    | win hwin => rw [hw] at hwin; exact Bool.false_ne_true hwin
    | step hne _ => exact hne c1_no_matches
